import Mathlib

/-!
# Keymaster trusted application: key-material codec and master-key wrap engine

A shallow embedding of `keymaster/ta/generator.c` and `keymaster/ta/master_crypto.c`.

* Result codes (`TEE_Result`, `keymaster_error_t`) are integers and are only ever compared
  for equality; `0` is both `TEE_SUCCESS` and `KM_ERROR_OK`.
* `uint32_t` values are natural numbers; the running offset `padding` is reduced modulo
  `2 ^ 32` after every addition.
* The memory behind the pointer `key_material` is a function from byte offsets to bytes
  (`Mem`); it has no end, so that a read beyond the declared length of a buffer is visible
  as a read and not hidden by the model.
* Calls into the TEE (storage, random source, primitive engine, heap) are answered by an
  environment record that holds one answer per call site; the calls made are recorded in a
  trace of `Event`s.
-/

namespace KMGK

/-! ## Constants of the GlobalPlatform and keymaster headers -/

def TEE_SUCCESS : Int := 0
def TEE_HANDLE_NULL : Nat := 0
def TEE_ERROR_ITEM_NOT_FOUND : Int := 0xFFFF0008
def TEE_ERROR_MAC_INVALID : Int := 0xFFFF3071

def KM_ERROR_OK : Int := 0
def KM_ERROR_UNSUPPORTED_ALGORITHM : Int := -4
def KM_ERROR_UNSUPPORTED_KEY_SIZE : Int := -6
def KM_ERROR_UNSUPPORTED_DIGEST : Int := -12
def KM_ERROR_INCOMPATIBLE_DIGEST : Int := -13
def KM_ERROR_MEMORY_ALLOCATION_FAILED : Int := -41
def KM_ERROR_UNKNOWN_ERROR : Int := -1000

def KM_ALGORITHM_RSA : Nat := 1
def KM_ALGORITHM_EC : Nat := 3
def KM_ALGORITHM_AES : Nat := 32
def KM_ALGORITHM_HMAC : Nat := 128

def KM_DIGEST_NONE : Nat := 0
def KM_DIGEST_MD5 : Nat := 1
def KM_DIGEST_SHA1 : Nat := 2
def KM_DIGEST_SHA_2_224 : Nat := 3
def KM_DIGEST_SHA_2_256 : Nat := 4
def KM_DIGEST_SHA_2_384 : Nat := 5
def KM_DIGEST_SHA_2_512 : Nat := 6

def TEE_TYPE_AES : Nat := 0xA0000010
def TEE_TYPE_HMAC_MD5 : Nat := 0xA0000001
def TEE_TYPE_HMAC_SHA1 : Nat := 0xA0000002
def TEE_TYPE_HMAC_SHA224 : Nat := 0xA0000003
def TEE_TYPE_HMAC_SHA256 : Nat := 0xA0000004
def TEE_TYPE_HMAC_SHA384 : Nat := 0xA0000005
def TEE_TYPE_HMAC_SHA512 : Nat := 0xA0000006
def TEE_TYPE_RSA_KEYPAIR : Nat := 0xA1000030
def TEE_TYPE_ECDSA_KEYPAIR : Nat := 0xA1000041

def TEE_ATTR_SECRET_VALUE : Nat := 0xC0000000
def TEE_ATTR_RSA_MODULUS : Nat := 0xD0000130
def TEE_ATTR_RSA_PUBLIC_EXPONENT : Nat := 0xD0000230
def TEE_ATTR_RSA_PRIVATE_EXPONENT : Nat := 0xC0000330
def TEE_ATTR_RSA_PRIME1 : Nat := 0xC0000430
def TEE_ATTR_RSA_PRIME2 : Nat := 0xC0000530
def TEE_ATTR_RSA_EXPONENT1 : Nat := 0xC0000630
def TEE_ATTR_RSA_EXPONENT2 : Nat := 0xC0000730
def TEE_ATTR_RSA_COEFFICIENT : Nat := 0xC0000830
def TEE_ATTR_ECC_PUBLIC_VALUE_X : Nat := 0xD0000141
def TEE_ATTR_ECC_PUBLIC_VALUE_Y : Nat := 0xD0000241
def TEE_ATTR_ECC_PRIVATE_VALUE : Nat := 0xC0000341
def TEE_ATTR_ECC_CURVE : Nat := 0xF0000441

def TEE_MODE_ENCRYPT : Nat := 0
def TEE_MODE_DECRYPT : Nat := 1
def TEE_ALG_AES_GCM : Nat := 0x40000810

def TEE_MODE_SIGN : Nat := 2
def TEE_MODE_VERIFY : Nat := 3
def TEE_MODE_MAC : Nat := 4
def TEE_MODE_DIGEST : Nat := 5
def TEE_MODE_DERIVE : Nat := 6
def UINT32_MAX : Nat := 4294967295

def KM_ERROR_UNSUPPORTED_PURPOSE : Int := -2
def KM_ERROR_SECURE_HW_COMMUNICATION_FAILED : Int := -49
def TEE_ERROR_OUT_OF_MEMORY : Int := 0xFFFF000C
def TEE_ERROR_BAD_PARAMETERS : Int := 0xFFFF0006
def TEE_ERROR_NOT_SUPPORTED : Int := 0xFFFF000A

def KM_PURPOSE_ENCRYPT : Nat := 0
def KM_PURPOSE_DECRYPT : Nat := 1
def KM_PURPOSE_SIGN : Nat := 2
def KM_PURPOSE_VERIFY : Nat := 3
def KM_PURPOSE_DERIVE_KEY : Nat := 4

def KM_MODE_ECB : Nat := 1
def KM_MODE_CBC : Nat := 2
def KM_MODE_CTR : Nat := 3
def KM_MODE_GCM : Nat := 32

def KM_PAD_NONE : Nat := 1
def KM_PAD_RSA_OAEP : Nat := 2
def KM_PAD_RSA_PSS : Nat := 3
def KM_PAD_RSA_PKCS1_1_5_ENCRYPT : Nat := 4
def KM_PAD_RSA_PKCS1_1_5_SIGN : Nat := 5
def KM_PAD_PKCS7 : Nat := 64

def TEE_ALG_AES_ECB_NOPAD : Nat := 0x10000010
def TEE_ALG_AES_CBC_NOPAD : Nat := 0x10000110
def TEE_ALG_AES_CTR : Nat := 0x10000210
def TEE_ALG_RSASSA_PKCS1_V1_5_MD5 : Nat := 0x70001830
def TEE_ALG_RSASSA_PKCS1_V1_5_SHA1 : Nat := 0x70002830
def TEE_ALG_RSASSA_PKCS1_V1_5_SHA224 : Nat := 0x70003830
def TEE_ALG_RSASSA_PKCS1_V1_5_SHA256 : Nat := 0x70004830
def TEE_ALG_RSASSA_PKCS1_V1_5_SHA384 : Nat := 0x70005830
def TEE_ALG_RSASSA_PKCS1_V1_5_SHA512 : Nat := 0x70006830
def TEE_ALG_RSASSA_PKCS1_V1_5 : Nat := 0xF0000830
def TEE_ALG_RSASSA_PKCS1_PSS_MGF1_MD5 : Nat := 0xF0111930
def TEE_ALG_RSASSA_PKCS1_PSS_MGF1_SHA1 : Nat := 0x70212930
def TEE_ALG_RSASSA_PKCS1_PSS_MGF1_SHA224 : Nat := 0x70313930
def TEE_ALG_RSASSA_PKCS1_PSS_MGF1_SHA256 : Nat := 0x70414930
def TEE_ALG_RSASSA_PKCS1_PSS_MGF1_SHA384 : Nat := 0x70515930
def TEE_ALG_RSASSA_PKCS1_PSS_MGF1_SHA512 : Nat := 0x70616930
def TEE_ALG_RSAES_PKCS1_V1_5 : Nat := 0x60000130
def TEE_ALG_RSAES_PKCS1_OAEP_MGF1_MD5 : Nat := 0xF0110230
def TEE_ALG_RSAES_PKCS1_OAEP_MGF1_SHA1 : Nat := 0x60210230
def TEE_ALG_RSAES_PKCS1_OAEP_MGF1_SHA224 : Nat := 0x60310230
def TEE_ALG_RSAES_PKCS1_OAEP_MGF1_SHA256 : Nat := 0x60410230
def TEE_ALG_RSAES_PKCS1_OAEP_MGF1_SHA384 : Nat := 0x60510230
def TEE_ALG_RSAES_PKCS1_OAEP_MGF1_SHA512 : Nat := 0x60610230
def TEE_ALG_RSA_NOPAD : Nat := 0x60000030
def TEE_ALG_ECDSA_P192 : Nat := 0x70001041
def TEE_ALG_ECDSA_P224 : Nat := 0x70002041
def TEE_ALG_ECDSA_P256 : Nat := 0x70003041
def TEE_ALG_ECDSA_P384 : Nat := 0x70004041
def TEE_ALG_ECDSA_P521 : Nat := 0x70005041
def TEE_ALG_HMAC_MD5 : Nat := 0x30000001
def TEE_ALG_HMAC_SHA1 : Nat := 0x30000002
def TEE_ALG_HMAC_SHA224 : Nat := 0x30000003
def TEE_ALG_HMAC_SHA256 : Nat := 0x30000004
def TEE_ALG_HMAC_SHA384 : Nat := 0x30000005
def TEE_ALG_HMAC_SHA512 : Nat := 0x30000006
def TEE_ALG_MD5 : Nat := 0x50000001
def TEE_ALG_SHA1 : Nat := 0x50000002
def TEE_ALG_SHA224 : Nat := 0x50000003
def TEE_ALG_SHA256 : Nat := 0x50000004
def TEE_ALG_SHA384 : Nat := 0x50000005
def TEE_ALG_SHA512 : Nat := 0x50000006

def TEE_ECC_CURVE_NIST_P192 : Nat := 1
def TEE_ECC_CURVE_NIST_P224 : Nat := 2
def TEE_ECC_CURVE_NIST_P256 : Nat := 3
def TEE_ECC_CURVE_NIST_P384 : Nat := 4
def TEE_ECC_CURVE_NIST_P521 : Nat := 5

/-- Number of values of a `uint32_t`. -/
def U32 : Nat := 4294967296

/-! ## Attribute schema registry (`generator.c`, lines 20-87) -/

/-- Modelled from the spec: the array lengths `KM_ATTR_COUNT_AES_HMAC`, `KM_ATTR_COUNT_RSA`
and `KM_ATTR_COUNT_EC` of `generator.h`, which is not among the sources; the spec gives
1 tag for AES/HMAC, 8 for RSA and 4 for EC, the numbers of initialisers in `generator.c`. -/
def KM_ATTR_COUNT_AES_HMAC : Nat := 1

/-- Modelled from the spec: see `KM_ATTR_COUNT_AES_HMAC`. -/
def KM_ATTR_COUNT_RSA : Nat := 8

/-- Modelled from the spec: see `KM_ATTR_COUNT_AES_HMAC`. -/
def KM_ATTR_COUNT_EC : Nat := 4

def attributes_aes_hmac : List Nat := [TEE_ATTR_SECRET_VALUE]

def attributes_rsa : List Nat :=
  [TEE_ATTR_RSA_MODULUS, TEE_ATTR_RSA_PUBLIC_EXPONENT, TEE_ATTR_RSA_PRIVATE_EXPONENT,
   TEE_ATTR_RSA_PRIME1, TEE_ATTR_RSA_PRIME2, TEE_ATTR_RSA_EXPONENT1,
   TEE_ATTR_RSA_EXPONENT2, TEE_ATTR_RSA_COEFFICIENT]

def attributes_ec : List Nat :=
  [TEE_ATTR_ECC_CURVE, TEE_ATTR_ECC_PUBLIC_VALUE_X, TEE_ATTR_ECC_PUBLIC_VALUE_Y,
   TEE_ATTR_ECC_PRIVATE_VALUE]

def attributes_ec_short : List Nat :=
  [TEE_ATTR_ECC_PRIVATE_VALUE, TEE_ATTR_ECC_PUBLIC_VALUE_X, TEE_ATTR_ECC_PUBLIC_VALUE_Y]

def TA_get_attrs_list_short (algorithm : Nat) (short_list : Bool) : List Nat :=
  if algorithm = KM_ALGORITHM_EC then
    if short_list then attributes_ec_short else attributes_ec
  else if algorithm = KM_ALGORITHM_RSA then attributes_rsa
  else attributes_aes_hmac

def TA_get_attrs_list (algorithm : Nat) : List Nat :=
  TA_get_attrs_list_short algorithm false

/-- The per-algorithm attribute-size constants of `generator.h` (`KM_AES_ATTR_SIZE`,
`KM_HMAC_ATTR_SIZE`, `KM_RSA_ATTR_SIZE`, `KM_EC_ATTR_SIZE`); the header is not among the
sources, so the four values are parameters. -/
structure AttrSizes where
  KM_AES_ATTR_SIZE : Nat
  KM_HMAC_ATTR_SIZE : Nat
  KM_RSA_ATTR_SIZE : Nat
  KM_EC_ATTR_SIZE : Nat
  deriving Repr, DecidableEq

/-- `TA_get_key_size`: `sizeof(uint32_t)` and `sizeof(algorithm)` are 4, the result is a
`uint32_t`. -/
def TA_get_key_size (c : AttrSizes) (algorithm : Nat) : Nat :=
  if algorithm = KM_ALGORITHM_AES then
    (KM_ATTR_COUNT_AES_HMAC * (2 * 4 + c.KM_AES_ATTR_SIZE) + 4 + 4) % U32
  else if algorithm = KM_ALGORITHM_HMAC then
    (KM_ATTR_COUNT_AES_HMAC * (2 * 4 + c.KM_HMAC_ATTR_SIZE) + 4 + 4) % U32
  else if algorithm = KM_ALGORITHM_RSA then
    (KM_ATTR_COUNT_RSA * (2 * 4 + c.KM_RSA_ATTR_SIZE) + 4 + 4) % U32
  else if algorithm = KM_ALGORITHM_EC then
    (KM_ATTR_COUNT_EC * (2 * 4 + c.KM_EC_ATTR_SIZE) + 4 + 4) % U32
  else 0

/-- `is_attr_value`: bit 29 of the tag. -/
def is_attr_value (tag : Nat) : Bool :=
  (tag &&& (1 <<< 29)) != 0

/-! ## Memory -/

/-- The bytes found at each offset from the pointer `key_material`. -/
abbrev Mem := Nat → Nat

/-- `TEE_MemMove(dst + off, src, src.length)`. -/
def TEE_MemMove (dst : Mem) (off : Nat) (src : List Nat) : Mem :=
  fun i => if off ≤ i ∧ i < off + src.length then src.getD (i - off) 0 else dst i

/-- The `len` bytes at `m + off`. -/
def readBytes (m : Mem) (off len : Nat) : List Nat :=
  (List.range len).map (fun i => m (off + i))

/-- Object representation of a `uint32_t` (little endian, as on the ARM targets). -/
def u32_bytes (v : Nat) : List Nat :=
  [v % 256, v / 256 % 256, v / 65536 % 256, v / 16777216 % 256]

/-- The `uint32_t` whose object representation is at `m + off`. -/
def load_u32 (m : Mem) (off : Nat) : Nat :=
  m off % 256 + 256 * (m (off + 1) % 256) + 65536 * (m (off + 2) % 256)
    + 16777216 * (m (off + 3) % 256)

/-! ## Attributes -/

/-- The union `content` of a `TEE_Attribute`: `value.a`, `value.b` or `ref.buffer` with
`ref.length` the number of bytes of the buffer. -/
inductive Content where
  | value (a b : Nat)
  | ref (buffer : List Nat)
  deriving Repr, DecidableEq

structure TEE_Attribute where
  attributeID : Nat
  content : Content
  deriving Repr, DecidableEq

/-- Member `content.value.a`; reading it from a reference attribute is outside the model and
gives 0. -/
def Content.a : Content → Nat
  | .value a _ => a
  | .ref _ => 0

/-- Member `content.value.b`. -/
def Content.b : Content → Nat
  | .value _ b => b
  | .ref _ => 0

/-- Member `content.ref.buffer`; reading it from a value attribute is outside the model and
gives no bytes. -/
def Content.buffer : Content → List Nat
  | .value _ _ => []
  | .ref buf => buf

/-- Member `content.ref.length`. -/
def Content.length (c : Content) : Nat := c.buffer.length

def TEE_InitValueAttribute (tag a b : Nat) : TEE_Attribute := ⟨tag, .value a b⟩

def TEE_InitRefAttribute (tag : Nat) (buf : List Nat) : TEE_Attribute := ⟨tag, .ref buf⟩

/-! ## Serializer: `TA_import_key` (`generator.c`, lines 206-285) -/

/-- The object type chosen by the `switch (algorithm)` of `TA_import_key`, or the error it
returns. -/
def import_type (algorithm digest : Nat) : Except Int Nat :=
  if algorithm = KM_ALGORITHM_AES then .ok TEE_TYPE_AES
  else if algorithm = KM_ALGORITHM_HMAC then
    if digest = KM_DIGEST_MD5 then .ok TEE_TYPE_HMAC_MD5
    else if digest = KM_DIGEST_SHA1 then .ok TEE_TYPE_HMAC_SHA1
    else if digest = KM_DIGEST_SHA_2_224 then .ok TEE_TYPE_HMAC_SHA224
    else if digest = KM_DIGEST_SHA_2_256 then .ok TEE_TYPE_HMAC_SHA256
    else if digest = KM_DIGEST_SHA_2_384 then .ok TEE_TYPE_HMAC_SHA384
    else if digest = KM_DIGEST_SHA_2_512 then .ok TEE_TYPE_HMAC_SHA512
    else .error KM_ERROR_INCOMPATIBLE_DIGEST
  else if algorithm = KM_ALGORITHM_RSA then .ok TEE_TYPE_RSA_KEYPAIR
  else if algorithm = KM_ALGORITHM_EC then .ok TEE_TYPE_ECDSA_KEYPAIR
  else .error KM_ERROR_UNSUPPORTED_ALGORITHM

/-- One iteration of the `for` loop of `TA_import_key`: the memory and the offset `padding`
after attribute `attr` has been written. -/
def import_attr (km : Mem) (padding : Nat) (attr : TEE_Attribute) : Mem × Nat :=
  let km := TEE_MemMove km padding (u32_bytes attr.attributeID)
  let padding := (padding + 4) % U32
  if is_attr_value attr.attributeID then
    let km := TEE_MemMove km padding (u32_bytes attr.content.a)
    let padding := (padding + 4) % U32
    let km := TEE_MemMove km padding (u32_bytes attr.content.b)
    let padding := (padding + 4) % U32
    (km, padding)
  else
    let km := TEE_MemMove km padding (u32_bytes attr.content.length)
    let padding := (padding + 4) % U32
    let km := TEE_MemMove km padding attr.content.buffer
    let padding := (padding + attr.content.length) % U32
    (km, padding)

/-- The `for` loop of `TA_import_key` over `attrs_in[0 .. attrs_in_count)`. -/
def import_loop (km : Mem) (padding : Nat) : List TEE_Attribute → Mem × Nat
  | [] => (km, padding)
  | attr :: rest =>
    let s := import_attr km padding attr
    import_loop s.1 s.2 rest

/-- What `TA_import_key` leaves behind: its return value, the memory at `key_material` and
the final value of its local `padding` (the number of bytes written). -/
structure ImportResult where
  res : Int
  key_material : Mem
  padding : Nat

def TA_import_key (algorithm key_size : Nat) (key_material : Mem) (digest : Nat)
    (attrs_in : List TEE_Attribute) : ImportResult :=
  match import_type algorithm digest with
  | .error e => ⟨e, key_material, 0⟩
  | .ok type =>
    let km := TEE_MemMove key_material 0 (u32_bytes type)
    let padding := 4
    let km := TEE_MemMove km padding (u32_bytes key_size)
    let padding := padding + 4
    let s := import_loop km padding attrs_in
    ⟨KM_ERROR_OK, s.1, s.2⟩

/-! ## Deserializer: the decode steps of `TA_restore_key` (`generator.c`, lines 557-617) -/

/-- Locals of the decode loop, with the list of `(offset, length)` of every read made from
`key_material`. -/
structure DecodeState where
  padding : Nat
  attrs : List TEE_Attribute
  reads : List (Nat × Nat)
  deriving Repr, DecidableEq

/-- The `for` loop of `TA_restore_key`, from index `i` for `n` more iterations. `malloc i`
tells whether the `TEE_Malloc` of iteration `i` gives a buffer. Returns `res`, the final
`attrs_count` and the locals. -/
def restore_loop (malloc : Nat → Bool) (km : Mem) :
    Nat → Nat → DecodeState → Int × Nat × DecodeState
  | 0, i, s => (KM_ERROR_OK, i, s)
  | n + 1, i, s =>
    let tag := load_u32 km s.padding
    let reads := s.reads ++ [(s.padding, 4)]
    let padding := (s.padding + 4) % U32
    if is_attr_value tag then
      let a := load_u32 km padding
      let reads := reads ++ [(padding, 4)]
      let padding := (padding + 4) % U32
      let b := load_u32 km padding
      let reads := reads ++ [(padding, 4)]
      let padding := (padding + 4) % U32
      restore_loop malloc km n (i + 1)
        ⟨padding, s.attrs ++ [TEE_InitValueAttribute tag a b], reads⟩
    else
      let attr_size := load_u32 km padding
      let reads := reads ++ [(padding, 4)]
      let padding := (padding + 4) % U32
      if malloc i then
        let buf := readBytes km padding attr_size
        let reads := reads ++ [(padding, attr_size)]
        let padding := (padding + attr_size) % U32
        restore_loop malloc km n (i + 1)
          ⟨padding, s.attrs ++ [TEE_InitRefAttribute tag buf], reads⟩
      else
        (KM_ERROR_MEMORY_ALLOCATION_FAILED, i, ⟨padding, s.attrs, reads⟩)

/-- The `switch (*type)` of `TA_restore_key`: `(attrs_count, algorithm)`. -/
def restore_algorithm (type : Nat) : Nat × Nat :=
  if type = TEE_TYPE_AES then (KM_ATTR_COUNT_AES_HMAC, KM_ALGORITHM_AES)
  else if type = TEE_TYPE_RSA_KEYPAIR then (KM_ATTR_COUNT_RSA, KM_ALGORITHM_RSA)
  else if type = TEE_TYPE_ECDSA_KEYPAIR then (KM_ATTR_COUNT_EC, KM_ALGORITHM_EC)
  else (KM_ATTR_COUNT_AES_HMAC, KM_ALGORITHM_HMAC)

/-- Outcome of the decode steps of `TA_restore_key`. -/
structure Decoded where
  res : Int
  type : Nat
  key_size : Nat
  algorithm : Nat
  attrs_count : Nat
  st : DecodeState
  deriving Repr, DecidableEq

/-- The decode steps of `TA_restore_key` on decrypted key material: type, attribute count
of the type, key size, then the records. `attrs_ok` is the outcome of the `TEE_Malloc` of
the attribute array. -/
def restore_decode (attrs_ok : Bool) (malloc : Nat → Bool) (km : Mem) : Decoded :=
  let type := load_u32 km 0
  let reads := [(0, 4)]
  let padding := 4
  let ca := restore_algorithm type
  if attrs_ok then
    let key_size := load_u32 km padding
    let reads := reads ++ [(padding, 4)]
    let padding := padding + 4
    let r := restore_loop malloc km ca.1 0 ⟨padding, [], reads⟩
    ⟨r.1, type, key_size, ca.2, r.2.1, r.2.2⟩
  else
    ⟨KM_ERROR_MEMORY_ALLOCATION_FAILED, type, 0, ca.2, ca.1, ⟨padding, [], reads⟩⟩

/-! ## Codec: bytes of the wire format -/

/-- Bytes of one record of the wire format: the tag, then `a` and `b`, or the length and the
bytes of the buffer. -/
def attr_bytes (attr : TEE_Attribute) : List Nat :=
  u32_bytes attr.attributeID ++
    (if is_attr_value attr.attributeID then
      u32_bytes attr.content.a ++ u32_bytes attr.content.b
    else u32_bytes attr.content.length ++ attr.content.buffer)

/-- Bytes of the records of an attribute list, in order. -/
def attrs_bytes : List TEE_Attribute → List Nat
  | [] => []
  | attr :: rest => attr_bytes attr ++ attrs_bytes rest

/-- Number of bytes of one record: 4 for the tag and 8 for a value pair or 4 plus the buffer
length for a reference. -/
def record_size (attr : TEE_Attribute) : Nat :=
  4 + (if is_attr_value attr.attributeID then 8 else 4 + attr.content.length)

/-- Number of bytes of the wire format of an attribute list: type, key size, records. -/
def serialized_size (attrs : List TEE_Attribute) : Nat :=
  8 + (attrs.map record_size).sum

/-- An attribute as the C types allow it: 32-bit tag, value payload with 32-bit members
exactly when `is_attr_value` holds of the tag, reference payload with a 32-bit length
otherwise. -/
def TEE_Attribute.wf (attr : TEE_Attribute) : Bool :=
  decide (attr.attributeID < U32) &&
    match attr.content with
    | .value a b => is_attr_value attr.attributeID && decide (a < U32) && decide (b < U32)
    | .ref buf => !is_attr_value attr.attributeID && decide (buf.length < U32)

/-- The memory holds the bytes `bs` from offset `p` on. -/
def MemHas (km : Mem) (p : Nat) (bs : List Nat) : Prop :=
  ∀ i, i < bs.length → km (p + i) = bs.getD i 0

/-! ## Calls into the TEE -/

/-- A call to the secure storage, the random source or the primitive engine, with the
arguments that matter. -/
inductive Event where
  | OpenPersistentObject
  | CreatePersistentObject
  | ReadObjectData (object size : Nat)
  | WriteObjectData (object : Nat) (data : List Nat)
  | CloseObject (object : Nat)
  | CloseAndDeletePersistentObject (object : Nat)
  | GenerateRandom (size : Nat)
  | AllocateTransientObject (type size : Nat)
  | PopulateTransientObject (object : Nat) (attrs : List TEE_Attribute)
  | GetObjectInfo1 (object : Nat)
  | AllocateOperation (algo mode maxKeySize : Nat)
  | SetOperationKey (op key : Nat)
  | AEInit (op : Nat) (nonce : List Nat) (tagLen AADLen payloadLen : Nat)
  | CipherInit (op : Nat) (IV : List Nat)
  | MACInit (op : Nat) (IV : List Nat)
  | DigestDoFinal (op : Nat) (chunk : List Nat)
  | AEEncryptFinal (op : Nat) (src : List Nat)
  | AEDecryptFinal (op : Nat) (src tag : List Nat) (tagLen : Nat)
  | FreeOperation (op : Nat)
  | GenerateKey (object keySize : Nat) (params : List TEE_Attribute)
  | GetObjectValueAttribute (object attributeID : Nat)
  | GetObjectBufferAttribute (object attributeID : Nat)
  | FreeTransientObject (object : Nat)
  deriving Repr, DecidableEq

/-- The call is one to the secure storage. -/
def Event.isStorage : Event → Bool
  | .OpenPersistentObject => true
  | .CreatePersistentObject => true
  | .ReadObjectData _ _ => true
  | .WriteObjectData _ _ => true
  | .CloseObject _ => true
  | .CloseAndDeletePersistentObject _ => true
  | _ => false

/-- The call allocates or populates a transient key object. -/
def Event.isKeyObject : Event → Bool
  | .AllocateTransientObject _ _ => true
  | .PopulateTransientObject _ _ => true
  | _ => false

/-- The buffer `buf` after `data` has been written at its start (never beyond its end). -/
def overwrite (buf data : List Nat) : List Nat :=
  data.take buf.length ++ buf.drop data.length

/-! ## Master key manager (`master_crypto.c`, lines 23-148) -/

/-- The constants `KEY_LENGTH`, `KEY_SIZE`, `TAG_LENGTH`, `TAG_SIZE` and `BLOCK_SIZE` of
`master_crypto.h`; the header is not among the sources, so the values are parameters. -/
structure MasterConsts where
  KEY_LENGTH : Nat
  KEY_SIZE : Nat
  TAG_LENGTH : Nat
  TAG_SIZE : Nat
  BLOCK_SIZE : Nat
  deriving Repr, DecidableEq

/-- The variables of static storage duration of `master_crypto.c`: `masterKey` of
`TA_open_secret_key`, the file-scope `iv`, and `tag`, `tagLen` of `TA_execute`. -/
structure Statics where
  masterKey : Nat
  iv : List Nat
  tag : List Nat
  tagLen : Nat
  deriving Repr, DecidableEq

/-- The statics when the trusted application is loaded. -/
def Statics.init (c : MasterConsts) : Statics :=
  ⟨TEE_HANDLE_NULL, List.replicate c.KEY_LENGTH 0, List.replicate c.TAG_LENGTH 0,
    c.TAG_LENGTH⟩

/-- Answer of a `TEE_ReadObjectData`: the result and the bytes delivered. -/
structure ReadAnswer where
  res : Int
  data : List Nat
  deriving Repr, DecidableEq

/-- Answers of the TEE to the calls of one run of `TA_open_secret_key`. -/
structure OpenEnv where
  open_res : Int
  object : Nat
  read_key : ReadAnswer
  read_iv : ReadAnswer
  alloc_res : Int
  alloc_obj : Nat
  populate_res : Int
  deriving Repr, DecidableEq

structure OpenResult where
  res : Int
  secretKey : Nat
  st : Statics
  trace : List Event
  deriving Repr, DecidableEq

/-- `TA_open_secret_key` from the label `close` to the `return`. -/
def open_close (res : Int) (object secretKey : Nat) (st : Statics) (trace : List Event) :
    OpenResult :=
  let trace := trace ++ [Event.CloseObject object]
  if res = TEE_SUCCESS then ⟨res, st.masterKey, st, trace⟩
  else ⟨res, secretKey, st, trace⟩

/-- `TA_open_secret_key`; `secretKey` is the value of `*secretKey` before the call. The
array `keyData` starts as zeros (its first content is never read). -/
def TA_open_secret_key (c : MasterConsts) (env : OpenEnv) (st : Statics) (secretKey : Nat) :
    OpenResult :=
  if st.masterKey ≠ TEE_HANDLE_NULL then
    ⟨TEE_SUCCESS, st.masterKey, st, []⟩
  else
    let trace := [Event.OpenPersistentObject]
    if env.open_res = TEE_SUCCESS then
      let object := env.object
      let got := env.read_key.data.take c.KEY_LENGTH
      let keyData := overwrite (List.replicate c.KEY_LENGTH 0) got
      let readSize := got.length
      let res := env.read_key.res
      let trace := trace ++ [Event.ReadObjectData object c.KEY_LENGTH]
      if res ≠ TEE_SUCCESS ∨ readSize ≠ c.KEY_LENGTH then
        open_close res object secretKey st trace
      else
        let got := env.read_iv.data.take c.KEY_LENGTH
        let st := { st with iv := overwrite st.iv got }
        let readSize := got.length
        let res := env.read_iv.res
        let trace := trace ++ [Event.ReadObjectData object c.KEY_LENGTH]
        if res ≠ TEE_SUCCESS ∨ readSize ≠ c.KEY_LENGTH then
          open_close res object secretKey st trace
        else
          let attrs := [TEE_InitRefAttribute TEE_ATTR_SECRET_VALUE keyData]
          let res := env.alloc_res
          let trace := trace ++ [Event.AllocateTransientObject TEE_TYPE_AES c.KEY_SIZE]
          if res = TEE_SUCCESS then
            let st := { st with masterKey := env.alloc_obj }
            let res := env.populate_res
            let trace := trace ++ [Event.PopulateTransientObject st.masterKey attrs]
            open_close res object secretKey st trace
          else
            open_close res object secretKey st trace
    else
      ⟨env.open_res, secretKey, { st with masterKey := TEE_HANDLE_NULL }, trace⟩

/-- Answers of the TEE to the calls of one run of `TA_create_secret_key`. -/
structure CreateEnv where
  open_res : Int
  object : Nat
  random_key : Nat → Nat
  random_iv : Nat → Nat
  create_res : Int
  created : Nat
  write_key_res : Int
  write_iv_res : Int

structure CreateResult where
  res : Int
  st : Statics
  trace : List Event
  deriving Repr, DecidableEq

/-- `TA_create_secret_key` from the label `error` to the `return`. -/
def create_error (res : Int) (object : Nat) (st : Statics) (trace : List Event) :
    CreateResult :=
  if res = TEE_SUCCESS then ⟨res, st, trace ++ [Event.CloseObject object]⟩
  else ⟨res, st, trace ++ [Event.CloseAndDeletePersistentObject object]⟩

def TA_create_secret_key (c : MasterConsts) (env : CreateEnv) (st : Statics) : CreateResult :=
  let res := env.open_res
  let trace := [Event.OpenPersistentObject]
  if res = TEE_ERROR_ITEM_NOT_FOUND then
    let keyData := (List.range c.KEY_LENGTH).map env.random_key
    let st := { st with iv := (List.range c.KEY_LENGTH).map env.random_iv }
    let trace := trace ++ [Event.GenerateRandom c.KEY_LENGTH, Event.GenerateRandom c.KEY_LENGTH]
    let res := env.create_res
    let object := if res = TEE_SUCCESS then env.created else TEE_HANDLE_NULL
    let trace := trace ++ [Event.CreatePersistentObject]
    if res ≠ TEE_SUCCESS then create_error res object st trace
    else
      let res := env.write_key_res
      let trace := trace ++ [Event.WriteObjectData object keyData]
      if res ≠ TEE_SUCCESS then create_error res object st trace
      else
        let res := env.write_iv_res
        let trace := trace ++ [Event.WriteObjectData object st.iv]
        create_error res object st trace
  else if res = TEE_SUCCESS then
    ⟨res, st, trace ++ [Event.CloseObject env.object]⟩
  else
    ⟨res, st, trace⟩

/-! ## AEAD wrap engine (`master_crypto.c`, lines 150-246) -/

/-- The authenticated-encryption primitive of the TEE as `TA_execute` uses it: an operation
is fixed by the key object bound to it, the nonce and the tag length given to `TEE_AEInit`.
`encryptFinal` answers with the result, the bytes for the destination, the tag and the value
stored in `*tagLen`; `decryptFinal` receives the tag bytes and `tagLen` and answers with the
result and the bytes for the destination. -/
structure AEAD where
  encryptFinal : Nat → List Nat → Nat → List Nat → Int × List Nat × List Nat × Nat
  decryptFinal : Nat → List Nat → Nat → List Nat → List Nat → Nat → Int × List Nat

/-- Answers of the TEE to the calls of one run of `TA_execute`, those of the AEAD primitive
apart. -/
structure ExecEnv where
  open_env : OpenEnv
  malloc_ok : Bool
  maxKeySize : Nat
  alloc_op_res : Int
  op : Nat
  set_key_res : Int
  deriving Repr, DecidableEq

structure ExecResult where
  res : Int
  data : List Nat
  st : Statics
  trace : List Event
  deriving Repr, DecidableEq

/-- `TA_execute` from the label `free_op` on. -/
def exec_free_op (res : Int) (op : Nat) (data : List Nat) (st : Statics)
    (trace : List Event) : ExecResult :=
  if op ≠ TEE_HANDLE_NULL then ⟨res, data, st, trace ++ [Event.FreeOperation op]⟩
  else ⟨res, data, st, trace⟩

/-- `TA_execute(data, size, mode)` with `size = data.length`. -/
def TA_execute (c : MasterConsts) (P : AEAD) (env : ExecEnv) (st : Statics)
    (data : List Nat) (mode : Nat) : ExecResult :=
  let size := data.length
  let o := TA_open_secret_key c env.open_env st TEE_HANDLE_NULL
  let secretKey := o.secretKey
  let st := o.st
  let trace := o.trace
  if o.res ≠ KM_ERROR_OK then ⟨o.res, data, st, trace⟩
  else if !env.malloc_ok then ⟨KM_ERROR_MEMORY_ALLOCATION_FAILED, data, st, trace⟩
  else
    let outbuf := List.replicate size 0
    if size % c.BLOCK_SIZE ≠ 0 then ⟨KM_ERROR_UNKNOWN_ERROR, data, st, trace⟩
    else
      let trace := trace ++ [Event.GetObjectInfo1 secretKey,
        Event.AllocateOperation TEE_ALG_AES_GCM mode env.maxKeySize]
      let res := env.alloc_op_res
      if res ≠ TEE_SUCCESS then ⟨res, data, st, trace⟩
      else
        let op := env.op
        let trace := trace ++ [Event.SetOperationKey op secretKey]
        let res := env.set_key_res
        if res ≠ TEE_SUCCESS then exec_free_op res op data st trace
        else
          let trace := trace ++ [Event.AEInit op st.iv c.TAG_SIZE 0 0]
          if res = TEE_SUCCESS ∧ size > 0 then
            if mode = TEE_MODE_ENCRYPT then
              let st := { st with tagLen := c.TAG_LENGTH }
              let r := P.encryptFinal secretKey st.iv c.TAG_SIZE data
              let trace := trace ++ [Event.AEEncryptFinal op data]
              let outbuf := overwrite outbuf r.2.1
              let st := { st with tag := overwrite st.tag r.2.2.1, tagLen := r.2.2.2 }
              if r.1 ≠ TEE_SUCCESS then exec_free_op r.1 op data st trace
              else exec_free_op r.1 op outbuf st trace
            else
              let r := P.decryptFinal secretKey st.iv c.TAG_SIZE data
                (st.tag.take st.tagLen) st.tagLen
              let trace := trace ++
                [Event.AEDecryptFinal op data (st.tag.take st.tagLen) st.tagLen]
              let outbuf := overwrite outbuf r.2
              if r.1 ≠ TEE_SUCCESS then exec_free_op r.1 op data st trace
              else exec_free_op r.1 op outbuf st trace
          else
            exec_free_op res op outbuf st trace

def TA_encrypt (c : MasterConsts) (P : AEAD) (env : ExecEnv) (st : Statics)
    (data : List Nat) : ExecResult :=
  TA_execute c P env st data TEE_MODE_ENCRYPT

def TA_decrypt (c : MasterConsts) (P : AEAD) (env : ExecEnv) (st : Statics)
    (data : List Nat) : ExecResult :=
  TA_execute c P env st data TEE_MODE_DECRYPT

/-- The usual correctness law of the primitive, with a tag buffer of `TAG_LENGTH` bytes:
encryption succeeds with a ciphertext as long as the text and a tag that fits the buffer, and
decryption of that ciphertext with that tag under the same key, nonce and tag length
succeeds and delivers the text. -/
def AEAD.Correct (P : AEAD) (c : MasterConsts) : Prop :=
  ∀ key nonce tagBits src,
    (P.encryptFinal key nonce tagBits src).1 = TEE_SUCCESS ∧
    (P.encryptFinal key nonce tagBits src).2.1.length = src.length ∧
    (P.encryptFinal key nonce tagBits src).2.2.1.length
      = (P.encryptFinal key nonce tagBits src).2.2.2 ∧
    (P.encryptFinal key nonce tagBits src).2.2.2 ≤ c.TAG_LENGTH ∧
    P.decryptFinal key nonce tagBits (P.encryptFinal key nonce tagBits src).2.1
        (P.encryptFinal key nonce tagBits src).2.2.1
        (P.encryptFinal key nonce tagBits src).2.2.2
      = (TEE_SUCCESS, src)

/-! ## Restore (`generator.c`, lines 487-647) -/

/-- The constants `MIN_HMAC_*` and `MAX_HMAC_*` (bits) of `generator.h`; the header is not
among the sources, so the values are parameters. -/
structure HmacLimits where
  MIN_HMAC_MD5 : Nat
  MAX_HMAC_MD5 : Nat
  MIN_HMAC_SHA1 : Nat
  MAX_HMAC_SHA1 : Nat
  MIN_HMAC_SHA224 : Nat
  MAX_HMAC_SHA224 : Nat
  MIN_HMAC_SHA256 : Nat
  MAX_HMAC_SHA256 : Nat
  MIN_HMAC_SHA384 : Nat
  MAX_HMAC_SHA384 : Nat
  MIN_HMAC_SHA512 : Nat
  MAX_HMAC_SHA512 : Nat
  deriving Repr, DecidableEq

/-- The `switch (type)` of `TA_check_hmac_key`: `(min, max)`, or nothing in the default
case. -/
def hmac_type_limits (l : HmacLimits) (type : Nat) : Option (Nat × Nat) :=
  if type = TEE_TYPE_HMAC_MD5 then some (l.MIN_HMAC_MD5, l.MAX_HMAC_MD5)
  else if type = TEE_TYPE_HMAC_SHA1 then some (l.MIN_HMAC_SHA1, l.MAX_HMAC_SHA1)
  else if type = TEE_TYPE_HMAC_SHA224 then some (l.MIN_HMAC_SHA224, l.MAX_HMAC_SHA224)
  else if type = TEE_TYPE_HMAC_SHA256 then some (l.MIN_HMAC_SHA256, l.MAX_HMAC_SHA256)
  else if type = TEE_TYPE_HMAC_SHA384 then some (l.MIN_HMAC_SHA384, l.MAX_HMAC_SHA384)
  else if type = TEE_TYPE_HMAC_SHA512 then some (l.MIN_HMAC_SHA512, l.MAX_HMAC_SHA512)
  else none

/-- `TA_check_hmac_key(type, key_size)`: `key_size` is a pointer, `none` the null pointer
(the test `key_size == 0` of the source compares the pointer); returns the result and the
value behind the pointer after the call. -/
def TA_check_hmac_key (l : HmacLimits) (type : Nat) (key_size : Option Nat) :
    Int × Option Nat :=
  match key_size with
  | none => (KM_ERROR_UNSUPPORTED_KEY_SIZE, none)
  | some k =>
    match hmac_type_limits l type with
    | none => (KM_ERROR_INCOMPATIBLE_DIGEST, some k)
    | some (min, max) =>
      if k > max then (KM_ERROR_UNSUPPORTED_KEY_SIZE, some k)
      else if k < min then (KM_ERROR_OK, some min)
      else (KM_ERROR_OK, some k)

/-- Answers of the TEE to the calls of one run of `TA_restore_key`; `deserialize_res` is
the result left by `TA_deserialize_param_set`, which is not among the sources. -/
structure RestoreEnv where
  exec : ExecEnv
  attrs_ok : Bool
  malloc : Nat → Bool
  alloc_res : Int
  alloc_obj : Nat
  populate_res : Int
  deserialize_res : Int

/-- What `TA_restore_key` leaves behind: its result, the values behind `key_size`, `type`
and `obj_h`, the outcome of its call of `TA_decrypt` (if made), the reads of its decode
loop, the calls it makes itself after `TA_decrypt`, and the statics. -/
structure RestoreResult where
  res : Int
  key_size : Nat
  type : Nat
  obj_h : Nat
  decrypt : Option ExecResult
  reads : List (Nat × Nat)
  calls : List Event
  st : Statics
  deriving Repr, DecidableEq

/-- `TA_restore_key`; `key_material` is `none` for the null pointer, `key_blob` are the
`key_material_size` bytes of the blob, and `key_size`, `type`, `obj_h` the values behind the
three pointers before the call. -/
def TA_restore_key (c : MasterConsts) (l : HmacLimits) (a : AttrSizes) (P : AEAD)
    (env : RestoreEnv) (st : Statics) (key_material : Option Mem) (key_blob : List Nat)
    (key_size type obj_h : Nat) : RestoreResult :=
  match key_material with
  | none => ⟨KM_ERROR_MEMORY_ALLOCATION_FAILED, key_size, type, obj_h, none, [], [], st⟩
  | some km =>
    let km := TEE_MemMove km 0 key_blob
    let d := TA_decrypt c P env.exec st (readBytes km 0 key_blob.length)
    let km := TEE_MemMove km 0 d.data
    if d.res ≠ KM_ERROR_OK then ⟨d.res, key_size, type, obj_h, some d, [], [], d.st⟩
    else
      let dec := restore_decode env.attrs_ok env.malloc km
      let type := dec.type
      let key_size := if env.attrs_ok then dec.key_size else key_size
      if dec.res ≠ KM_ERROR_OK then
        ⟨dec.res, key_size, type, obj_h, some d, dec.st.reads, [], d.st⟩
      else
        let chk := if dec.algorithm = KM_ALGORITHM_HMAC then
            TA_check_hmac_key l type (some key_size)
          else (KM_ERROR_OK, some key_size)
        let key_size := chk.2.getD key_size
        if chk.1 ≠ KM_ERROR_OK then
          ⟨chk.1, key_size, type, obj_h, some d, dec.st.reads, [], d.st⟩
        else
          let calls := [Event.AllocateTransientObject type key_size]
          let res := env.alloc_res
          let obj_h := if res = TEE_SUCCESS then env.alloc_obj else obj_h
          if res ≠ TEE_SUCCESS then
            ⟨res, key_size, type, obj_h, some d, dec.st.reads, calls, d.st⟩
          else
            let calls := calls ++ [Event.PopulateTransientObject obj_h dec.st.attrs]
            let res := env.populate_res
            if res ≠ TEE_SUCCESS then
              ⟨res, key_size, type, obj_h, some d, dec.st.reads, calls, d.st⟩
            else
              let _padding := TA_get_key_size a dec.algorithm
              let res := env.deserialize_res
              ⟨res, key_size, type, obj_h, some d, dec.st.reads, calls, d.st⟩

/-! ## Algorithm parameter resolver (`generator.c`, lines 100-116, 287-303, 649-875) -/

def purpose_to_mode (purpose : Nat) : Nat :=
  if purpose = KM_PURPOSE_ENCRYPT then TEE_MODE_ENCRYPT
  else if purpose = KM_PURPOSE_DECRYPT then TEE_MODE_DECRYPT
  else if purpose = KM_PURPOSE_SIGN then TEE_MODE_SIGN
  else if purpose = KM_PURPOSE_VERIFY then TEE_MODE_VERIFY
  else if purpose = KM_PURPOSE_DERIVE_KEY then TEE_MODE_DERIVE
  else UINT32_MAX

/-- `TA_get_curve_nist`; the macro `UNDEFINED` is declared in a header that is not among the
sources, so its value is the parameter `undefined`. -/
def TA_get_curve_nist (undefined key_size : Nat) : Nat :=
  if key_size = 192 then TEE_ECC_CURVE_NIST_P192
  else if key_size = 224 then TEE_ECC_CURVE_NIST_P224
  else if key_size = 256 then TEE_ECC_CURVE_NIST_P256
  else if key_size = 384 then TEE_ECC_CURVE_NIST_P384
  else if key_size = 521 then TEE_ECC_CURVE_NIST_P521
  else undefined

/-- The `switch (algorithm)` of `TA_create_operation` (lines 669-837): the values of `algo`
and `mode` after it, or the error it returns; `mode` is `purpose_to_mode(purpose)`. -/
def create_operation_algo (purpose algorithm key_size digest op_mode padding mode : Nat) :
    Except Int (Nat × Nat) :=
  if algorithm = KM_ALGORITHM_AES then
    if op_mode = KM_MODE_ECB then .ok (TEE_ALG_AES_ECB_NOPAD, mode)
    else if op_mode = KM_MODE_CBC then .ok (TEE_ALG_AES_CBC_NOPAD, mode)
    else if op_mode = KM_MODE_CTR then .ok (TEE_ALG_AES_CTR, mode)
    else .ok (TEE_ALG_AES_GCM, mode)
  else if algorithm = KM_ALGORITHM_RSA then
    if padding = KM_PAD_RSA_PKCS1_1_5_SIGN then
      if digest = KM_DIGEST_MD5 then .ok (TEE_ALG_RSASSA_PKCS1_V1_5_MD5, mode)
      else if digest = KM_DIGEST_SHA1 then .ok (TEE_ALG_RSASSA_PKCS1_V1_5_SHA1, mode)
      else if digest = KM_DIGEST_SHA_2_224 then .ok (TEE_ALG_RSASSA_PKCS1_V1_5_SHA224, mode)
      else if digest = KM_DIGEST_SHA_2_256 then .ok (TEE_ALG_RSASSA_PKCS1_V1_5_SHA256, mode)
      else if digest = KM_DIGEST_SHA_2_384 then .ok (TEE_ALG_RSASSA_PKCS1_V1_5_SHA384, mode)
      else if digest = KM_DIGEST_SHA_2_512 then .ok (TEE_ALG_RSASSA_PKCS1_V1_5_SHA512, mode)
      else if digest = KM_DIGEST_NONE then .ok (TEE_ALG_RSASSA_PKCS1_V1_5, mode)
      else .error KM_ERROR_UNSUPPORTED_DIGEST
    else if padding = KM_PAD_RSA_PSS then
      if digest = KM_DIGEST_MD5 then .ok (TEE_ALG_RSASSA_PKCS1_PSS_MGF1_MD5, mode)
      else if digest = KM_DIGEST_SHA1 then .ok (TEE_ALG_RSASSA_PKCS1_PSS_MGF1_SHA1, mode)
      else if digest = KM_DIGEST_SHA_2_224 then
        .ok (TEE_ALG_RSASSA_PKCS1_PSS_MGF1_SHA224, mode)
      else if digest = KM_DIGEST_SHA_2_256 then
        .ok (TEE_ALG_RSASSA_PKCS1_PSS_MGF1_SHA256, mode)
      else if digest = KM_DIGEST_SHA_2_384 then
        .ok (TEE_ALG_RSASSA_PKCS1_PSS_MGF1_SHA384, mode)
      else if digest = KM_DIGEST_SHA_2_512 then
        .ok (TEE_ALG_RSASSA_PKCS1_PSS_MGF1_SHA512, mode)
      else if digest = KM_DIGEST_NONE then .error KM_ERROR_INCOMPATIBLE_DIGEST
      else .error KM_ERROR_UNSUPPORTED_DIGEST
    else if padding = KM_PAD_RSA_PKCS1_1_5_ENCRYPT then .ok (TEE_ALG_RSAES_PKCS1_V1_5, mode)
    else if padding = KM_PAD_RSA_OAEP then
      if digest = KM_DIGEST_MD5 then .ok (TEE_ALG_RSAES_PKCS1_OAEP_MGF1_MD5, mode)
      else if digest = KM_DIGEST_SHA1 then .ok (TEE_ALG_RSAES_PKCS1_OAEP_MGF1_SHA1, mode)
      else if digest = KM_DIGEST_SHA_2_224 then
        .ok (TEE_ALG_RSAES_PKCS1_OAEP_MGF1_SHA224, mode)
      else if digest = KM_DIGEST_SHA_2_256 then
        .ok (TEE_ALG_RSAES_PKCS1_OAEP_MGF1_SHA256, mode)
      else if digest = KM_DIGEST_SHA_2_384 then
        .ok (TEE_ALG_RSAES_PKCS1_OAEP_MGF1_SHA384, mode)
      else if digest = KM_DIGEST_SHA_2_512 then
        .ok (TEE_ALG_RSAES_PKCS1_OAEP_MGF1_SHA512, mode)
      else .error KM_ERROR_UNSUPPORTED_DIGEST
    else
      .ok (TEE_ALG_RSA_NOPAD,
        if purpose = KM_PURPOSE_SIGN then TEE_MODE_DECRYPT
        else if purpose = KM_PURPOSE_VERIFY then TEE_MODE_ENCRYPT
        else mode)
  else if algorithm = KM_ALGORITHM_EC then
    if key_size = 192 then .ok (TEE_ALG_ECDSA_P192, mode)
    else if key_size = 224 then .ok (TEE_ALG_ECDSA_P224, mode)
    else if key_size = 256 then .ok (TEE_ALG_ECDSA_P256, mode)
    else if key_size = 384 then .ok (TEE_ALG_ECDSA_P384, mode)
    else if key_size = 521 then .ok (TEE_ALG_ECDSA_P521, mode)
    else .error KM_ERROR_UNSUPPORTED_KEY_SIZE
  else if algorithm = KM_ALGORITHM_HMAC then
    if digest = KM_DIGEST_MD5 then .ok (TEE_ALG_HMAC_MD5, TEE_MODE_MAC)
    else if digest = KM_DIGEST_SHA1 then .ok (TEE_ALG_HMAC_SHA1, TEE_MODE_MAC)
    else if digest = KM_DIGEST_SHA_2_224 then .ok (TEE_ALG_HMAC_SHA224, TEE_MODE_MAC)
    else if digest = KM_DIGEST_SHA_2_256 then .ok (TEE_ALG_HMAC_SHA256, TEE_MODE_MAC)
    else if digest = KM_DIGEST_SHA_2_384 then .ok (TEE_ALG_HMAC_SHA384, TEE_MODE_MAC)
    else if digest = KM_DIGEST_SHA_2_512 then .ok (TEE_ALG_HMAC_SHA512, TEE_MODE_MAC)
    else .error KM_ERROR_UNSUPPORTED_DIGEST
  else .error KM_ERROR_UNSUPPORTED_ALGORITHM

/-- Answers of the TEE to the calls of one run of `TA_create_operation`. -/
structure OperationEnv where
  maxKeySize : Nat
  alloc_res : Int
  op : Nat
  set_key_res : Int
  deriving Repr, DecidableEq

/-- What `TA_create_operation` leaves behind: its result, the handle behind `operation` and
the calls it made. -/
structure OperationResult where
  res : Int
  operation : Nat
  trace : List Event
  deriving Repr, DecidableEq

/-- The second `switch (algorithm)` of `TA_create_operation` (lines 849-872), entered with
`res == TEE_SUCCESS`. -/
def create_operation_init (operation algorithm : Nat) (nonce : List Nat)
    (op_mode mac_length : Nat) (trace : List Event) : OperationResult :=
  if algorithm = KM_ALGORITHM_AES then
    if op_mode = KM_MODE_GCM then
      ⟨TEE_SUCCESS, operation, trace ++ [Event.AEInit operation nonce mac_length 0 0]⟩
    else
      ⟨TEE_SUCCESS, operation, trace ++ [Event.CipherInit operation nonce]⟩
  else if algorithm = KM_ALGORITHM_RSA ∨ algorithm = KM_ALGORITHM_EC then
    ⟨TEE_SUCCESS, operation, trace⟩
  else if algorithm = KM_ALGORITHM_HMAC then
    ⟨TEE_SUCCESS, operation, trace ++ [Event.MACInit operation []]⟩
  else
    ⟨KM_ERROR_UNSUPPORTED_ALGORITHM, operation, trace⟩

/-- `TA_create_operation`; `operation` is the handle behind the pointer before the call and
`nonce` are the `nonce.data_length` bytes at `nonce.data`. -/
def TA_create_operation (env : OperationEnv) (operation obj_h purpose algorithm key_size : Nat)
    (nonce : List Nat) (digest op_mode padding mac_length : Nat) : OperationResult :=
  let mode := purpose_to_mode purpose
  if mode = UINT32_MAX then ⟨KM_ERROR_UNSUPPORTED_PURPOSE, operation, []⟩
  else
    match create_operation_algo purpose algorithm key_size digest op_mode padding mode with
    | .error e => ⟨e, operation, []⟩
    | .ok (algo, mode) =>
      let trace := [Event.GetObjectInfo1 obj_h,
        Event.AllocateOperation algo mode env.maxKeySize]
      let res := env.alloc_res
      if res ≠ TEE_SUCCESS then ⟨res, operation, trace⟩
      else
        let operation := env.op
        let trace := trace ++ [Event.SetOperationKey operation obj_h]
        let res := env.set_key_res
        if res ≠ TEE_SUCCESS then ⟨res, operation, trace⟩
        else create_operation_init operation algorithm nonce op_mode mac_length trace

/-- The `(algo, mode)` of every `TEE_AllocateOperation` of a trace, in order. -/
def allocated (trace : List Event) : List (Nat × Nat) :=
  trace.filterMap fun e =>
    match e with
    | .AllocateOperation algo mode _ => some (algo, mode)
    | _ => none

/-! ## HMAC key size at import (`generator.c`, lines 126-204, 877-915) -/

/-- Answers of the TEE to the calls of one run of `TA_check_hmac_key_size`: the
`TEE_AllocateOperation` of `TA_create_digest_op` and the `TEE_Malloc` of the padding. -/
structure HmacSizeEnv where
  alloc_res : Int
  op : Nat
  malloc_ok : Bool
  deriving Repr, DecidableEq

/-- What `TA_create_digest_op` leaves behind: its result, the handle behind `digest_op`, the
algorithm of the operation it allocated (0 if none) and the calls it made. -/
structure DigestOpResult where
  res : Int
  digest_op : Nat
  algo : Nat
  trace : List Event
  deriving Repr, DecidableEq

/-- The `switch (digest)` of `TA_create_digest_op` for the six digests. -/
def digest_algo (digest : Nat) : Option Nat :=
  if digest = KM_DIGEST_MD5 then some TEE_ALG_MD5
  else if digest = KM_DIGEST_SHA1 then some TEE_ALG_SHA1
  else if digest = KM_DIGEST_SHA_2_224 then some TEE_ALG_SHA224
  else if digest = KM_DIGEST_SHA_2_256 then some TEE_ALG_SHA256
  else if digest = KM_DIGEST_SHA_2_384 then some TEE_ALG_SHA384
  else if digest = KM_DIGEST_SHA_2_512 then some TEE_ALG_SHA512
  else none

def TA_create_digest_op (alloc_res : Int) (op : Nat) (digest_op digest : Nat) :
    DigestOpResult :=
  match digest_algo digest with
  | none =>
    if digest = KM_DIGEST_NONE then ⟨TEE_SUCCESS, digest_op, 0, []⟩
    else ⟨KM_ERROR_UNSUPPORTED_DIGEST, digest_op, 0, []⟩
  | some algo =>
    let trace := [Event.AllocateOperation algo TEE_MODE_DIGEST 0]
    if alloc_res ≠ TEE_SUCCESS then
      ⟨KM_ERROR_SECURE_HW_COMMUNICATION_FAILED, digest_op, algo, trace⟩
    else ⟨KM_ERROR_OK, op, algo, trace⟩

/-- A `keymaster_blob_t`: the buffer behind `data` and `data_length`; the key is the first
`data_length` bytes of the buffer. -/
structure keymaster_blob_t where
  data : List Nat
  data_length : Nat
  deriving Repr, DecidableEq

/-- The digest primitive of the TEE: for the algorithm of the operation and the message,
the result of `TEE_DigestDoFinal` and the hash. -/
abbrev DigestPrim := Nat → List Nat → Int × List Nat

structure HmacSizeResult where
  res : Int
  key_data : keymaster_blob_t
  key_size : Nat
  trace : List Event
  deriving Repr, DecidableEq

/-- The `switch (digest)` of `TA_check_hmac_key_size`: `(min, max)` in bits, or nothing in
the default case. -/
def hmac_digest_limits (l : HmacLimits) (digest : Nat) : Option (Nat × Nat) :=
  if digest = KM_DIGEST_MD5 then some (l.MIN_HMAC_MD5, l.MAX_HMAC_MD5)
  else if digest = KM_DIGEST_SHA1 then some (l.MIN_HMAC_SHA1, l.MAX_HMAC_SHA1)
  else if digest = KM_DIGEST_SHA_2_224 then some (l.MIN_HMAC_SHA224, l.MAX_HMAC_SHA224)
  else if digest = KM_DIGEST_SHA_2_256 then some (l.MIN_HMAC_SHA256, l.MAX_HMAC_SHA256)
  else if digest = KM_DIGEST_SHA_2_384 then some (l.MIN_HMAC_SHA384, l.MAX_HMAC_SHA384)
  else if digest = KM_DIGEST_SHA_2_512 then some (l.MIN_HMAC_SHA512, l.MAX_HMAC_SHA512)
  else none

/-- The last part of `TA_check_hmac_key_size` (lines 192-203): padding with zeros up to
`min` bytes. -/
def hmac_pad (min : Nat) (malloc_ok : Bool) (key_data : keymaster_blob_t) (key_size : Nat)
    (trace : List Event) : HmacSizeResult :=
  if key_data.data_length ≤ min then
    if malloc_ok then
      let buf := overwrite (List.replicate min 0) (key_data.data.take key_data.data_length)
      ⟨KM_ERROR_OK, ⟨buf, min⟩, key_size, trace⟩
    else ⟨KM_ERROR_MEMORY_ALLOCATION_FAILED, key_data, key_size, trace⟩
  else ⟨KM_ERROR_OK, key_data, key_size, trace⟩

/-- `TA_check_hmac_key_size`; `key_size` is the value behind the pointer before the call.
The array `digest_out` has 64 bytes, so at most 64 bytes of the hash are taken. -/
def TA_check_hmac_key_size (l : HmacLimits) (D : DigestPrim) (env : HmacSizeEnv)
    (key_data : keymaster_blob_t) (key_size digest : Nat) : HmacSizeResult :=
  if key_data.data_length = 0 then ⟨KM_ERROR_UNSUPPORTED_KEY_SIZE, key_data, key_size, []⟩
  else
    match hmac_digest_limits l digest with
    | none => ⟨KM_ERROR_INCOMPATIBLE_DIGEST, key_data, key_size, []⟩
    | some (min, max) =>
      let max := max / 8
      let min := min / 8
      if key_data.data_length > max then
        let d := TA_create_digest_op env.alloc_res env.op TEE_HANDLE_NULL digest
        if d.res ≠ KM_ERROR_OK then ⟨d.res, key_data, key_size, d.trace⟩
        else
          let chunk := key_data.data.take key_data.data_length
          let r := D d.algo chunk
          let trace := d.trace ++ [Event.DigestDoFinal d.digest_op chunk]
          let digest_out := r.2.take 64
          let digest_out_size := digest_out.length
          if r.1 ≠ KM_ERROR_OK then ⟨r.1, key_data, key_size, trace⟩
          else
            let key_data : keymaster_blob_t :=
              ⟨overwrite key_data.data digest_out, digest_out_size⟩
            let key_size := digest_out_size * 8
            let trace := trace ++ [Event.FreeOperation d.digest_op]
            hmac_pad min env.malloc_ok key_data key_size trace
      else hmac_pad min env.malloc_ok key_data key_size []

/-! ## Key generation (`generator.c`, lines 305-485) -/

/-- Object representation of `TEE_U64_TO_BIG_ENDIAN(v)`: the 8 bytes of `v`, most significant
first. -/
def u64_be_bytes (v : Nat) : List Nat :=
  [v / 72057594037927936 % 256, v / 281474976710656 % 256, v / 1099511627776 % 256,
   v / 4294967296 % 256, v / 16777216 % 256, v / 65536 % 256, v / 256 % 256, v % 256]

/-- Answers of the TEE to the calls of one run of `TA_generate_key`: the two `TEE_Malloc`
(attribute array, public exponent), `TEE_AllocateTransientObject`, `TEE_GenerateKey`, and for
every attribute of the generated object the answer of `TEE_GetObjectValueAttribute` (result,
`a`, `b`) and of `TEE_GetObjectBufferAttribute` (result, bytes). -/
structure GenerateEnv where
  attrs_in_ok : Bool
  buf_pe_ok : Bool
  alloc_res : Int
  obj : Nat
  generate_res : Int
  value_attr : Nat → Int × Nat × Nat
  buffer_attr : Nat → Int × List Nat

/-- What `TA_generate_key` leaves behind: its result, the memory at `key_material`, the final
value of its local `padding` and the calls it made. -/
structure GenerateResult where
  res : Int
  key_material : Mem
  padding : Nat
  trace : List Event

/-- The `switch (algorithm)` of `TA_generate_key` (lines 327-414): the list `attributes`
cut to `attr_count`, `type` and the extra attributes `attrs_in`, or the result with which the
function ends there (by `return` or through `gk_out` with no object allocated). The macro
`UNDEFINED` is the parameter `undefined`. -/
def generate_setup (undefined : Nat) (env : GenerateEnv)
    (algorithm key_size digest rsa_public_exponent : Nat) :
    Except Int (List Nat × Nat × List TEE_Attribute) :=
  if algorithm = KM_ALGORITHM_AES then
    .ok (attributes_aes_hmac.take KM_ATTR_COUNT_AES_HMAC, TEE_TYPE_AES, [])
  else if algorithm = KM_ALGORITHM_HMAC then
    let attributes := attributes_aes_hmac.take KM_ATTR_COUNT_AES_HMAC
    if digest = KM_DIGEST_MD5 then .ok (attributes, TEE_TYPE_HMAC_MD5, [])
    else if digest = KM_DIGEST_SHA1 then .ok (attributes, TEE_TYPE_HMAC_SHA1, [])
    else if digest = KM_DIGEST_SHA_2_224 then .ok (attributes, TEE_TYPE_HMAC_SHA224, [])
    else if digest = KM_DIGEST_SHA_2_256 then .ok (attributes, TEE_TYPE_HMAC_SHA256, [])
    else if digest = KM_DIGEST_SHA_2_384 then .ok (attributes, TEE_TYPE_HMAC_SHA384, [])
    else if digest = KM_DIGEST_SHA_2_512 then .ok (attributes, TEE_TYPE_HMAC_SHA512, [])
    else .error KM_ERROR_UNSUPPORTED_DIGEST
  else if algorithm = KM_ALGORITHM_RSA then
    if !env.attrs_in_ok then .error KM_ERROR_MEMORY_ALLOCATION_FAILED
    else if !env.buf_pe_ok then .error KM_ERROR_MEMORY_ALLOCATION_FAILED
    else
      .ok (attributes_rsa.take KM_ATTR_COUNT_RSA, TEE_TYPE_RSA_KEYPAIR,
        [TEE_InitRefAttribute TEE_ATTR_RSA_PUBLIC_EXPONENT (u64_be_bytes rsa_public_exponent)])
  else if algorithm = KM_ALGORITHM_EC then
    if !env.attrs_in_ok then .error KM_ERROR_MEMORY_ALLOCATION_FAILED
    else
      let curve := TA_get_curve_nist undefined key_size
      if curve = undefined then .error KM_ERROR_UNSUPPORTED_KEY_SIZE
      else
        .ok (attributes_ec.take KM_ATTR_COUNT_EC, TEE_TYPE_ECDSA_KEYPAIR,
          [TEE_InitValueAttribute TEE_ATTR_ECC_CURVE curve 0])
  else .error KM_ERROR_UNSUPPORTED_ALGORITHM

/-- The `for` loop of `TA_generate_key` (lines 439-478) over the tags that are left;
`maxAttr` is `KM_MAX_ATTR_SIZE`, the size of the local `buffer`, a constant of
`generator.h`: `TEE_GetObjectBufferAttribute` is given that size and delivers at most that
many bytes. A failing attribute call ends the loop (`break`). -/
def generate_loop (env : GenerateEnv) (obj_h maxAttr : Nat) :
    Mem → Nat → Int → List Event → List Nat → GenerateResult
  | km, padding, res, trace, [] => ⟨res, km, padding, trace⟩
  | km, padding, _, trace, tag :: rest =>
    let km := TEE_MemMove km padding (u32_bytes tag)
    let padding := (padding + 4) % U32
    if is_attr_value tag then
      let r := env.value_attr tag
      let trace := trace ++ [Event.GetObjectValueAttribute obj_h tag]
      if r.1 ≠ TEE_SUCCESS then ⟨r.1, km, padding, trace⟩
      else
        let km := TEE_MemMove km padding (u32_bytes r.2.1)
        let padding := (padding + 4) % U32
        let km := TEE_MemMove km padding (u32_bytes r.2.2)
        let padding := (padding + 4) % U32
        generate_loop env obj_h maxAttr km padding r.1 trace rest
    else
      let r := env.buffer_attr tag
      let buffer := r.2.take maxAttr
      let attr_size := buffer.length
      let trace := trace ++ [Event.GetObjectBufferAttribute obj_h tag]
      if r.1 ≠ TEE_SUCCESS then ⟨r.1, km, padding, trace⟩
      else
        let km := TEE_MemMove km padding (u32_bytes attr_size)
        let padding := (padding + 4) % U32
        let km := TEE_MemMove km padding buffer
        let padding := (padding + attr_size) % U32
        generate_loop env obj_h maxAttr km padding r.1 trace rest

/-- `TA_generate_key` from the label `gk_out` on (the release of `attrs_in` is not a call
into the TEE proper and leaves no trace). -/
def generate_out (res : Int) (obj_h : Nat) (km : Mem) (padding : Nat) (trace : List Event) :
    GenerateResult :=
  if obj_h ≠ TEE_HANDLE_NULL then ⟨res, km, padding, trace ++ [Event.FreeTransientObject obj_h]⟩
  else ⟨res, km, padding, trace⟩

/-- `TA_generate_key`; `undefined` is the macro `UNDEFINED` and `maxAttr` the constant
`KM_MAX_ATTR_SIZE`. A failing `TEE_AllocateTransientObject` leaves `obj_h` at
`TEE_HANDLE_NULL`, so nothing is freed on that path. -/
def TA_generate_key (undefined maxAttr : Nat) (env : GenerateEnv) (algorithm key_size : Nat)
    (key_material : Mem) (digest rsa_public_exponent : Nat) : GenerateResult :=
  match generate_setup undefined env algorithm key_size digest rsa_public_exponent with
  | .error e => ⟨e, key_material, 0, []⟩
  | .ok (attributes, type, attrs_in) =>
    let trace := [Event.AllocateTransientObject type key_size]
    let res := env.alloc_res
    if res ≠ TEE_SUCCESS then ⟨res, key_material, 0, trace⟩
    else
      let obj_h := env.obj
      let trace := trace ++ [Event.GenerateKey obj_h key_size attrs_in]
      let res := env.generate_res
      if res ≠ TEE_SUCCESS then
        let res := if res = TEE_ERROR_NOT_SUPPORTED then KM_ERROR_UNSUPPORTED_KEY_SIZE else res
        generate_out res obj_h key_material 0 trace
      else
        let km := TEE_MemMove key_material 0 (u32_bytes type)
        let padding := 4
        let km := TEE_MemMove km padding (u32_bytes key_size)
        let padding := padding + 4
        let r := generate_loop env obj_h maxAttr km padding res trace attributes
        generate_out r.res obj_h r.key_material r.padding r.trace

/-- The attribute of the generated object for a tag, as the loop of `TA_generate_key` reads
it back: value form when `is_attr_value` holds of the tag, buffer form otherwise. -/
def generated_attr (env : GenerateEnv) (maxAttr tag : Nat) : TEE_Attribute :=
  if is_attr_value tag then
    TEE_InitValueAttribute tag (env.value_attr tag).2.1 (env.value_attr tag).2.2
  else TEE_InitRefAttribute tag ((env.buffer_attr tag).2.take maxAttr)

/-! ## Example data -/

/-- Example values for the constants of `master_crypto.h`: 16-byte key, IV, tag and block. -/
def exConsts : MasterConsts := ⟨16, 128, 16, 128, 16⟩

/-- Example values for the HMAC limits of `generator.h`. -/
def exLimits : HmacLimits := ⟨64, 512, 64, 512, 64, 512, 64, 512, 64, 1024, 64, 1024⟩

/-- Example values for the attribute sizes of `generator.h`. -/
def exSizes : AttrSizes := ⟨32, 128, 256, 68⟩

/-- An AEAD for examples: every byte of the text is flipped (xor 255) and the tag is one
byte, the sum of the plaintext bytes modulo 256; decryption delivers the flipped bytes and
reports `TEE_ERROR_MAC_INVALID` when the tag is not the one of the text. -/
def flipAEAD : AEAD where
  encryptFinal _ _ _ src := (TEE_SUCCESS, src.map (· ^^^ 255), [src.sum % 256], 1)
  decryptFinal _ _ _ src tag tagLen :=
    if tag = [(src.map (· ^^^ 255)).sum % 256] ∧ tagLen = 1 then
      (TEE_SUCCESS, src.map (· ^^^ 255))
    else (TEE_ERROR_MAC_INVALID, src.map (· ^^^ 255))

/-- A TEE that answers every call of `TA_open_secret_key` with success. -/
def okOpen : OpenEnv :=
  ⟨TEE_SUCCESS, 5, ⟨TEE_SUCCESS, List.replicate 16 1⟩, ⟨TEE_SUCCESS, List.replicate 16 2⟩,
    TEE_SUCCESS, 7, TEE_SUCCESS⟩

/-- A TEE that answers every call of `TA_execute` with success. -/
def okExec : ExecEnv := ⟨okOpen, true, 128, TEE_SUCCESS, 9, TEE_SUCCESS⟩

/-- A TEE that answers every call of `TA_restore_key` with success. -/
def okRestore : RestoreEnv :=
  ⟨okExec, true, fun _ => true, TEE_SUCCESS, 11, TEE_SUCCESS, KM_ERROR_OK⟩

/-- Statics with the master key cached under handle 7 and the tag of the last wrap `t`. -/
def cachedStatics (t : Nat) : Statics :=
  ⟨7, List.replicate 16 2, t :: List.replicate 15 0, 1⟩

/-- Key material of 16 bytes: type AES, 256 bits, tag `TEE_ATTR_SECRET_VALUE` and a length
prefix of 16 with no byte of the buffer following. -/
def shortMaterial : List Nat := [0x10, 0, 0, 0xA0, 0, 1, 0, 0, 0, 0, 0, 0xC0, 16, 0, 0, 0]

/-- The key blob that holds `shortMaterial` wrapped by `flipAEAD`; its tag is 129. -/
def shortBlob : List Nat := shortMaterial.map (· ^^^ 255)

/-- First text of the two-wrap example: 16 bytes of 1, tag 16. -/
def textOne : List Nat := List.replicate 16 1

/-- Second text of the two-wrap example: 16 bytes of 2, tag 32. -/
def textTwo : List Nat := List.replicate 16 2

/-- The wrap of `textOne` in a fresh trusted application. -/
def wrapOne : ExecResult := TA_encrypt exConsts flipAEAD okExec (Statics.init exConsts) textOne

/-- The wrap of `textTwo` that follows `wrapOne`. -/
def wrapTwo : ExecResult := TA_encrypt exConsts flipAEAD okExec wrapOne.st textTwo

/-- A TEE whose first `TEE_ReadObjectData` reports `TEE_SUCCESS` with 15 bytes of the 16
asked for, and that answers every other call of `TA_open_secret_key` with success. -/
def shortReadOpen : OpenEnv :=
  ⟨TEE_SUCCESS, 5, ⟨TEE_SUCCESS, List.replicate 15 1⟩, ⟨TEE_SUCCESS, List.replicate 16 2⟩,
    TEE_SUCCESS, 7, TEE_SUCCESS⟩

/-- A TEE whose second `TEE_ReadObjectData` (the IV) reports `TEE_SUCCESS` with 3 bytes. -/
def shortIvOpen : OpenEnv :=
  ⟨TEE_SUCCESS, 5, ⟨TEE_SUCCESS, List.replicate 16 1⟩, ⟨TEE_SUCCESS, [9, 9, 9]⟩,
    TEE_SUCCESS, 7, TEE_SUCCESS⟩

/-- A TEE without the persistent object that answers every call of `TA_create_secret_key`
with success. -/
def okCreate : CreateEnv :=
  ⟨TEE_ERROR_ITEM_NOT_FOUND, 0, fun i => i + 1, fun i => i + 101, TEE_SUCCESS, 6, TEE_SUCCESS,
    TEE_SUCCESS⟩

/-- The attribute-size constant that `TA_get_key_size` uses for the algorithm. -/
def attr_size (c : AttrSizes) (algorithm : Nat) : Nat :=
  if algorithm = KM_ALGORITHM_AES then c.KM_AES_ATTR_SIZE
  else if algorithm = KM_ALGORITHM_HMAC then c.KM_HMAC_ATTR_SIZE
  else if algorithm = KM_ALGORITHM_RSA then c.KM_RSA_ATTR_SIZE
  else if algorithm = KM_ALGORITHM_EC then c.KM_EC_ATTR_SIZE
  else 0

/-- A TEE that answers every call of `TA_create_operation` with success. -/
def okOperation : OperationEnv := ⟨2048, TEE_SUCCESS, 9, TEE_SUCCESS⟩

/-- A TEE without memory for the operation: `TEE_AllocateOperation` fails. -/
def noMemOperation : OperationEnv := ⟨2048, TEE_ERROR_OUT_OF_MEMORY, 9, TEE_SUCCESS⟩

/-- A TEE whose `TEE_SetOperationKey` fails with `TEE_ERROR_OUT_OF_MEMORY`. -/
def noKeyOperation : OperationEnv := ⟨2048, TEE_SUCCESS, 9, TEE_ERROR_OUT_OF_MEMORY⟩

/-- A TEE without the persistent object of the master key. -/
def noKeyOpen : OpenEnv :=
  ⟨TEE_ERROR_ITEM_NOT_FOUND, 0, ⟨TEE_SUCCESS, []⟩, ⟨TEE_SUCCESS, []⟩, TEE_SUCCESS, 7,
    TEE_SUCCESS⟩

/-- A TEE in which `TA_open_secret_key` finds no master key. -/
def noKeyExec : ExecEnv := ⟨noKeyOpen, true, 128, TEE_SUCCESS, 9, TEE_SUCCESS⟩

/-- A TEE whose `TEE_Malloc` for the output buffer of `TA_execute` fails. -/
def noMemExec : ExecEnv := ⟨okOpen, false, 128, TEE_SUCCESS, 9, TEE_SUCCESS⟩

/-- A digest primitive for examples: every byte of the hash is the sum of the message bytes
modulo 256, and the hash has the output size of the algorithm. -/
def sumDigest : DigestPrim := fun algo chunk =>
  (TEE_SUCCESS,
    List.replicate
      (if algo = TEE_ALG_MD5 then 16 else if algo = TEE_ALG_SHA1 then 20
       else if algo = TEE_ALG_SHA224 then 28 else if algo = TEE_ALG_SHA256 then 32
       else if algo = TEE_ALG_SHA384 then 48 else 64)
      (chunk.sum % 256))

/-- A TEE that answers every call of `TA_check_hmac_key_size` with success. -/
def okHmacSize : HmacSizeEnv := ⟨TEE_SUCCESS, 13, true⟩

/-- An HMAC key of 128 bytes (1024 bits), every byte 3. -/
def longKey : keymaster_blob_t := ⟨List.replicate 128 3, 128⟩

/-- Limits in bits equal to the key size ranges that the GlobalPlatform Internal Core API
gives for the six HMAC object types; the largest is 1024 bits, the 128 bytes that the
comment in `TA_get_key_size` names as maximal HMAC key size. -/
def gpLimits : HmacLimits := ⟨64, 512, 80, 512, 112, 512, 192, 1024, 256, 1024, 256, 1024⟩

/-- An HMAC key of one byte (8 bits). -/
def shortKey : keymaster_blob_t := ⟨[7], 1⟩

/-- A TEE with the master key and the IV in storage whose `TEE_PopulateTransientObject`
fails. -/
def populateFailOpen : OpenEnv :=
  ⟨TEE_SUCCESS, 5, ⟨TEE_SUCCESS, List.replicate 16 1⟩, ⟨TEE_SUCCESS, List.replicate 16 2⟩,
   TEE_SUCCESS, 7, TEE_ERROR_BAD_PARAMETERS⟩

/-- A TEE that answers every call of `TA_generate_key` with success: the object 9, the
value pair (3, 0) for a value attribute and the bytes 1, 2 for a buffer attribute. -/
def okGenerate : GenerateEnv :=
  ⟨true, true, TEE_SUCCESS, 9, TEE_SUCCESS, fun _ => (TEE_SUCCESS, 3, 0),
   fun _ => (TEE_SUCCESS, [1, 2])⟩

/-! ## Lemmas on memory -/

theorem u32_bytes_length (v : Nat) : (u32_bytes v).length = 4 := rfl

theorem TEE_MemMove_append (km : Mem) (p : Nat) (xs ys : List Nat) :
    TEE_MemMove (TEE_MemMove km p xs) (p + xs.length) ys = TEE_MemMove km p (xs ++ ys) := by
  funext i
  simp only [TEE_MemMove, List.length_append]
  by_cases h1 : p + xs.length ≤ i ∧ i < p + xs.length + ys.length
  · have h2 : p ≤ i ∧ i < p + (xs.length + ys.length) := by omega
    rw [if_pos h1, if_pos h2]
    have h3 : xs.length ≤ i - p := by omega
    rw [List.getD_append_right _ _ _ _ h3]
    congr 1
    omega
  · rw [if_neg h1]
    by_cases h2 : p ≤ i ∧ i < p + xs.length
    · have h3 : p ≤ i ∧ i < p + (xs.length + ys.length) := by omega
      rw [if_pos h2, if_pos h3]
      have h4 : i - p < xs.length := by omega
      rw [List.getD_append _ _ _ _ h4]
    · have h3 : ¬ (p ≤ i ∧ i < p + (xs.length + ys.length)) := by omega
      rw [if_neg h2, if_neg h3]

theorem memHas_MemMove (km : Mem) (p : Nat) (bs : List Nat) :
    MemHas (TEE_MemMove km p bs) p bs := by
  intro i hi
  have h : p ≤ p + i ∧ p + i < p + bs.length := by omega
  simp only [TEE_MemMove, if_pos h, Nat.add_sub_cancel_left]

theorem memHas_append (km : Mem) (p : Nat) (xs ys : List Nat) :
    MemHas km p (xs ++ ys) ↔ MemHas km p xs ∧ MemHas km (p + xs.length) ys := by
  constructor
  · intro h
    constructor
    · intro i hi
      have := h i (by rw [List.length_append]; omega)
      rw [this, List.getD_append _ _ _ _ hi]
    · intro i hi
      have := h (xs.length + i) (by rw [List.length_append]; omega)
      rw [Nat.add_assoc, this, List.getD_append_right _ _ _ _ (by omega)]
      congr 1
      omega
  · rintro ⟨h1, h2⟩ i hi
    rw [List.length_append] at hi
    by_cases hx : i < xs.length
    · rw [h1 i hx, List.getD_append _ _ _ _ hx]
    · have := h2 (i - xs.length) (by omega)
      rw [List.getD_append_right _ _ _ _ (by omega), ← this]
      congr 1
      omega

theorem load_u32_of_memHas (km : Mem) (p v : Nat) (h : MemHas km p (u32_bytes v))
    (hv : v < U32) : load_u32 km p = v := by
  have h0 := h 0 (by simp [u32_bytes])
  have h1 := h 1 (by simp [u32_bytes])
  have h2 := h 2 (by simp [u32_bytes])
  have h3 := h 3 (by simp [u32_bytes])
  simp only [u32_bytes, List.getD_cons_zero, List.getD_cons_succ, Nat.add_zero] at h0 h1 h2 h3
  unfold U32 at hv
  simp only [load_u32, h0, h1, h2, h3]
  omega

theorem readBytes_of_memHas (km : Mem) (p : Nat) (bs : List Nat) (h : MemHas km p bs) :
    readBytes km p bs.length = bs := by
  apply List.ext_getElem
  · simp [readBytes]
  · intro i h1 h2
    simp only [readBytes, List.getElem_map, List.getElem_range]
    rw [h i h2, List.getD_eq_getElem _ _ h2]

/-! ## Lemmas on the serializer and the decode loop -/

theorem TEE_MemMove_append_at (km : Mem) (p q : Nat) (xs ys : List Nat)
    (hq : q = p + xs.length) :
    TEE_MemMove (TEE_MemMove km p xs) q ys = TEE_MemMove km p (xs ++ ys) := by
  subst hq
  exact TEE_MemMove_append km p xs ys

theorem attr_bytes_length (attr : TEE_Attribute) :
    (attr_bytes attr).length = record_size attr := by
  unfold attr_bytes record_size
  split <;> simp [u32_bytes_length, Content.length]

theorem attrs_bytes_length (attrs : List TEE_Attribute) :
    (attrs_bytes attrs).length = (attrs.map record_size).sum := by
  induction attrs with
  | nil => rfl
  | cons a l ih => simp [attrs_bytes, attr_bytes_length, ih]

theorem import_attr_eq (km : Mem) (p : Nat) (attr : TEE_Attribute)
    (h : p + record_size attr < U32) :
    import_attr km p attr = (TEE_MemMove km p (attr_bytes attr), p + record_size attr) := by
  unfold record_size at h
  unfold import_attr attr_bytes record_size
  by_cases hv : is_attr_value attr.attributeID = true
  · simp only [hv, if_true] at h ⊢
    have e1 : (p + 4) % U32 = p + 4 := Nat.mod_eq_of_lt (by omega)
    have e2 : (p + 4 + 4) % U32 = p + 4 + 4 := Nat.mod_eq_of_lt (by omega)
    have e3 : (p + 4 + 4 + 4) % U32 = p + 4 + 4 + 4 := Nat.mod_eq_of_lt (by omega)
    rw [e1, e2, e3]
    rw [TEE_MemMove_append_at km p (p + 4) _ _ (by rw [u32_bytes_length]),
      TEE_MemMove_append_at km p (p + 4 + 4) _ _
        (by rw [List.length_append, u32_bytes_length, u32_bytes_length]),
      List.append_assoc]
  · simp only [hv] at h ⊢
    simp only [Bool.false_eq_true, if_false] at h ⊢
    have e1 : (p + 4) % U32 = p + 4 := Nat.mod_eq_of_lt (by omega)
    have e2 : (p + 4 + 4) % U32 = p + 4 + 4 := Nat.mod_eq_of_lt (by omega)
    have e3 : (p + 4 + 4 + attr.content.length) % U32 = p + 4 + 4 + attr.content.length :=
      Nat.mod_eq_of_lt (by omega)
    rw [e1, e2, e3]
    rw [TEE_MemMove_append_at km p (p + 4) _ _ (by rw [u32_bytes_length]),
      TEE_MemMove_append_at km p (p + 4 + 4) _ _
        (by rw [List.length_append, u32_bytes_length, u32_bytes_length]),
      List.append_assoc]
    congr 1
    omega

theorem import_loop_eq (attrs : List TEE_Attribute) (km : Mem) (p : Nat)
    (h : p + (attrs.map record_size).sum < U32) :
    import_loop km p attrs
      = (TEE_MemMove km p (attrs_bytes attrs), p + (attrs.map record_size).sum) := by
  induction attrs generalizing km p with
  | nil =>
    simp only [import_loop, attrs_bytes, List.map_nil, List.sum_nil, Nat.add_zero]
    congr 1
    funext i
    have hi : ¬ (p ≤ i ∧ i < p) := by omega
    simp [TEE_MemMove, hi]
  | cons a l ih =>
    simp only [List.map_cons, List.sum_cons] at h ⊢
    simp only [import_loop, attrs_bytes]
    rw [import_attr_eq km p a (by omega)]
    simp only
    rw [ih _ _ (by omega),
      TEE_MemMove_append_at km p _ _ _ (by rw [attr_bytes_length])]
    congr 1
    omega

theorem restore_loop_step (malloc : Nat → Bool) (km : Mem) (hm : ∀ j, malloc j = true)
    (attr : TEE_Attribute) (n i : Nat) (s : DecodeState)
    (hwa : attr.wf = true)
    (hmem : MemHas km s.padding (attr_bytes attr))
    (hfit : s.padding + record_size attr < U32) :
    ∃ rs : List (Nat × Nat), (∀ r ∈ rs, r.1 + r.2 ≤ s.padding + record_size attr) ∧
      restore_loop malloc km (n + 1) i s
        = restore_loop malloc km n (i + 1)
            ⟨s.padding + record_size attr, s.attrs ++ [attr], s.reads ++ rs⟩ := by
  simp only [attr_bytes, memHas_append, u32_bytes_length] at hmem
  obtain ⟨hmtag, hmrest⟩ := hmem
  obtain ⟨tag, content⟩ := attr
  simp only [TEE_Attribute.wf, Bool.and_eq_true, decide_eq_true_eq] at hwa
  obtain ⟨htag, hcont⟩ := hwa
  have ltag : load_u32 km s.padding = tag := load_u32_of_memHas km _ _ hmtag htag
  simp only [restore_loop, ltag]
  cases content with
  | value a b =>
    simp only [Bool.and_eq_true, decide_eq_true_eq] at hcont
    obtain ⟨⟨hv, ha⟩, hb⟩ := hcont
    simp only [record_size, hv, if_true] at hfit ⊢
    simp only [hv, if_true, memHas_append, u32_bytes_length, Content.a, Content.b] at hmrest
    obtain ⟨hmA, hmB⟩ := hmrest
    have e1 : (s.padding + 4) % U32 = s.padding + 4 := Nat.mod_eq_of_lt (by omega)
    have e2 : (s.padding + 4 + 4) % U32 = s.padding + 4 + 4 := Nat.mod_eq_of_lt (by omega)
    have e3 : (s.padding + 4 + 4 + 4) % U32 = s.padding + 4 + 4 + 4 :=
      Nat.mod_eq_of_lt (by omega)
    rw [e1, e2, e3, load_u32_of_memHas km _ _ hmA ha, load_u32_of_memHas km _ _ hmB hb]
    refine ⟨[(s.padding, 4), (s.padding + 4, 4), (s.padding + 4 + 4, 4)], ?_, ?_⟩
    · intro r hr
      simp only [List.mem_cons, List.mem_singleton, List.mem_nil_iff, or_false] at hr
      rcases hr with hr | hr | hr <;> subst hr <;> simp only <;> omega
    · have e4 : s.padding + 4 + 4 + 4 = s.padding + (4 + 8) := by omega
      rw [e4]
      simp only [TEE_InitValueAttribute, List.append_assoc, List.cons_append,
        List.nil_append]
  | ref buf =>
    simp only [Bool.and_eq_true, decide_eq_true_eq, Bool.not_eq_true'] at hcont
    obtain ⟨hv, hlen⟩ := hcont
    simp only [record_size, hv, Content.length, Content.buffer] at hfit ⊢
    simp only [Bool.false_eq_true, if_false] at hfit ⊢
    simp only [hv, Bool.false_eq_true, if_false, memHas_append, u32_bytes_length,
      Content.length, Content.buffer] at hmrest
    obtain ⟨hmL, hmB⟩ := hmrest
    have e1 : (s.padding + 4) % U32 = s.padding + 4 := Nat.mod_eq_of_lt (by omega)
    have e2 : (s.padding + 4 + 4) % U32 = s.padding + 4 + 4 := Nat.mod_eq_of_lt (by omega)
    have e3 : (s.padding + 4 + 4 + buf.length) % U32 = s.padding + 4 + 4 + buf.length :=
      Nat.mod_eq_of_lt (by omega)
    rw [e1, e2, load_u32_of_memHas km _ _ hmL hlen, e3, hm i,
      readBytes_of_memHas km _ _ hmB]
    simp only [if_true]
    refine ⟨[(s.padding, 4), (s.padding + 4, 4), (s.padding + 4 + 4, buf.length)], ?_, ?_⟩
    · intro r hr
      simp only [List.mem_cons, List.mem_singleton, List.mem_nil_iff, or_false] at hr
      rcases hr with hr | hr | hr <;> subst hr <;> simp only <;> omega
    · have e4 : s.padding + 4 + 4 + buf.length = s.padding + (4 + (4 + buf.length)) := by
        omega
      rw [e4]
      simp only [TEE_InitRefAttribute, List.append_assoc, List.cons_append,
        List.nil_append]

theorem restore_loop_decodes (malloc : Nat → Bool) (km : Mem) (hm : ∀ j, malloc j = true)
    (attrs : List TEE_Attribute) (i : Nat) (s : DecodeState)
    (hwf : ∀ a ∈ attrs, a.wf = true)
    (hmem : MemHas km s.padding (attrs_bytes attrs))
    (hfit : s.padding + (attrs.map record_size).sum < U32) :
    (restore_loop malloc km attrs.length i s).1 = KM_ERROR_OK ∧
    (restore_loop malloc km attrs.length i s).2.1 = i + attrs.length ∧
    (restore_loop malloc km attrs.length i s).2.2.padding
      = s.padding + (attrs.map record_size).sum ∧
    (restore_loop malloc km attrs.length i s).2.2.attrs = s.attrs ++ attrs ∧
    ∀ r ∈ (restore_loop malloc km attrs.length i s).2.2.reads,
      r ∈ s.reads ∨ r.1 + r.2 ≤ s.padding + (attrs.map record_size).sum := by
  induction attrs generalizing i s with
  | nil =>
    simp only [List.length_nil, restore_loop, List.map_nil, List.sum_nil, Nat.add_zero,
      List.append_nil, true_and]
    intro r hr
    exact Or.inl hr
  | cons a l ih =>
    have hwa : a.wf = true := hwf a (List.mem_cons_self _ _)
    have hwl : ∀ b ∈ l, b.wf = true := fun b hb => hwf b (List.mem_cons_of_mem _ hb)
    simp only [List.map_cons, List.sum_cons] at hfit
    simp only [attrs_bytes, memHas_append, attr_bytes_length] at hmem
    obtain ⟨hma, hml⟩ := hmem
    obtain ⟨rs, hrs, hstep⟩ :=
      restore_loop_step malloc km hm a l.length i s hwa hma (by omega)
    simp only [List.length_cons, List.map_cons, List.sum_cons]
    rw [hstep]
    obtain ⟨k1, k2, k3, k4, k5⟩ := ih (i + 1)
      ⟨s.padding + record_size a, s.attrs ++ [a], s.reads ++ rs⟩ hwl hml
      (by simp only; omega)
    refine ⟨k1, ?_, ?_, ?_, ?_⟩
    · rw [k2]; omega
    · rw [k3]; simp only; omega
    · rw [k4]; simp
    · intro r hr
      rcases k5 r hr with h | h
      · simp only [List.mem_append] at h
        rcases h with h | h
        · exact Or.inl h
        · exact Or.inr (by have := hrs r h; omega)
      · exact Or.inr (by simp only at h; omega)

theorem import_key_memory (algorithm key_size digest type : Nat) (km0 : Mem)
    (attrs : List TEE_Attribute) (ht : import_type algorithm digest = .ok type)
    (hfit : serialized_size attrs < U32) :
    (TA_import_key algorithm key_size km0 digest attrs).res = KM_ERROR_OK ∧
    (TA_import_key algorithm key_size km0 digest attrs).padding = serialized_size attrs ∧
    (TA_import_key algorithm key_size km0 digest attrs).key_material
      = TEE_MemMove km0 0 (u32_bytes type ++ (u32_bytes key_size ++ attrs_bytes attrs)) := by
  unfold serialized_size at hfit
  have e := import_loop_eq attrs
    (TEE_MemMove (TEE_MemMove km0 0 (u32_bytes type)) 4 (u32_bytes key_size)) (4 + 4)
    (by omega)
  have e1 : (TA_import_key algorithm key_size km0 digest attrs).res = KM_ERROR_OK := by
    simp only [TA_import_key, ht]
  have e2 : (TA_import_key algorithm key_size km0 digest attrs).padding
      = serialized_size attrs := by
    simp only [TA_import_key, ht, e, serialized_size]
  have e3 : (TA_import_key algorithm key_size km0 digest attrs).key_material
      = TEE_MemMove km0 0 (u32_bytes type ++ (u32_bytes key_size ++ attrs_bytes attrs)) := by
    simp only [TA_import_key, ht, e]
    rw [TEE_MemMove_append_at km0 0 4 _ _ (by rw [u32_bytes_length]),
      TEE_MemMove_append_at km0 0 (4 + 4) _ _
        (by rw [List.length_append, u32_bytes_length, u32_bytes_length]),
      List.append_assoc]
  exact ⟨e1, e2, e3⟩

theorem round_trip_core (algorithm key_size digest type : Nat) (km0 : Mem)
    (attrs : List TEE_Attribute) (malloc : Nat → Bool)
    (ht : import_type algorithm digest = .ok type) (htype : type < U32)
    (hcount : (restore_algorithm type).1 = attrs.length)
    (hks : key_size < U32)
    (hwf : ∀ a ∈ attrs, a.wf = true)
    (hfit : serialized_size attrs < U32)
    (hm : ∀ i, malloc i = true) :
    (restore_decode true malloc
        (TA_import_key algorithm key_size km0 digest attrs).key_material).res = KM_ERROR_OK ∧
    (restore_decode true malloc
        (TA_import_key algorithm key_size km0 digest attrs).key_material).type = type ∧
    (restore_decode true malloc
        (TA_import_key algorithm key_size km0 digest attrs).key_material).key_size
      = key_size ∧
    (restore_decode true malloc
        (TA_import_key algorithm key_size km0 digest attrs).key_material).st.attrs = attrs ∧
    (restore_decode true malloc
        (TA_import_key algorithm key_size km0 digest attrs).key_material).attrs_count
      = attrs.length ∧
    (restore_decode true malloc
        (TA_import_key algorithm key_size km0 digest attrs).key_material).st.padding
      = serialized_size attrs ∧
    ∀ r ∈ (restore_decode true malloc
        (TA_import_key algorithm key_size km0 digest attrs).key_material).st.reads,
      r.1 + r.2 ≤ serialized_size attrs := by
  obtain ⟨-, -, hmem⟩ := import_key_memory algorithm key_size digest type km0 attrs ht hfit
  rw [hmem]
  have hall := memHas_MemMove km0 0
    (u32_bytes type ++ (u32_bytes key_size ++ attrs_bytes attrs))
  rw [memHas_append, memHas_append] at hall
  simp only [u32_bytes_length, Nat.zero_add] at hall
  obtain ⟨h0, h4, h8⟩ := hall
  have l0 := load_u32_of_memHas _ _ _ h0 htype
  have l4 := load_u32_of_memHas _ _ _ h4 hks
  unfold serialized_size at hfit
  have key := restore_loop_decodes malloc _ hm attrs 0 ⟨4 + 4, [], [(0, 4)] ++ [(4, 4)]⟩ hwf
    h8 (by simp only; omega)
  simp only [restore_decode, if_true, l0, l4, hcount]
  obtain ⟨k1, k2, k3, k4, k5⟩ := key
  refine ⟨k1, trivial, trivial, ?_, ?_, ?_, ?_⟩
  · rw [k4]; rfl
  · rw [k2]; omega
  · rw [k3]; simp only [serialized_size]
  · intro r hr
    rcases k5 r hr with h | h
    · simp only [List.cons_append, List.nil_append, List.mem_cons, List.mem_singleton,
        List.mem_nil_iff, or_false] at h
      rcases h with h | h <;> subst h <;> simp only [serialized_size] <;> omega
    · simp only [serialized_size]
      simp only at h
      omega

theorem supported_type (algorithm digest : Nat)
    (halg : algorithm = KM_ALGORITHM_AES ∨
      (algorithm = KM_ALGORITHM_HMAC ∧
        digest ∈ [KM_DIGEST_MD5, KM_DIGEST_SHA1, KM_DIGEST_SHA_2_224, KM_DIGEST_SHA_2_256,
          KM_DIGEST_SHA_2_384, KM_DIGEST_SHA_2_512]) ∨
      algorithm = KM_ALGORITHM_RSA ∨ algorithm = KM_ALGORITHM_EC) :
    ∃ type, import_type algorithm digest = .ok type ∧ type < U32 ∧
      (restore_algorithm type).1 = (TA_get_attrs_list algorithm).length := by
  rcases halg with h | ⟨h, hd⟩ | h | h
  · subst h
    exact ⟨TEE_TYPE_AES, rfl, by decide, by decide⟩
  · subst h
    simp only [List.mem_cons, List.mem_singleton, List.mem_nil_iff, or_false] at hd
    rcases hd with hd | hd | hd | hd | hd | hd <;> subst hd
    · exact ⟨TEE_TYPE_HMAC_MD5, rfl, by decide, by decide⟩
    · exact ⟨TEE_TYPE_HMAC_SHA1, rfl, by decide, by decide⟩
    · exact ⟨TEE_TYPE_HMAC_SHA224, rfl, by decide, by decide⟩
    · exact ⟨TEE_TYPE_HMAC_SHA256, rfl, by decide, by decide⟩
    · exact ⟨TEE_TYPE_HMAC_SHA384, rfl, by decide, by decide⟩
    · exact ⟨TEE_TYPE_HMAC_SHA512, rfl, by decide, by decide⟩
  · subst h
    exact ⟨TEE_TYPE_RSA_KEYPAIR, rfl, by decide, by decide⟩
  · subst h
    exact ⟨TEE_TYPE_ECDSA_KEYPAIR, rfl, by decide, by decide⟩

/-- C1. Codec round trip: for AES, HMAC with one of the six digests, RSA and EC, every 32-bit
key size and every attribute list whose tags are the schema of the algorithm in order (value
payload exactly when `is_attr_value` holds of the tag) and whose wire format fits the 32-bit
offset, `TA_import_key` succeeds, and decoding what it wrote with the decode steps of
`TA_restore_key` succeeds with the type chosen at import, the same key size, the same
attribute list, one record per tag of the schema, and ends at the offset where the writer
ended (`serialized_size`). -/
theorem codec_round_trip (algorithm digest key_size : Nat) (attrs : List TEE_Attribute)
    (km0 : Mem) (malloc : Nat → Bool)
    (halg : algorithm = KM_ALGORITHM_AES ∨
      (algorithm = KM_ALGORITHM_HMAC ∧
        digest ∈ [KM_DIGEST_MD5, KM_DIGEST_SHA1, KM_DIGEST_SHA_2_224, KM_DIGEST_SHA_2_256,
          KM_DIGEST_SHA_2_384, KM_DIGEST_SHA_2_512]) ∨
      algorithm = KM_ALGORITHM_RSA ∨ algorithm = KM_ALGORITHM_EC)
    (hks : key_size < U32)
    (hschema : attrs.map TEE_Attribute.attributeID = TA_get_attrs_list algorithm)
    (hwf : ∀ a ∈ attrs, a.wf = true)
    (hfit : serialized_size attrs < U32)
    (hm : ∀ i, malloc i = true) :
    (TA_import_key algorithm key_size km0 digest attrs).res = KM_ERROR_OK ∧
    (TA_import_key algorithm key_size km0 digest attrs).padding = serialized_size attrs ∧
    (restore_decode true malloc
        (TA_import_key algorithm key_size km0 digest attrs).key_material).res = KM_ERROR_OK ∧
    import_type algorithm digest = .ok (restore_decode true malloc
        (TA_import_key algorithm key_size km0 digest attrs).key_material).type ∧
    (restore_decode true malloc
        (TA_import_key algorithm key_size km0 digest attrs).key_material).key_size
      = key_size ∧
    (restore_decode true malloc
        (TA_import_key algorithm key_size km0 digest attrs).key_material).st.attrs = attrs ∧
    (restore_decode true malloc
        (TA_import_key algorithm key_size km0 digest attrs).key_material).attrs_count
      = (TA_get_attrs_list algorithm).length ∧
    (restore_decode true malloc
        (TA_import_key algorithm key_size km0 digest attrs).key_material).st.padding
      = (TA_import_key algorithm key_size km0 digest attrs).padding := by
  have hlen : attrs.length = (TA_get_attrs_list algorithm).length := by
    rw [← hschema, List.length_map]
  obtain ⟨type, ht, htype, hcount⟩ := supported_type algorithm digest halg
  obtain ⟨i1, i2, _⟩ := import_key_memory algorithm key_size digest type km0 attrs ht hfit
  obtain ⟨r1, r2, r3, r4, r5, r6, -⟩ := round_trip_core algorithm key_size digest type km0
    attrs malloc ht htype (by rw [hcount, hlen]) hks hwf hfit hm
  exact ⟨i1, i2, r1, by rw [r2]; exact ht, r3, r4, by rw [r5, hlen], by rw [r6, i2]⟩

/-- Witness for C1: an EC key with the curve as value record and three buffers. -/
theorem codec_round_trip_witness :
    (restore_decode true (fun _ => true)
        (TA_import_key KM_ALGORITHM_EC 256 (fun _ => 0) KM_DIGEST_NONE
          [⟨TEE_ATTR_ECC_CURVE, .value 3 0⟩, ⟨TEE_ATTR_ECC_PUBLIC_VALUE_X, .ref [1, 2]⟩,
           ⟨TEE_ATTR_ECC_PUBLIC_VALUE_Y, .ref [3]⟩,
           ⟨TEE_ATTR_ECC_PRIVATE_VALUE, .ref [4, 5, 6]⟩]).key_material).st.attrs
      = [⟨TEE_ATTR_ECC_CURVE, .value 3 0⟩, ⟨TEE_ATTR_ECC_PUBLIC_VALUE_X, .ref [1, 2]⟩,
         ⟨TEE_ATTR_ECC_PUBLIC_VALUE_Y, .ref [3]⟩,
         ⟨TEE_ATTR_ECC_PRIVATE_VALUE, .ref [4, 5, 6]⟩] :=
  (codec_round_trip KM_ALGORITHM_EC KM_DIGEST_NONE 256
    [⟨TEE_ATTR_ECC_CURVE, .value 3 0⟩, ⟨TEE_ATTR_ECC_PUBLIC_VALUE_X, .ref [1, 2]⟩,
     ⟨TEE_ATTR_ECC_PUBLIC_VALUE_Y, .ref [3]⟩, ⟨TEE_ATTR_ECC_PRIVATE_VALUE, .ref [4, 5, 6]⟩]
    (fun _ => 0) (fun _ => true) (Or.inr (Or.inr (Or.inr rfl))) (by decide) (by decide)
    (by decide) (by decide) (fun _ => rfl)).2.2.2.2.2.1

/-! ## Bounds of the decode loop -/

theorem restore_loop_res (malloc : Nat → Bool) (km : Mem) (n i : Nat) (s : DecodeState) :
    (restore_loop malloc km n i s).1 = KM_ERROR_OK ∨
    (restore_loop malloc km n i s).1 = KM_ERROR_MEMORY_ALLOCATION_FAILED := by
  induction n generalizing i s with
  | zero => exact Or.inl rfl
  | succ n ih =>
    simp only [restore_loop]
    split
    · exact ih _ _
    · split
      · exact ih _ _
      · exact Or.inr rfl

theorem restore_decode_res (attrs_ok : Bool) (malloc : Nat → Bool) (km : Mem) :
    (restore_decode attrs_ok malloc km).res = KM_ERROR_OK ∨
    (restore_decode attrs_ok malloc km).res = KM_ERROR_MEMORY_ALLOCATION_FAILED := by
  unfold restore_decode
  split
  · exact restore_loop_res _ _ _ _ _
  · exact Or.inr rfl

/-- C2, as stated, fails: the key blob `shortBlob` has a declared length of 16 bytes and its
key material ends with a length prefix of 16; `TA_restore_key` reads the 16 bytes at offsets 16 to 31, hands
them to `TEE_PopulateTransientObject` as the secret value and returns `KM_ERROR_OK`. -/
theorem restore_key_reads_past_declared_length :
    shortBlob.length = 16 ∧
    (TA_restore_key exConsts exLimits exSizes flipAEAD okRestore (cachedStatics 129)
      (some (fun _ => 170)) shortBlob 0 0 0).res = KM_ERROR_OK ∧
    (16, 16) ∈ (TA_restore_key exConsts exLimits exSizes flipAEAD okRestore
      (cachedStatics 129) (some (fun _ => 170)) shortBlob 0 0 0).reads ∧
    Event.PopulateTransientObject 11 [⟨TEE_ATTR_SECRET_VALUE, .ref (List.replicate 16 170)⟩]
      ∈ (TA_restore_key exConsts exLimits exSizes flipAEAD okRestore
      (cachedStatics 129) (some (fun _ => 170)) shortBlob 0 0 0).calls := by
  decide

/-- C2, amended: the decode steps of `TA_restore_key` never compare an offset with the
declared length. On key material written by `TA_import_key` for a schema-conforming
attribute list whose wire format has at most `n` bytes, decoding succeeds and every read
`(offset, length)` ends at or before `n`; and on every content of the memory the decode steps
end with `KM_ERROR_OK` or `KM_ERROR_MEMORY_ALLOCATION_FAILED`, so an overrunning length
prefix is never reported as corrupt key material. -/
theorem restore_decode_bounded_on_serialized (algorithm digest key_size n : Nat)
    (attrs : List TEE_Attribute) (km0 : Mem) (malloc : Nat → Bool)
    (halg : algorithm = KM_ALGORITHM_AES ∨
      (algorithm = KM_ALGORITHM_HMAC ∧
        digest ∈ [KM_DIGEST_MD5, KM_DIGEST_SHA1, KM_DIGEST_SHA_2_224, KM_DIGEST_SHA_2_256,
          KM_DIGEST_SHA_2_384, KM_DIGEST_SHA_2_512]) ∨
      algorithm = KM_ALGORITHM_RSA ∨ algorithm = KM_ALGORITHM_EC)
    (hks : key_size < U32)
    (hschema : attrs.map TEE_Attribute.attributeID = TA_get_attrs_list algorithm)
    (hwf : ∀ a ∈ attrs, a.wf = true)
    (hfit : serialized_size attrs < U32)
    (hn : serialized_size attrs ≤ n)
    (hm : ∀ i, malloc i = true) :
    (restore_decode true malloc
        (TA_import_key algorithm key_size km0 digest attrs).key_material).res = KM_ERROR_OK ∧
    (∀ r ∈ (restore_decode true malloc
        (TA_import_key algorithm key_size km0 digest attrs).key_material).st.reads,
      r.1 + r.2 ≤ n) ∧
    (∀ (attrs_ok : Bool) (malloc1 : Nat → Bool) (km : Mem),
      (restore_decode attrs_ok malloc1 km).res = KM_ERROR_OK ∨
      (restore_decode attrs_ok malloc1 km).res = KM_ERROR_MEMORY_ALLOCATION_FAILED) := by
  have hlen : attrs.length = (TA_get_attrs_list algorithm).length := by
    rw [← hschema, List.length_map]
  obtain ⟨type, ht, htype, hcount⟩ := supported_type algorithm digest halg
  obtain ⟨r1, -, -, -, -, -, r7⟩ := round_trip_core algorithm key_size digest type km0
    attrs malloc ht htype (by rw [hcount, hlen]) hks hwf hfit hm
  exact ⟨r1, fun r hr => Nat.le_trans (r7 r hr) hn, restore_decode_res⟩

/-- Witness for the amended C2: an AES key of 3 bytes, 19 bytes of key material; decoding
succeeds and the read of the buffer, 3 bytes at offset 16, ends at 19. -/
theorem restore_decode_bounded_on_serialized_witness :
    (restore_decode true (fun _ => true)
        (TA_import_key KM_ALGORITHM_AES 128 (fun _ => 0) KM_DIGEST_NONE
          [⟨TEE_ATTR_SECRET_VALUE, .ref [1, 2, 3]⟩]).key_material).res = KM_ERROR_OK ∧
    (16, 3) ∈ (restore_decode true (fun _ => true)
        (TA_import_key KM_ALGORITHM_AES 128 (fun _ => 0) KM_DIGEST_NONE
          [⟨TEE_ATTR_SECRET_VALUE, .ref [1, 2, 3]⟩]).key_material).st.reads ∧
    ((16, 3) : Nat × Nat).1 + ((16, 3) : Nat × Nat).2 ≤ 19 := by
  have h := restore_decode_bounded_on_serialized KM_ALGORITHM_AES KM_DIGEST_NONE 128 19
    [⟨TEE_ATTR_SECRET_VALUE, .ref [1, 2, 3]⟩] (fun _ => 0) (fun _ => true) (Or.inl rfl)
    (by decide) (by decide) (by decide) (by decide) (by decide) (fun _ => rfl)
  have hmem : (16, 3) ∈ (restore_decode true (fun _ => true)
      (TA_import_key KM_ALGORITHM_AES 128 (fun _ => 0) KM_DIGEST_NONE
        [⟨TEE_ATTR_SECRET_VALUE, .ref [1, 2, 3]⟩]).key_material).st.reads := by decide
  exact ⟨h.1, hmem, h.2.1 (16, 3) hmem⟩

/-! ## AEAD wrap engine -/

theorem exec_free_op_res (res : Int) (op : Nat) (data : List Nat) (st : Statics)
    (trace : List Event) : (exec_free_op res op data st trace).res = res := by
  unfold exec_free_op
  split <;> rfl

theorem exec_free_op_data (res : Int) (op : Nat) (data : List Nat) (st : Statics)
    (trace : List Event) : (exec_free_op res op data st trace).data = data := by
  unfold exec_free_op
  split <;> rfl

theorem exec_free_op_st (res : Int) (op : Nat) (data : List Nat) (st : Statics)
    (trace : List Event) : (exec_free_op res op data st trace).st = st := by
  unfold exec_free_op
  split <;> rfl

theorem mem_exec_free_op_trace (res : Int) (op : Nat) (data : List Nat) (st : Statics)
    (trace : List Event) (e : Event) (he : e ∈ trace) :
    e ∈ (exec_free_op res op data st trace).trace := by
  unfold exec_free_op
  split
  · exact List.mem_append_left _ he
  · exact he

theorem overwrite_of_length_eq (buf data : List Nat) (h : data.length = buf.length) :
    overwrite buf data = data := by
  unfold overwrite
  rw [← h, List.take_length, List.drop_eq_nil_of_le (by omega), List.append_nil]

theorem take_overwrite (buf data : List Nat) (h : data.length ≤ buf.length) :
    (overwrite buf data).take data.length = data := by
  unfold overwrite
  rw [List.take_of_length_le h, List.take_left']
  rfl

/-- C5, as stated, fails: with the wrong tag in the static buffer `TEE_AEDecryptFinal`
reports `TEE_ERROR_MAC_INVALID` and delivers the flipped bytes; `TA_decrypt` returns the
failure and the caller's 16 bytes are as before the call, not the bytes delivered. -/
theorem decrypt_failure_does_not_copy :
    (flipAEAD.decryptFinal 7 (List.replicate 16 2) 128 shortBlob [0] 1)
      = (TEE_ERROR_MAC_INVALID, shortMaterial) ∧
    (TA_decrypt exConsts flipAEAD okExec (cachedStatics 0) shortBlob).res
      = TEE_ERROR_MAC_INVALID ∧
    (TA_decrypt exConsts flipAEAD okExec (cachedStatics 0) shortBlob).data = shortBlob ∧
    shortBlob ≠ shortMaterial := by
  decide

/-- C5, amended: for every block-aligned non-empty input for which `TEE_AEDecryptFinal` is
reached and reports a failure (tag mismatch included), `TA_decrypt` returns that failure code
and leaves the caller's data buffer as it was: `outbuf` is copied over it only when the
result is `TEE_SUCCESS`. -/
theorem decrypt_failure_returns_code_keeps_data (c : MasterConsts) (P : AEAD) (env : ExecEnv)
    (st : Statics) (data : List Nat)
    (ho : (TA_open_secret_key c env.open_env st TEE_HANDLE_NULL).res = TEE_SUCCESS)
    (hm : env.malloc_ok = true) (ha : env.alloc_op_res = TEE_SUCCESS)
    (hs : env.set_key_res = TEE_SUCCESS)
    (hb : data.length % c.BLOCK_SIZE = 0) (hne : 0 < data.length)
    (hf : (P.decryptFinal (TA_open_secret_key c env.open_env st TEE_HANDLE_NULL).secretKey
        (TA_open_secret_key c env.open_env st TEE_HANDLE_NULL).st.iv c.TAG_SIZE data
        ((TA_open_secret_key c env.open_env st TEE_HANDLE_NULL).st.tag.take
          (TA_open_secret_key c env.open_env st TEE_HANDLE_NULL).st.tagLen)
        (TA_open_secret_key c env.open_env st TEE_HANDLE_NULL).st.tagLen).1 ≠ TEE_SUCCESS) :
    (TA_decrypt c P env st data).res
      = (P.decryptFinal (TA_open_secret_key c env.open_env st TEE_HANDLE_NULL).secretKey
        (TA_open_secret_key c env.open_env st TEE_HANDLE_NULL).st.iv c.TAG_SIZE data
        ((TA_open_secret_key c env.open_env st TEE_HANDLE_NULL).st.tag.take
          (TA_open_secret_key c env.open_env st TEE_HANDLE_NULL).st.tagLen)
        (TA_open_secret_key c env.open_env st TEE_HANDLE_NULL).st.tagLen).1 ∧
    (TA_decrypt c P env st data).data = data := by
  have hmode : ¬ (TEE_MODE_DECRYPT = TEE_MODE_ENCRYPT) := by decide
  have hok : ¬ ((TA_open_secret_key c env.open_env st TEE_HANDLE_NULL).res ≠ KM_ERROR_OK) := by
    rw [ho]; decide
  simp only [TA_decrypt, TA_execute, hok, hm, ha, hs, hb, hne, hmode, hf, if_false, if_true,
    ne_eq, not_true_eq_false, not_false_eq_true, Bool.not_true, Bool.false_eq_true,
    gt_iff_lt, and_self, exec_free_op_res, exec_free_op_data]

/-- Witness for the amended C5: the wrong tag with `flipAEAD`. -/
theorem decrypt_failure_returns_code_keeps_data_witness :
    (TA_decrypt exConsts flipAEAD okExec (cachedStatics 0) shortBlob).data = shortBlob :=
  (decrypt_failure_returns_code_keeps_data exConsts flipAEAD okExec (cachedStatics 0)
    shortBlob (by decide) (by decide) (by decide) (by decide) (by decide) (by decide)
    (by decide)).2

theorem TA_open_secret_key_cached (c : MasterConsts) (env : OpenEnv) (st : Statics)
    (secretKey : Nat) (hkey : st.masterKey ≠ TEE_HANDLE_NULL) :
    TA_open_secret_key c env st secretKey = ⟨TEE_SUCCESS, st.masterKey, st, []⟩ := by
  unfold TA_open_secret_key
  rw [if_pos hkey]

theorem TA_execute_empty (c : MasterConsts) (P : AEAD) (env : ExecEnv) (st : Statics)
    (mode : Nat) (hkey : st.masterKey ≠ TEE_HANDLE_NULL)
    (hm : env.malloc_ok = true) (ha : env.alloc_op_res = TEE_SUCCESS)
    (hs : env.set_key_res = TEE_SUCCESS) :
    (TA_execute c P env st [] mode).res = TEE_SUCCESS ∧
    (TA_execute c P env st [] mode).data = [] ∧
    (TA_execute c P env st [] mode).st = st := by
  have hok : ¬ ((TEE_SUCCESS : Int) ≠ KM_ERROR_OK) := by decide
  simp only [TA_execute, TA_open_secret_key_cached c env.open_env st _ hkey, hok, hm, ha, hs,
    List.length_nil, Nat.zero_mod, if_false, if_true, ne_eq, not_true_eq_false,
    Bool.not_true, Bool.false_eq_true, gt_iff_lt, Nat.lt_irrefl, and_false,
    exec_free_op_res, exec_free_op_data, exec_free_op_st, List.replicate_zero, and_self]

theorem TA_encrypt_cached (c : MasterConsts) (P : AEAD) (env : ExecEnv) (st : Statics)
    (p : List Nat) (hkey : st.masterKey ≠ TEE_HANDLE_NULL)
    (hm : env.malloc_ok = true) (ha : env.alloc_op_res = TEE_SUCCESS)
    (hs : env.set_key_res = TEE_SUCCESS)
    (hb : p.length % c.BLOCK_SIZE = 0) (hne : 0 < p.length) :
    (TA_encrypt c P env st p).res = (P.encryptFinal st.masterKey st.iv c.TAG_SIZE p).1 ∧
    (TA_encrypt c P env st p).data
      = (if (P.encryptFinal st.masterKey st.iv c.TAG_SIZE p).1 ≠ TEE_SUCCESS then p
         else overwrite (List.replicate p.length 0)
          (P.encryptFinal st.masterKey st.iv c.TAG_SIZE p).2.1) ∧
    (TA_encrypt c P env st p).st
      = { st with
          tag := overwrite st.tag (P.encryptFinal st.masterKey st.iv c.TAG_SIZE p).2.2.1,
          tagLen := (P.encryptFinal st.masterKey st.iv c.TAG_SIZE p).2.2.2 } := by
  have hok : ¬ ((TEE_SUCCESS : Int) ≠ KM_ERROR_OK) := by decide
  simp only [TA_encrypt, TA_execute, TA_open_secret_key_cached c env.open_env st _ hkey, hok,
    hm, ha, hs, hb, hne, if_false, if_true, ne_eq, not_true_eq_false, Bool.not_true,
    Bool.false_eq_true, gt_iff_lt, and_self]
  by_cases hr : (P.encryptFinal st.masterKey st.iv c.TAG_SIZE p).1 = TEE_SUCCESS
  · simp only [hr, not_true_eq_false, if_false, exec_free_op_res, exec_free_op_data,
      exec_free_op_st, and_self]
  · simp only [hr, not_false_eq_true, if_true, exec_free_op_res, exec_free_op_data,
      exec_free_op_st, and_self]

theorem TA_decrypt_cached (c : MasterConsts) (P : AEAD) (env : ExecEnv) (st : Statics)
    (p : List Nat) (hkey : st.masterKey ≠ TEE_HANDLE_NULL)
    (hm : env.malloc_ok = true) (ha : env.alloc_op_res = TEE_SUCCESS)
    (hs : env.set_key_res = TEE_SUCCESS)
    (hb : p.length % c.BLOCK_SIZE = 0) (hne : 0 < p.length) :
    (TA_decrypt c P env st p).res
      = (P.decryptFinal st.masterKey st.iv c.TAG_SIZE p (st.tag.take st.tagLen) st.tagLen).1 ∧
    (TA_decrypt c P env st p).data
      = (if (P.decryptFinal st.masterKey st.iv c.TAG_SIZE p (st.tag.take st.tagLen)
            st.tagLen).1 ≠ TEE_SUCCESS then p
         else overwrite (List.replicate p.length 0)
          (P.decryptFinal st.masterKey st.iv c.TAG_SIZE p (st.tag.take st.tagLen)
            st.tagLen).2) ∧
    (TA_decrypt c P env st p).st = st ∧
    Event.AEDecryptFinal env.op p (st.tag.take st.tagLen) st.tagLen
      ∈ (TA_decrypt c P env st p).trace := by
  have hok : ¬ ((TEE_SUCCESS : Int) ≠ KM_ERROR_OK) := by decide
  have hmode : ¬ (TEE_MODE_DECRYPT = TEE_MODE_ENCRYPT) := by decide
  simp only [TA_decrypt, TA_execute, TA_open_secret_key_cached c env.open_env st _ hkey, hok,
    hm, ha, hs, hb, hne, hmode, if_false, if_true, ne_eq, not_true_eq_false, Bool.not_true,
    Bool.false_eq_true, gt_iff_lt, and_self]
  by_cases hr : (P.decryptFinal st.masterKey st.iv c.TAG_SIZE p (st.tag.take st.tagLen)
      st.tagLen).1 = TEE_SUCCESS
  · simp only [hr, not_true_eq_false, if_false, exec_free_op_res, exec_free_op_data,
      exec_free_op_st, true_and]
    exact mem_exec_free_op_trace _ _ _ _ _ _ (by simp)
  · simp only [hr, not_false_eq_true, if_true, exec_free_op_res, exec_free_op_data,
      exec_free_op_st, true_and]
    exact mem_exec_free_op_trace _ _ _ _ _ _ (by simp)

/-- C3. Wrap/unwrap round trip: with a cached master key, a primitive that obeys the
correctness law and a TEE that grants the buffer and the operation, for every buffer `p`
whose length is a multiple of `BLOCK_SIZE`, `TA_encrypt` returns success and a `TA_decrypt`
that follows it on the resulting bytes returns success and leaves exactly `p`. -/
theorem wrap_unwrap_round_trip (c : MasterConsts) (P : AEAD) (hP : P.Correct c)
    (st : Statics) (hkey : st.masterKey ≠ TEE_HANDLE_NULL)
    (htag : st.tag.length = c.TAG_LENGTH) (env1 env2 : ExecEnv)
    (hm1 : env1.malloc_ok = true) (ha1 : env1.alloc_op_res = TEE_SUCCESS)
    (hs1 : env1.set_key_res = TEE_SUCCESS)
    (hm2 : env2.malloc_ok = true) (ha2 : env2.alloc_op_res = TEE_SUCCESS)
    (hs2 : env2.set_key_res = TEE_SUCCESS)
    (p : List Nat) (hb : p.length % c.BLOCK_SIZE = 0) :
    (TA_encrypt c P env1 st p).res = TEE_SUCCESS ∧
    (TA_decrypt c P env2 (TA_encrypt c P env1 st p).st (TA_encrypt c P env1 st p).data).res
      = TEE_SUCCESS ∧
    (TA_decrypt c P env2 (TA_encrypt c P env1 st p).st (TA_encrypt c P env1 st p).data).data
      = p := by
  by_cases hne : 0 < p.length
  · obtain ⟨e1, e2, e3⟩ := TA_encrypt_cached c P env1 st p hkey hm1 ha1 hs1 hb hne
    obtain ⟨l1, l2, l3, l4, l5⟩ := hP st.masterKey st.iv c.TAG_SIZE p
    rw [l1] at e1
    rw [l1, if_neg (by decide), overwrite_of_length_eq _ _ (by rw [l2, List.length_replicate])]
      at e2
    have hkey2 : (TA_encrypt c P env1 st p).st.masterKey ≠ TEE_HANDLE_NULL := by
      rw [e3]; exact hkey
    have hlen : (TA_encrypt c P env1 st p).data.length = p.length := by rw [e2, l2]
    obtain ⟨d1, d2, -, -⟩ := TA_decrypt_cached c P env2 (TA_encrypt c P env1 st p).st
      (TA_encrypt c P env1 st p).data hkey2 hm2 ha2 hs2 (by rw [hlen]; exact hb)
      (by rw [hlen]; exact hne)
    have htake : (TA_encrypt c P env1 st p).st.tag.take (TA_encrypt c P env1 st p).st.tagLen
        = (P.encryptFinal st.masterKey st.iv c.TAG_SIZE p).2.2.1 := by
      rw [e3]
      simp only
      rw [← l3]
      exact take_overwrite _ _ (by rw [l3, htag]; exact l4)
    have hdec : P.decryptFinal (TA_encrypt c P env1 st p).st.masterKey
        (TA_encrypt c P env1 st p).st.iv c.TAG_SIZE (TA_encrypt c P env1 st p).data
        ((TA_encrypt c P env1 st p).st.tag.take (TA_encrypt c P env1 st p).st.tagLen)
        (TA_encrypt c P env1 st p).st.tagLen = (TEE_SUCCESS, p) := by
      rw [htake, e2]
      rw [e3]
      exact l5
    rw [hdec] at d1 d2
    refine ⟨e1, d1, ?_⟩
    rw [d2, if_neg (fun h => h rfl), hlen,
      overwrite_of_length_eq _ _ (by rw [List.length_replicate])]
  · have hp : p = [] := List.length_eq_zero.mp (by omega)
    subst hp
    obtain ⟨e1, e2, e3⟩ := TA_execute_empty c P env1 st TEE_MODE_ENCRYPT hkey hm1 ha1 hs1
    have e1' : (TA_encrypt c P env1 st []).res = TEE_SUCCESS := e1
    have e2' : (TA_encrypt c P env1 st []).data = [] := e2
    have e3' : (TA_encrypt c P env1 st []).st = st := e3
    rw [e2', e3']
    obtain ⟨d1, d2, -⟩ := TA_execute_empty c P env2 st TEE_MODE_DECRYPT hkey hm2 ha2 hs2
    exact ⟨e1', d1, d2⟩

theorem flipAEAD_correct : flipAEAD.Correct exConsts := by
  intro key nonce tagBits src
  have hflip : (src.map (· ^^^ 255)).map (· ^^^ 255) = src := by
    rw [List.map_map]
    conv_rhs => rw [← List.map_id src]
    apply List.map_congr_left
    intro b _
    simp only [Function.comp_apply, id_eq, Nat.xor_assoc, Nat.xor_self, Nat.xor_zero]
  refine ⟨rfl, by simp [flipAEAD], rfl, by simp [flipAEAD, exConsts], ?_⟩
  simp only [flipAEAD, hflip, and_self, if_true]

/-- Witness for C3: 16 bytes wrapped and unwrapped with `flipAEAD`. -/
theorem wrap_unwrap_round_trip_witness :
    (TA_decrypt exConsts flipAEAD okExec
      (TA_encrypt exConsts flipAEAD okExec (cachedStatics 0) shortMaterial).st
      (TA_encrypt exConsts flipAEAD okExec (cachedStatics 0) shortMaterial).data).data
      = shortMaterial :=
  (wrap_unwrap_round_trip exConsts flipAEAD flipAEAD_correct (cachedStatics 0) (by decide)
    (by decide) okExec okExec rfl rfl rfl rfl rfl rfl shortMaterial (by decide)).2.2

/-- C4, as stated, fails: after `textOne` and then `textTwo` have been wrapped, unwrapping the
first blob passes the tag of the second wrap (32, not 16) to `TEE_AEDecryptFinal`, returns
`TEE_ERROR_MAC_INVALID` and leaves the ciphertext in the buffer; unwrapping it right after
its own wrap succeeds. -/
theorem unwrap_after_second_wrap_fails :
    wrapOne.res = TEE_SUCCESS ∧ wrapTwo.res = TEE_SUCCESS ∧
    wrapOne.st.tag.take wrapOne.st.tagLen = [16] ∧
    wrapTwo.st.tag.take wrapTwo.st.tagLen = [32] ∧
    (TA_decrypt exConsts flipAEAD okExec wrapOne.st wrapOne.data).res = TEE_SUCCESS ∧
    (TA_decrypt exConsts flipAEAD okExec wrapOne.st wrapOne.data).data = textOne ∧
    (TA_decrypt exConsts flipAEAD okExec wrapTwo.st wrapOne.data).res
      = TEE_ERROR_MAC_INVALID ∧
    (TA_decrypt exConsts flipAEAD okExec wrapTwo.st wrapOne.data).data ≠ textOne ∧
    Event.AEDecryptFinal 9 wrapOne.data [32] 1
      ∈ (TA_decrypt exConsts flipAEAD okExec wrapTwo.st wrapOne.data).trace := by
  decide

/-- C4, amended: `TA_encrypt` returns only the ciphertext and keeps the tag in the static
buffer of `TA_execute`, and `TA_decrypt` authenticates against that buffer. After
`c1 = TA_encrypt(p1)` and then `c2 = TA_encrypt(p2)`, for non-empty block-aligned `p1`, `p2`,
both wraps succeed, `TA_decrypt(c1)` passes to `TEE_AEDecryptFinal` the tag and tag length
produced when `p2` was wrapped, and its result is the answer of the primitive for `c1` with
that tag. -/
theorem unwrap_uses_tag_of_last_wrap (c : MasterConsts) (P : AEAD) (hP : P.Correct c)
    (st : Statics) (hkey : st.masterKey ≠ TEE_HANDLE_NULL)
    (htag : st.tag.length = c.TAG_LENGTH) (env1 env2 env3 : ExecEnv)
    (hm1 : env1.malloc_ok = true) (ha1 : env1.alloc_op_res = TEE_SUCCESS)
    (hs1 : env1.set_key_res = TEE_SUCCESS)
    (hm2 : env2.malloc_ok = true) (ha2 : env2.alloc_op_res = TEE_SUCCESS)
    (hs2 : env2.set_key_res = TEE_SUCCESS)
    (hm3 : env3.malloc_ok = true) (ha3 : env3.alloc_op_res = TEE_SUCCESS)
    (hs3 : env3.set_key_res = TEE_SUCCESS)
    (p1 p2 : List Nat) (hb1 : p1.length % c.BLOCK_SIZE = 0) (hne1 : 0 < p1.length)
    (hb2 : p2.length % c.BLOCK_SIZE = 0) (hne2 : 0 < p2.length) :
    (TA_encrypt c P env1 st p1).res = TEE_SUCCESS ∧
    (TA_encrypt c P env2 (TA_encrypt c P env1 st p1).st p2).res = TEE_SUCCESS ∧
    Event.AEDecryptFinal env3.op (TA_encrypt c P env1 st p1).data
        (P.encryptFinal st.masterKey st.iv c.TAG_SIZE p2).2.2.1
        (P.encryptFinal st.masterKey st.iv c.TAG_SIZE p2).2.2.2
      ∈ (TA_decrypt c P env3 (TA_encrypt c P env2 (TA_encrypt c P env1 st p1).st p2).st
          (TA_encrypt c P env1 st p1).data).trace ∧
    (TA_decrypt c P env3 (TA_encrypt c P env2 (TA_encrypt c P env1 st p1).st p2).st
        (TA_encrypt c P env1 st p1).data).res
      = (P.decryptFinal st.masterKey st.iv c.TAG_SIZE (TA_encrypt c P env1 st p1).data
          (P.encryptFinal st.masterKey st.iv c.TAG_SIZE p2).2.2.1
          (P.encryptFinal st.masterKey st.iv c.TAG_SIZE p2).2.2.2).1 := by
  obtain ⟨e1, e2, e3⟩ := TA_encrypt_cached c P env1 st p1 hkey hm1 ha1 hs1 hb1 hne1
  obtain ⟨l1, l2, -, -, -⟩ := hP st.masterKey st.iv c.TAG_SIZE p1
  rw [l1] at e1
  rw [l1, if_neg (fun h => h rfl),
    overwrite_of_length_eq _ _ (by rw [l2, List.length_replicate])] at e2
  have hkey1 : (TA_encrypt c P env1 st p1).st.masterKey ≠ TEE_HANDLE_NULL := by
    rw [e3]; exact hkey
  have hmk1 : (TA_encrypt c P env1 st p1).st.masterKey = st.masterKey := by rw [e3]
  have hiv1 : (TA_encrypt c P env1 st p1).st.iv = st.iv := by rw [e3]
  have htag1 : (TA_encrypt c P env1 st p1).st.tag.length = c.TAG_LENGTH := by
    rw [e3]
    simp only [overwrite, List.length_append, List.length_take, List.length_drop]
    omega
  obtain ⟨f1, -, f3⟩ := TA_encrypt_cached c P env2 (TA_encrypt c P env1 st p1).st p2 hkey1
    hm2 ha2 hs2 hb2 hne2
  rw [hmk1, hiv1] at f1 f3
  obtain ⟨k1, -, k3, k4, -⟩ := hP st.masterKey st.iv c.TAG_SIZE p2
  rw [k1] at f1
  have hkey2 : (TA_encrypt c P env2 (TA_encrypt c P env1 st p1).st p2).st.masterKey
      ≠ TEE_HANDLE_NULL := by
    rw [f3]; exact hkey
  have hlen : (TA_encrypt c P env1 st p1).data.length = p1.length := by rw [e2, l2]
  obtain ⟨d1, -, -, d4⟩ := TA_decrypt_cached c P env3
    (TA_encrypt c P env2 (TA_encrypt c P env1 st p1).st p2).st
    (TA_encrypt c P env1 st p1).data hkey2 hm3 ha3 hs3 (by rw [hlen]; exact hb1)
    (by rw [hlen]; exact hne1)
  have htake : (TA_encrypt c P env2 (TA_encrypt c P env1 st p1).st p2).st.tag.take
      (TA_encrypt c P env2 (TA_encrypt c P env1 st p1).st p2).st.tagLen
        = (P.encryptFinal st.masterKey st.iv c.TAG_SIZE p2).2.2.1 := by
    rw [f3]
    simp only
    rw [← k3]
    exact take_overwrite _ _ (by rw [k3, htag1]; exact k4)
  have hlen2 : (TA_encrypt c P env2 (TA_encrypt c P env1 st p1).st p2).st.tagLen
      = (P.encryptFinal st.masterKey st.iv c.TAG_SIZE p2).2.2.2 := by rw [f3]
  have hmk2 : (TA_encrypt c P env2 (TA_encrypt c P env1 st p1).st p2).st.masterKey
      = st.masterKey := by rw [f3]
  have hiv2 : (TA_encrypt c P env2 (TA_encrypt c P env1 st p1).st p2).st.iv = st.iv := by
    rw [f3]
  rw [htake, hlen2] at d4
  rw [htake, hlen2, hmk2, hiv2] at d1
  exact ⟨e1, f1, d4, d1⟩

/-- Witness for the amended C4: the two-wrap example from cached statics. -/
theorem unwrap_uses_tag_of_last_wrap_witness :
    (TA_decrypt exConsts flipAEAD okExec
        (TA_encrypt exConsts flipAEAD okExec
          (TA_encrypt exConsts flipAEAD okExec (cachedStatics 0) textOne).st textTwo).st
        (TA_encrypt exConsts flipAEAD okExec (cachedStatics 0) textOne).data).res
      = (flipAEAD.decryptFinal 7 (List.replicate 16 2) 128
          (TA_encrypt exConsts flipAEAD okExec (cachedStatics 0) textOne).data
          [32] 1).1 :=
  (unwrap_uses_tag_of_last_wrap exConsts flipAEAD flipAEAD_correct (cachedStatics 0)
    (by decide) (by decide) okExec okExec okExec rfl rfl rfl rfl rfl rfl rfl rfl rfl
    textOne textTwo (by decide) (by decide) (by decide) (by decide)).2.2.2

/-! ## Restore -/

theorem restore_decode_algorithm (attrs_ok : Bool) (malloc : Nat → Bool) (km : Mem) :
    (restore_decode attrs_ok malloc km).algorithm
      = (restore_algorithm (restore_decode attrs_ok malloc km).type).2 := by
  unfold restore_decode
  split <;> rfl

theorem restore_algorithm_not_hmac (type : Nat)
    (h : (restore_algorithm type).2 ≠ KM_ALGORITHM_HMAC) :
    type = TEE_TYPE_AES ∨ type = TEE_TYPE_RSA_KEYPAIR ∨ type = TEE_TYPE_ECDSA_KEYPAIR := by
  unfold restore_algorithm at h
  by_cases h1 : type = TEE_TYPE_AES
  · exact Or.inl h1
  · by_cases h2 : type = TEE_TYPE_RSA_KEYPAIR
    · exact Or.inr (Or.inl h2)
    · by_cases h3 : type = TEE_TYPE_ECDSA_KEYPAIR
      · exact Or.inr (Or.inr h3)
      · simp only [h1, h2, h3, if_false, ne_eq, not_true_eq_false] at h

theorem hmac_type_limits_some (l : HmacLimits) (type : Nat)
    (h : hmac_type_limits l type ≠ none) :
    type = TEE_TYPE_HMAC_MD5 ∨ type = TEE_TYPE_HMAC_SHA1 ∨ type = TEE_TYPE_HMAC_SHA224 ∨
    type = TEE_TYPE_HMAC_SHA256 ∨ type = TEE_TYPE_HMAC_SHA384 ∨ type = TEE_TYPE_HMAC_SHA512 := by
  unfold hmac_type_limits at h
  by_cases h1 : type = TEE_TYPE_HMAC_MD5
  · exact Or.inl h1
  by_cases h2 : type = TEE_TYPE_HMAC_SHA1
  · exact Or.inr (Or.inl h2)
  by_cases h3 : type = TEE_TYPE_HMAC_SHA224
  · exact Or.inr (Or.inr (Or.inl h3))
  by_cases h4 : type = TEE_TYPE_HMAC_SHA256
  · exact Or.inr (Or.inr (Or.inr (Or.inl h4)))
  by_cases h5 : type = TEE_TYPE_HMAC_SHA384
  · exact Or.inr (Or.inr (Or.inr (Or.inr (Or.inl h5))))
  by_cases h6 : type = TEE_TYPE_HMAC_SHA512
  · exact Or.inr (Or.inr (Or.inr (Or.inr (Or.inr h6))))
  simp only [h1, h2, h3, h4, h5, h6, if_false, ne_eq, not_true_eq_false] at h

theorem check_hmac_key_ok_type (l : HmacLimits) (type k : Nat)
    (h : (TA_check_hmac_key l type (some k)).1 = KM_ERROR_OK) :
    hmac_type_limits l type ≠ none := by
  intro hn
  simp only [TA_check_hmac_key, hn] at h
  exact absurd h (by decide)

/-- The types for which `TA_restore_key` builds a key object. -/
theorem restore_checked_type (l : HmacLimits) (type k algorithm : Nat)
    (halg : algorithm = (restore_algorithm type).2)
    (h : (if algorithm = KM_ALGORITHM_HMAC then TA_check_hmac_key l type (some k)
          else (KM_ERROR_OK, some k)).1 = KM_ERROR_OK) :
    type ∈ [TEE_TYPE_AES, TEE_TYPE_RSA_KEYPAIR, TEE_TYPE_ECDSA_KEYPAIR, TEE_TYPE_HMAC_MD5,
      TEE_TYPE_HMAC_SHA1, TEE_TYPE_HMAC_SHA224, TEE_TYPE_HMAC_SHA256, TEE_TYPE_HMAC_SHA384,
      TEE_TYPE_HMAC_SHA512] := by
  simp only [List.mem_cons, List.mem_singleton, List.mem_nil_iff, or_false]
  by_cases ha : algorithm = KM_ALGORITHM_HMAC
  · rw [if_pos ha] at h
    have := hmac_type_limits_some l type (check_hmac_key_ok_type l type k h)
    tauto
  · have := restore_algorithm_not_hmac type (by rw [← halg]; exact ha)
    tauto

/-- C6. Only authenticated, correctly typed material becomes a key object: in every run of
`TA_restore_key`, `TA_decrypt` is called on the bytes of the blob; a call of
`TEE_AllocateTransientObject` or `TEE_PopulateTransientObject` by `TA_restore_key` is made
only if `TA_decrypt` returned `KM_ERROR_OK` and the decoded type is `TEE_TYPE_AES`,
`TEE_TYPE_RSA_KEYPAIR`, `TEE_TYPE_ECDSA_KEYPAIR` or one of the six `TEE_TYPE_HMAC_*`; on every
decrypt failure the function returns that failure, and for every other decoded type it
returns an error, in both cases with no such call and `*obj_h` as it was. -/
theorem restore_key_object_only_if_authenticated_and_typed (c : MasterConsts)
    (l : HmacLimits) (a : AttrSizes) (P : AEAD) (env : RestoreEnv) (st : Statics) (km : Mem)
    (key_blob : List Nat) (key_size type obj_h : Nat) :
    (TA_restore_key c l a P env st (some km) key_blob key_size type obj_h).decrypt
      = some (TA_decrypt c P env.exec st key_blob) ∧
    ((∃ e ∈ (TA_restore_key c l a P env st (some km) key_blob key_size type obj_h).calls,
        e.isKeyObject = true) →
      (TA_decrypt c P env.exec st key_blob).res = KM_ERROR_OK ∧
      (TA_restore_key c l a P env st (some km) key_blob key_size type obj_h).type ∈
        [TEE_TYPE_AES, TEE_TYPE_RSA_KEYPAIR, TEE_TYPE_ECDSA_KEYPAIR, TEE_TYPE_HMAC_MD5,
          TEE_TYPE_HMAC_SHA1, TEE_TYPE_HMAC_SHA224, TEE_TYPE_HMAC_SHA256,
          TEE_TYPE_HMAC_SHA384, TEE_TYPE_HMAC_SHA512]) ∧
    ((TA_decrypt c P env.exec st key_blob).res ≠ KM_ERROR_OK →
      (TA_restore_key c l a P env st (some km) key_blob key_size type obj_h).res
        = (TA_decrypt c P env.exec st key_blob).res ∧
      (TA_restore_key c l a P env st (some km) key_blob key_size type obj_h).obj_h = obj_h ∧
      (TA_restore_key c l a P env st (some km) key_blob key_size type obj_h).calls = []) ∧
    ((TA_decrypt c P env.exec st key_blob).res = KM_ERROR_OK →
      (TA_restore_key c l a P env st (some km) key_blob key_size type obj_h).type ∉
        [TEE_TYPE_AES, TEE_TYPE_RSA_KEYPAIR, TEE_TYPE_ECDSA_KEYPAIR, TEE_TYPE_HMAC_MD5,
          TEE_TYPE_HMAC_SHA1, TEE_TYPE_HMAC_SHA224, TEE_TYPE_HMAC_SHA256,
          TEE_TYPE_HMAC_SHA384, TEE_TYPE_HMAC_SHA512] →
      (TA_restore_key c l a P env st (some km) key_blob key_size type obj_h).res
        ≠ KM_ERROR_OK ∧
      (TA_restore_key c l a P env st (some km) key_blob key_size type obj_h).obj_h = obj_h ∧
      (TA_restore_key c l a P env st (some km) key_blob key_size type obj_h).calls = []) := by
  have hread : readBytes (TEE_MemMove km 0 key_blob) 0 key_blob.length = key_blob :=
    readBytes_of_memHas _ _ _ (memHas_MemMove km 0 key_blob)
  simp only [TA_restore_key, hread]
  by_cases hd : (TA_decrypt c P env.exec st key_blob).res = KM_ERROR_OK
  · simp only [hd, ne_eq, not_true_eq_false, if_false, false_implies, true_implies, true_and]
    generalize hdec : restore_decode env.attrs_ok env.malloc
      (TEE_MemMove (TEE_MemMove km 0 key_blob) 0 (TA_decrypt c P env.exec st key_blob).data)
      = dec
    have halg : dec.algorithm = (restore_algorithm dec.type).2 := by
      rw [← hdec]; exact restore_decode_algorithm _ _ _
    by_cases h1 : dec.res = KM_ERROR_OK
    · simp only [h1, not_true_eq_false, if_false]
      generalize hchk : (if dec.algorithm = KM_ALGORITHM_HMAC then
          TA_check_hmac_key l dec.type (some (if env.attrs_ok = true then dec.key_size
            else key_size))
        else (KM_ERROR_OK, some (if env.attrs_ok = true then dec.key_size else key_size)))
        = chk
      by_cases h2 : chk.1 = KM_ERROR_OK
      · have hty := restore_checked_type l dec.type _ dec.algorithm halg (by rw [hchk]; exact h2)
        simp only [h2, not_true_eq_false, if_false]
        refine ⟨?_, ?_, ?_⟩
        · split_ifs <;> rfl
        · intro _
          split_ifs <;> exact hty
        · split_ifs <;> exact fun hnot => absurd hty hnot
      · simp only [h2, not_false_eq_true, if_true, List.not_mem_nil, false_and, exists_false,
          false_implies, true_and, and_self, implies_true]
    · simp only [h1, not_false_eq_true, if_true, List.not_mem_nil, false_and, exists_false,
        false_implies, true_and, and_self, implies_true]
  · simp only [hd, ne_eq, not_false_eq_true, if_true, List.not_mem_nil, false_and,
      exists_false, false_implies, true_implies, and_self, true_and]

/-! ## Master key manager -/

/-- C7 fails on the code: with an empty cache and an existing persistent object, a first
`TEE_ReadObjectData` that reports `TEE_SUCCESS` with 15 of 16 bytes makes
`TA_open_secret_key` return `TEE_SUCCESS` and store the null handle in `*secretKey` (which
held 42); a short read of the IV does the same after overwriting the first bytes of the
static `iv`. The cache stays empty in both runs. -/
theorem short_read_returns_success :
    TA_open_secret_key exConsts shortReadOpen (Statics.init exConsts) 42
      = ⟨TEE_SUCCESS, TEE_HANDLE_NULL, Statics.init exConsts,
          [Event.OpenPersistentObject, Event.ReadObjectData 5 16, Event.CloseObject 5]⟩ ∧
    (TA_open_secret_key exConsts shortIvOpen (Statics.init exConsts) 42).res = TEE_SUCCESS ∧
    (TA_open_secret_key exConsts shortIvOpen (Statics.init exConsts) 42).secretKey
      = TEE_HANDLE_NULL ∧
    (TA_open_secret_key exConsts shortIvOpen (Statics.init exConsts) 42).st.masterKey
      = TEE_HANDLE_NULL ∧
    (TA_open_secret_key exConsts shortIvOpen (Statics.init exConsts) 42).st.iv
      = [9, 9, 9, 0, 0, 0, 0, 0, 0, 0, 0, 0, 0, 0, 0, 0] := by
  decide

/-- C8 fails on the code: the call with the short read returns `TEE_SUCCESS` without filling
the cache, so the next call opens and reads the persistent object again, changes the static
`iv` and returns another handle (7, not the null handle of the first call). -/
theorem second_open_after_short_read_reads_storage :
    (TA_open_secret_key exConsts shortReadOpen (Statics.init exConsts) 0).res = TEE_SUCCESS ∧
    (TA_open_secret_key exConsts shortReadOpen (Statics.init exConsts) 0).secretKey
      = TEE_HANDLE_NULL ∧
    TA_open_secret_key exConsts okOpen
        (TA_open_secret_key exConsts shortReadOpen (Statics.init exConsts) 0).st 0
      = ⟨TEE_SUCCESS, 7,
          ⟨7, List.replicate 16 2, List.replicate 16 0, 16⟩,
          [Event.OpenPersistentObject, Event.ReadObjectData 5 16, Event.ReadObjectData 5 16,
           Event.AllocateTransientObject TEE_TYPE_AES 128,
           Event.PopulateTransientObject 7
             [⟨TEE_ATTR_SECRET_VALUE, .ref (List.replicate 16 1)⟩],
           Event.CloseObject 5]⟩ ∧
    (TA_open_secret_key exConsts shortReadOpen (Statics.init exConsts) 0).st.iv
      = List.replicate 16 0 := by
  decide

/-- C9. Master-key bring-up is all-or-nothing. When the persistent object is absent and its
creation succeeds, `TA_create_secret_key` draws key and IV and writes exactly two records of
`KEY_LENGTH` bytes, the key and then the IV; if both writes succeed it closes the object
without deletion and returns `TEE_SUCCESS`; if the write of the key fails, or the write of
the IV fails, it closes the object with deletion and returns that failure. When the object
exists, it only closes it: nothing is generated or written and `TEE_SUCCESS` is returned. -/
theorem create_secret_key_all_or_nothing (c : MasterConsts) (env : CreateEnv) (st : Statics) :
    (env.open_res = TEE_ERROR_ITEM_NOT_FOUND → env.create_res = TEE_SUCCESS →
      ((List.range c.KEY_LENGTH).map env.random_key).length = c.KEY_LENGTH ∧
      ((List.range c.KEY_LENGTH).map env.random_iv).length = c.KEY_LENGTH ∧
      (env.write_key_res = TEE_SUCCESS → env.write_iv_res = TEE_SUCCESS →
        (TA_create_secret_key c env st).res = TEE_SUCCESS ∧
        (TA_create_secret_key c env st).trace
          = [Event.OpenPersistentObject, Event.GenerateRandom c.KEY_LENGTH,
             Event.GenerateRandom c.KEY_LENGTH, Event.CreatePersistentObject,
             Event.WriteObjectData env.created ((List.range c.KEY_LENGTH).map env.random_key),
             Event.WriteObjectData env.created ((List.range c.KEY_LENGTH).map env.random_iv),
             Event.CloseObject env.created]) ∧
      (env.write_key_res ≠ TEE_SUCCESS →
        (TA_create_secret_key c env st).res = env.write_key_res ∧
        (TA_create_secret_key c env st).trace
          = [Event.OpenPersistentObject, Event.GenerateRandom c.KEY_LENGTH,
             Event.GenerateRandom c.KEY_LENGTH, Event.CreatePersistentObject,
             Event.WriteObjectData env.created ((List.range c.KEY_LENGTH).map env.random_key),
             Event.CloseAndDeletePersistentObject env.created]) ∧
      (env.write_key_res = TEE_SUCCESS → env.write_iv_res ≠ TEE_SUCCESS →
        (TA_create_secret_key c env st).res = env.write_iv_res ∧
        (TA_create_secret_key c env st).trace
          = [Event.OpenPersistentObject, Event.GenerateRandom c.KEY_LENGTH,
             Event.GenerateRandom c.KEY_LENGTH, Event.CreatePersistentObject,
             Event.WriteObjectData env.created ((List.range c.KEY_LENGTH).map env.random_key),
             Event.WriteObjectData env.created ((List.range c.KEY_LENGTH).map env.random_iv),
             Event.CloseAndDeletePersistentObject env.created])) ∧
    (env.open_res = TEE_SUCCESS →
      TA_create_secret_key c env st
        = ⟨TEE_SUCCESS, st, [Event.OpenPersistentObject, Event.CloseObject env.object]⟩) := by
  have hnf : ¬ (TEE_SUCCESS = TEE_ERROR_ITEM_NOT_FOUND) := by decide
  refine ⟨fun ho hc => ⟨by simp, by simp, ?_, ?_, ?_⟩, fun ho => ?_⟩
  · intro hk hi
    simp [TA_create_secret_key, create_error, ho, hc, hk, hi]
  · intro hk
    simp [TA_create_secret_key, create_error, ho, hc, hk]
  · intro hk hi
    simp [TA_create_secret_key, create_error, ho, hc, hk, hi]
  · simp [TA_create_secret_key, ho, hnf]

/-- Witness for C9: bring-up in a TEE without the object, with 16-byte key and IV. -/
theorem create_secret_key_all_or_nothing_witness :
    (TA_create_secret_key exConsts okCreate (Statics.init exConsts)).trace
      = [Event.OpenPersistentObject, Event.GenerateRandom 16, Event.GenerateRandom 16,
         Event.CreatePersistentObject,
         Event.WriteObjectData 6 ((List.range 16).map (fun i => i + 1)),
         Event.WriteObjectData 6 ((List.range 16).map (fun i => i + 101)),
         Event.CloseObject 6] :=
  ((create_secret_key_all_or_nothing exConsts okCreate (Statics.init exConsts)).1 rfl
    rfl).2.2.1 rfl rfl |>.2

/-! ## Size of the serialized key material -/

theorem record_size_le (attr : TEE_Attribute) (S : Nat) (h1 : attr.content.length ≤ S)
    (h2 : is_attr_value attr.attributeID = true → 4 ≤ S) : record_size attr ≤ 8 + S := by
  unfold record_size
  by_cases hv : is_attr_value attr.attributeID = true
  · have := h2 hv
    simp only [hv, if_true]
    omega
  · simp only [hv, Bool.false_eq_true, if_false]
    omega

theorem sum_record_size_le (attrs : List TEE_Attribute) (S : Nat)
    (h : ∀ a ∈ attrs, record_size a ≤ S) : (attrs.map record_size).sum ≤ attrs.length * S := by
  induction attrs with
  | nil => simp
  | cons a l ih =>
    have ha := h a (List.mem_cons_self _ _)
    have hl := ih (fun b hb => h b (List.mem_cons_of_mem _ hb))
    simp only [List.map_cons, List.sum_cons, List.length_cons, Nat.succ_mul]
    omega

theorem import_key_padding_le (algorithm key_size digest : Nat) (km0 : Mem)
    (attrs : List TEE_Attribute) (hfit : serialized_size attrs < U32) :
    (TA_import_key algorithm key_size km0 digest attrs).padding ≤ serialized_size attrs := by
  cases ht : import_type algorithm digest with
  | error e => simp [TA_import_key, ht]
  | ok type =>
    obtain ⟨-, h, -⟩ := import_key_memory algorithm key_size digest type km0 attrs ht hfit
    rw [h]

theorem schema_value_tags (algorithm : Nat)
    (halg : algorithm ∈ [KM_ALGORITHM_AES, KM_ALGORITHM_HMAC, KM_ALGORITHM_RSA]) :
    ∀ t ∈ TA_get_attrs_list algorithm, is_attr_value t = false := by
  simp only [List.mem_cons, List.mem_singleton, List.mem_nil_iff, or_false] at halg
  rcases halg with h | h | h <;> subst h <;> decide

/-- C10. Serialized-size bound: for AES, HMAC, RSA and EC, with attribute-size constants
for which the bound fits 32 bits and `KM_EC_ATTR_SIZE` holds the 4 bytes by which a value
record exceeds its tag and framing, `TA_get_key_size(algorithm)` is
`count * (2 * 4 + attr size) + 4 + 4` with `count` the length of the schema, and for every
attribute list that follows the schema with each reference payload no longer than the
attribute-size constant of the algorithm, the wire format and the number of bytes
`TA_import_key` writes are at most `TA_get_key_size(algorithm)`, the offset of the
parameter-set block; for any other algorithm `TA_get_key_size` returns 0. -/
theorem serialized_size_le_key_size (c : AttrSizes) (algorithm key_size digest : Nat)
    (km0 : Mem) (attrs : List TEE_Attribute)
    (halg : algorithm ∈
      [KM_ALGORITHM_AES, KM_ALGORITHM_HMAC, KM_ALGORITHM_RSA, KM_ALGORITHM_EC])
    (hrep : (TA_get_attrs_list algorithm).length * (2 * 4 + attr_size c algorithm) + 4 + 4
      < U32)
    (hec : 4 ≤ c.KM_EC_ATTR_SIZE)
    (hschema : attrs.map TEE_Attribute.attributeID = TA_get_attrs_list algorithm)
    (hsize : ∀ a ∈ attrs, a.content.length ≤ attr_size c algorithm) :
    TA_get_key_size c algorithm
      = (TA_get_attrs_list algorithm).length * (2 * 4 + attr_size c algorithm) + 4 + 4 ∧
    serialized_size attrs ≤ TA_get_key_size c algorithm ∧
    (TA_import_key algorithm key_size km0 digest attrs).padding
      ≤ TA_get_key_size c algorithm ∧
    ∀ other, other ∉
        [KM_ALGORITHM_AES, KM_ALGORITHM_HMAC, KM_ALGORITHM_RSA, KM_ALGORITHM_EC] →
      TA_get_key_size c other = 0 := by
  have hlen : attrs.length = (TA_get_attrs_list algorithm).length := by
    rw [← hschema, List.length_map]
  have hks : TA_get_key_size c algorithm
      = (TA_get_attrs_list algorithm).length * (2 * 4 + attr_size c algorithm) + 4 + 4 := by
    simp only [List.mem_cons, List.mem_singleton, List.mem_nil_iff, or_false] at halg
    rcases halg with h | h | h | h <;> subst h <;>
      exact Nat.mod_eq_of_lt hrep
  have hval : ∀ a ∈ attrs, is_attr_value a.attributeID = true → 4 ≤ attr_size c algorithm := by
    intro a ha hv
    have hmem : a.attributeID ∈ TA_get_attrs_list algorithm := by
      rw [← hschema]; exact List.mem_map_of_mem _ ha
    simp only [List.mem_cons, List.mem_singleton, List.mem_nil_iff, or_false] at halg
    rcases halg with h | h | h | h
    · have := schema_value_tags algorithm (by rw [h]; decide) _ hmem
      rw [this] at hv; exact absurd hv (by decide)
    · have := schema_value_tags algorithm (by rw [h]; decide) _ hmem
      rw [this] at hv; exact absurd hv (by decide)
    · have := schema_value_tags algorithm (by rw [h]; decide) _ hmem
      rw [this] at hv; exact absurd hv (by decide)
    · subst h
      exact hec
  have hsum := sum_record_size_le attrs (2 * 4 + attr_size c algorithm)
    (fun a ha => by have := record_size_le a _ (hsize a ha) (hval a ha); omega)
  have hser : serialized_size attrs ≤ TA_get_key_size c algorithm := by
    rw [hks, ← hlen]
    unfold serialized_size
    omega
  have hfit : serialized_size attrs < U32 := by
    rw [hks] at hser
    omega
  refine ⟨hks, hser, Nat.le_trans (import_key_padding_le _ _ _ _ _ hfit) hser, ?_⟩
  intro other ho
  simp only [List.mem_cons, List.mem_singleton, List.mem_nil_iff, or_false, not_or] at ho
  obtain ⟨o1, o2, o3, o4⟩ := ho
  simp only [TA_get_key_size, o1, o2, o3, o4, if_false]

/-- Witness for C10: an EC key with the example attribute sizes, 68 bytes per buffer. -/
theorem serialized_size_le_key_size_witness :
    (TA_import_key KM_ALGORITHM_EC 521 (fun _ => 0) KM_DIGEST_NONE
      [⟨TEE_ATTR_ECC_CURVE, .value 5 0⟩,
       ⟨TEE_ATTR_ECC_PUBLIC_VALUE_X, .ref (List.replicate 66 1)⟩,
       ⟨TEE_ATTR_ECC_PUBLIC_VALUE_Y, .ref (List.replicate 66 2)⟩,
       ⟨TEE_ATTR_ECC_PRIVATE_VALUE, .ref (List.replicate 66 3)⟩]).padding
      ≤ TA_get_key_size exSizes KM_ALGORITHM_EC :=
  (serialized_size_le_key_size exSizes KM_ALGORITHM_EC 521 KM_DIGEST_NONE (fun _ => 0)
    [⟨TEE_ATTR_ECC_CURVE, .value 5 0⟩,
     ⟨TEE_ATTR_ECC_PUBLIC_VALUE_X, .ref (List.replicate 66 1)⟩,
     ⟨TEE_ATTR_ECC_PUBLIC_VALUE_Y, .ref (List.replicate 66 2)⟩,
     ⟨TEE_ATTR_ECC_PRIVATE_VALUE, .ref (List.replicate 66 3)⟩]
    (by decide) (by decide) (by decide) (by decide) (by decide)).2.2.1

/-! ## Attribute schema registry -/

/-- C11. Schema registry: the short EC list is private value, public X, public Y; the full EC
list is curve, public X, public Y, private value, and the short list holds exactly the tags
of the full list other than the curve; the RSA list is the 8 tags modulus, public exponent,
private exponent, prime1, prime2, exponent1, exponent2, coefficient in that order; the AES
and HMAC list is the single tag `TEE_ATTR_SECRET_VALUE`; the flag `short_list` changes the
result for no algorithm other than EC, and `TA_get_attrs_list` is the list for the flag
`false`. -/
theorem attrs_list_registry :
    TA_get_attrs_list_short KM_ALGORITHM_EC true
      = [TEE_ATTR_ECC_PRIVATE_VALUE, TEE_ATTR_ECC_PUBLIC_VALUE_X,
          TEE_ATTR_ECC_PUBLIC_VALUE_Y] ∧
    TA_get_attrs_list_short KM_ALGORITHM_EC false
      = [TEE_ATTR_ECC_CURVE, TEE_ATTR_ECC_PUBLIC_VALUE_X, TEE_ATTR_ECC_PUBLIC_VALUE_Y,
          TEE_ATTR_ECC_PRIVATE_VALUE] ∧
    (∀ t, t ∈ TA_get_attrs_list_short KM_ALGORITHM_EC true ↔
      t ∈ TA_get_attrs_list_short KM_ALGORITHM_EC false ∧ t ≠ TEE_ATTR_ECC_CURVE) ∧
    (∀ short_list, TA_get_attrs_list_short KM_ALGORITHM_RSA short_list
      = [TEE_ATTR_RSA_MODULUS, TEE_ATTR_RSA_PUBLIC_EXPONENT, TEE_ATTR_RSA_PRIVATE_EXPONENT,
          TEE_ATTR_RSA_PRIME1, TEE_ATTR_RSA_PRIME2, TEE_ATTR_RSA_EXPONENT1,
          TEE_ATTR_RSA_EXPONENT2, TEE_ATTR_RSA_COEFFICIENT]) ∧
    (∀ short_list, TA_get_attrs_list_short KM_ALGORITHM_AES short_list
      = [TEE_ATTR_SECRET_VALUE]) ∧
    (∀ short_list, TA_get_attrs_list_short KM_ALGORITHM_HMAC short_list
      = [TEE_ATTR_SECRET_VALUE]) ∧
    (∀ algorithm short_list, algorithm ≠ KM_ALGORITHM_EC →
      TA_get_attrs_list_short algorithm short_list
        = TA_get_attrs_list_short algorithm false) ∧
    (∀ algorithm, TA_get_attrs_list algorithm = TA_get_attrs_list_short algorithm false) := by
  refine ⟨rfl, rfl, ?_, fun _ => rfl, fun _ => rfl, fun _ => rfl, ?_, fun _ => rfl⟩
  · intro t
    have e1 : TA_get_attrs_list_short KM_ALGORITHM_EC true = attributes_ec_short := rfl
    have e2 : TA_get_attrs_list_short KM_ALGORITHM_EC false = attributes_ec := rfl
    rw [e1, e2]
    simp only [attributes_ec_short, attributes_ec, TEE_ATTR_ECC_CURVE,
      TEE_ATTR_ECC_PUBLIC_VALUE_X, TEE_ATTR_ECC_PUBLIC_VALUE_Y, TEE_ATTR_ECC_PRIVATE_VALUE,
      List.mem_cons, List.mem_singleton, List.mem_nil_iff, or_false]
    omega
  · intro algorithm short_list h
    simp only [TA_get_attrs_list_short, h, if_false]

/-! ## Algorithm parameter resolver -/

theorem purpose_to_mode_valid (purpose : Nat)
    (hp : purpose ∈ [KM_PURPOSE_ENCRYPT, KM_PURPOSE_DECRYPT, KM_PURPOSE_SIGN,
      KM_PURPOSE_VERIFY, KM_PURPOSE_DERIVE_KEY]) :
    purpose_to_mode purpose ≠ UINT32_MAX := by
  simp only [List.mem_cons, List.mem_singleton, List.mem_nil_iff, or_false] at hp
  rcases hp with h | h | h | h | h <;> subst h <;> decide

theorem purpose_to_mode_invalid (purpose : Nat)
    (hp : purpose ∉ [KM_PURPOSE_ENCRYPT, KM_PURPOSE_DECRYPT, KM_PURPOSE_SIGN,
      KM_PURPOSE_VERIFY, KM_PURPOSE_DERIVE_KEY]) :
    purpose_to_mode purpose = UINT32_MAX := by
  simp only [List.mem_cons, List.mem_singleton, List.mem_nil_iff, or_false, not_or] at hp
  obtain ⟨h1, h2, h3, h4, h5⟩ := hp
  simp only [purpose_to_mode, h1, h2, h3, h4, h5, if_false]

theorem create_operation_invalid_purpose (env : OperationEnv)
    (operation obj_h purpose algorithm key_size : Nat) (nonce : List Nat)
    (digest op_mode padding mac_length : Nat)
    (hp : purpose_to_mode purpose = UINT32_MAX) :
    TA_create_operation env operation obj_h purpose algorithm key_size nonce digest op_mode
        padding mac_length
      = ⟨KM_ERROR_UNSUPPORTED_PURPOSE, operation, []⟩ := by
  simp only [TA_create_operation, hp, if_true]

theorem create_operation_error (env : OperationEnv)
    (operation obj_h purpose algorithm key_size : Nat) (nonce : List Nat)
    (digest op_mode padding mac_length : Nat) (e : Int)
    (hp : purpose_to_mode purpose ≠ UINT32_MAX)
    (h : create_operation_algo purpose algorithm key_size digest op_mode padding
      (purpose_to_mode purpose) = .error e) :
    TA_create_operation env operation obj_h purpose algorithm key_size nonce digest op_mode
        padding mac_length
      = ⟨e, operation, []⟩ := by
  simp only [TA_create_operation, hp, if_false, h]

theorem allocated_create_operation_init (operation algorithm : Nat) (nonce : List Nat)
    (op_mode mac_length : Nat) (trace : List Event) :
    allocated (create_operation_init operation algorithm nonce op_mode mac_length trace).trace
      = allocated trace := by
  unfold create_operation_init
  split_ifs <;> simp [allocated, List.filterMap_append]

theorem create_operation_allocated (env : OperationEnv)
    (operation obj_h purpose algorithm key_size : Nat) (nonce : List Nat)
    (digest op_mode padding mac_length algo mode : Nat)
    (hp : purpose_to_mode purpose ≠ UINT32_MAX)
    (h : create_operation_algo purpose algorithm key_size digest op_mode padding
      (purpose_to_mode purpose) = .ok (algo, mode)) :
    allocated (TA_create_operation env operation obj_h purpose algorithm key_size nonce
        digest op_mode padding mac_length).trace
      = [(algo, mode)] := by
  simp only [TA_create_operation, hp, if_false, h]
  split_ifs
  · simp [allocated]
  · simp [allocated]
  · rw [allocated_create_operation_init]
    simp [allocated]

/-- C12. Purpose mapping: `purpose_to_mode` maps encrypt, decrypt, sign, verify and derive-key
to the five pairwise different modes `TEE_MODE_ENCRYPT`, `TEE_MODE_DECRYPT`,
`TEE_MODE_SIGN`, `TEE_MODE_VERIFY`, `TEE_MODE_DERIVE`, and for every purpose outside these
five `TA_create_operation` returns `KM_ERROR_UNSUPPORTED_PURPOSE` whatever the other
arguments, with no call into the TEE and the handle behind `operation` as it was. -/
theorem purpose_mapping (env : OperationEnv)
    (operation obj_h purpose algorithm key_size : Nat) (nonce : List Nat)
    (digest op_mode padding mac_length : Nat) :
    [KM_PURPOSE_ENCRYPT, KM_PURPOSE_DECRYPT, KM_PURPOSE_SIGN, KM_PURPOSE_VERIFY,
        KM_PURPOSE_DERIVE_KEY].map purpose_to_mode
      = [TEE_MODE_ENCRYPT, TEE_MODE_DECRYPT, TEE_MODE_SIGN, TEE_MODE_VERIFY,
          TEE_MODE_DERIVE] ∧
    [TEE_MODE_ENCRYPT, TEE_MODE_DECRYPT, TEE_MODE_SIGN, TEE_MODE_VERIFY,
        TEE_MODE_DERIVE].Nodup ∧
    (purpose ∉ [KM_PURPOSE_ENCRYPT, KM_PURPOSE_DECRYPT, KM_PURPOSE_SIGN, KM_PURPOSE_VERIFY,
        KM_PURPOSE_DERIVE_KEY] →
      TA_create_operation env operation obj_h purpose algorithm key_size nonce digest op_mode
          padding mac_length
        = ⟨KM_ERROR_UNSUPPORTED_PURPOSE, operation, []⟩) := by
  refine ⟨by decide, by decide, fun hp => ?_⟩
  exact create_operation_invalid_purpose _ _ _ _ _ _ _ _ _ _ _
    (purpose_to_mode_invalid purpose hp)

/-- C13. RSA primitive table: for algorithm RSA and each of the five purposes,
`TA_create_operation` allocates, in the mode of the purpose, for the paddings
`PKCS1_1_5_SIGN` and `PSS` the RSASSA primitive of that family and of the digest for MD5,
SHA-1, SHA-224, SHA-256, SHA-384 and SHA-512, for `PKCS1_1_5_SIGN` without digest
`TEE_ALG_RSASSA_PKCS1_V1_5`, and for `OAEP` the OAEP-MGF1 primitive of the six digests (the
19 rows `(padding, digest, primitive)` below); `PSS` without digest fails with
`KM_ERROR_INCOMPATIBLE_DIGEST`; `PKCS1_1_5_ENCRYPT` gives `TEE_ALG_RSAES_PKCS1_V1_5` for every
digest value; `OAEP` with `KM_DIGEST_NONE` or any digest value outside the six fails with
`KM_ERROR_UNSUPPORTED_DIGEST`. The failures come before any call into the TEE. -/
theorem rsa_primitive_table (env : OperationEnv) (operation obj_h purpose key_size : Nat)
    (nonce : List Nat) (op_mode mac_length : Nat)
    (hp : purpose ∈ [KM_PURPOSE_ENCRYPT, KM_PURPOSE_DECRYPT, KM_PURPOSE_SIGN,
      KM_PURPOSE_VERIFY, KM_PURPOSE_DERIVE_KEY]) :
    (∀ t ∈ [
        (KM_PAD_RSA_PKCS1_1_5_SIGN, KM_DIGEST_MD5, TEE_ALG_RSASSA_PKCS1_V1_5_MD5),
        (KM_PAD_RSA_PKCS1_1_5_SIGN, KM_DIGEST_SHA1, TEE_ALG_RSASSA_PKCS1_V1_5_SHA1),
        (KM_PAD_RSA_PKCS1_1_5_SIGN, KM_DIGEST_SHA_2_224, TEE_ALG_RSASSA_PKCS1_V1_5_SHA224),
        (KM_PAD_RSA_PKCS1_1_5_SIGN, KM_DIGEST_SHA_2_256, TEE_ALG_RSASSA_PKCS1_V1_5_SHA256),
        (KM_PAD_RSA_PKCS1_1_5_SIGN, KM_DIGEST_SHA_2_384, TEE_ALG_RSASSA_PKCS1_V1_5_SHA384),
        (KM_PAD_RSA_PKCS1_1_5_SIGN, KM_DIGEST_SHA_2_512, TEE_ALG_RSASSA_PKCS1_V1_5_SHA512),
        (KM_PAD_RSA_PKCS1_1_5_SIGN, KM_DIGEST_NONE, TEE_ALG_RSASSA_PKCS1_V1_5),
        (KM_PAD_RSA_PSS, KM_DIGEST_MD5, TEE_ALG_RSASSA_PKCS1_PSS_MGF1_MD5),
        (KM_PAD_RSA_PSS, KM_DIGEST_SHA1, TEE_ALG_RSASSA_PKCS1_PSS_MGF1_SHA1),
        (KM_PAD_RSA_PSS, KM_DIGEST_SHA_2_224, TEE_ALG_RSASSA_PKCS1_PSS_MGF1_SHA224),
        (KM_PAD_RSA_PSS, KM_DIGEST_SHA_2_256, TEE_ALG_RSASSA_PKCS1_PSS_MGF1_SHA256),
        (KM_PAD_RSA_PSS, KM_DIGEST_SHA_2_384, TEE_ALG_RSASSA_PKCS1_PSS_MGF1_SHA384),
        (KM_PAD_RSA_PSS, KM_DIGEST_SHA_2_512, TEE_ALG_RSASSA_PKCS1_PSS_MGF1_SHA512),
        (KM_PAD_RSA_OAEP, KM_DIGEST_MD5, TEE_ALG_RSAES_PKCS1_OAEP_MGF1_MD5),
        (KM_PAD_RSA_OAEP, KM_DIGEST_SHA1, TEE_ALG_RSAES_PKCS1_OAEP_MGF1_SHA1),
        (KM_PAD_RSA_OAEP, KM_DIGEST_SHA_2_224, TEE_ALG_RSAES_PKCS1_OAEP_MGF1_SHA224),
        (KM_PAD_RSA_OAEP, KM_DIGEST_SHA_2_256, TEE_ALG_RSAES_PKCS1_OAEP_MGF1_SHA256),
        (KM_PAD_RSA_OAEP, KM_DIGEST_SHA_2_384, TEE_ALG_RSAES_PKCS1_OAEP_MGF1_SHA384),
        (KM_PAD_RSA_OAEP, KM_DIGEST_SHA_2_512, TEE_ALG_RSAES_PKCS1_OAEP_MGF1_SHA512)],
      allocated (TA_create_operation env operation obj_h purpose KM_ALGORITHM_RSA key_size
          nonce t.2.1 op_mode t.1 mac_length).trace
        = [(t.2.2, purpose_to_mode purpose)]) ∧
    TA_create_operation env operation obj_h purpose KM_ALGORITHM_RSA key_size nonce
        KM_DIGEST_NONE op_mode KM_PAD_RSA_PSS mac_length
      = ⟨KM_ERROR_INCOMPATIBLE_DIGEST, operation, []⟩ ∧
    (∀ digest,
      allocated (TA_create_operation env operation obj_h purpose KM_ALGORITHM_RSA key_size
          nonce digest op_mode KM_PAD_RSA_PKCS1_1_5_ENCRYPT mac_length).trace
        = [(TEE_ALG_RSAES_PKCS1_V1_5, purpose_to_mode purpose)]) ∧
    (∀ digest, digest ∉ [KM_DIGEST_MD5, KM_DIGEST_SHA1, KM_DIGEST_SHA_2_224,
        KM_DIGEST_SHA_2_256, KM_DIGEST_SHA_2_384, KM_DIGEST_SHA_2_512] →
      TA_create_operation env operation obj_h purpose KM_ALGORITHM_RSA key_size nonce
          digest op_mode KM_PAD_RSA_OAEP mac_length
        = ⟨KM_ERROR_UNSUPPORTED_DIGEST, operation, []⟩) := by
  have hv := purpose_to_mode_valid purpose hp
  refine ⟨?_, ?_, ?_, ?_⟩
  · intro t ht
    simp only [List.mem_cons, List.mem_singleton, List.mem_nil_iff, or_false] at ht
    rcases ht with rfl | rfl | rfl | rfl | rfl | rfl | rfl | rfl | rfl | rfl | rfl | rfl | rfl |
      rfl | rfl | rfl | rfl | rfl | rfl
    all_goals exact create_operation_allocated _ _ _ _ _ _ _ _ _ _ _ _ _ hv rfl
  · exact create_operation_error _ _ _ _ _ _ _ _ _ _ _ _ hv rfl
  · intro digest
    exact create_operation_allocated _ _ _ _ _ _ _ _ _ _ _ _ _ hv rfl
  · intro digest hd
    simp only [List.mem_cons, List.mem_singleton, List.mem_nil_iff, or_false, not_or] at hd
    obtain ⟨h1, h2, h3, h4, h5, h6⟩ := hd
    refine create_operation_error _ _ _ _ _ _ _ _ _ _ _ _ hv ?_
    unfold create_operation_algo
    rw [if_neg (by decide), if_pos rfl, if_neg (by decide), if_neg (by decide),
      if_neg (by decide), if_pos rfl, if_neg h1, if_neg h2, if_neg h3, if_neg h4, if_neg h5,
      if_neg h6]

/-- Witness for C13: RSA, PKCS#1 v1.5 signature padding, SHA-256, purpose sign. -/
theorem rsa_primitive_table_witness :
    allocated (TA_create_operation okOperation 0 11 KM_PURPOSE_SIGN KM_ALGORITHM_RSA 2048 []
        KM_DIGEST_SHA_2_256 0 KM_PAD_RSA_PKCS1_1_5_SIGN 0).trace
      = [(TEE_ALG_RSASSA_PKCS1_V1_5_SHA256, TEE_MODE_SIGN)] :=
  (rsa_primitive_table okOperation 0 11 KM_PURPOSE_SIGN 2048 [] 0 0 (by decide)).1
    (KM_PAD_RSA_PKCS1_1_5_SIGN, KM_DIGEST_SHA_2_256, TEE_ALG_RSASSA_PKCS1_V1_5_SHA256)
    (by decide)

theorem rsa_named_padding_mode (purpose key_size digest op_mode padding mode a m : Nat)
    (hpad : padding ∈ [KM_PAD_RSA_PKCS1_1_5_SIGN, KM_PAD_RSA_PSS,
      KM_PAD_RSA_PKCS1_1_5_ENCRYPT, KM_PAD_RSA_OAEP])
    (h : create_operation_algo purpose KM_ALGORITHM_RSA key_size digest op_mode padding mode
      = .ok (a, m)) : m = mode := by
  simp only [List.mem_cons, List.mem_singleton, List.mem_nil_iff, or_false] at hpad
  unfold create_operation_algo at h
  rw [if_neg (by decide), if_pos rfl] at h
  rcases hpad with rfl | rfl | rfl | rfl
  · rw [if_pos rfl] at h
    split_ifs at h <;> (cases h; rfl)
  · rw [if_neg (by decide), if_pos rfl] at h
    split_ifs at h <;> (cases h; rfl)
  · rw [if_neg (by decide), if_neg (by decide), if_pos rfl] at h
    cases h; rfl
  · rw [if_neg (by decide), if_neg (by decide), if_neg (by decide), if_pos rfl] at h
    split_ifs at h <;> (cases h; rfl)

/-- C14. RSA direction swap: for algorithm RSA with padding none, `TA_create_operation`
allocates `TEE_ALG_RSA_NOPAD`, in mode `TEE_MODE_DECRYPT` when the purpose is sign, in mode
`TEE_MODE_ENCRYPT` when the purpose is verify, and in the mode of the purpose for encrypt,
decrypt and derive-key, whatever the digest; for each of the four named RSA paddings every
operation it allocates has the mode of the purpose. -/
theorem rsa_direction_swap (env : OperationEnv) (operation obj_h purpose key_size : Nat)
    (nonce : List Nat) (digest op_mode mac_length : Nat) :
    (purpose = KM_PURPOSE_SIGN →
      allocated (TA_create_operation env operation obj_h purpose KM_ALGORITHM_RSA key_size
          nonce digest op_mode KM_PAD_NONE mac_length).trace
        = [(TEE_ALG_RSA_NOPAD, TEE_MODE_DECRYPT)]) ∧
    (purpose = KM_PURPOSE_VERIFY →
      allocated (TA_create_operation env operation obj_h purpose KM_ALGORITHM_RSA key_size
          nonce digest op_mode KM_PAD_NONE mac_length).trace
        = [(TEE_ALG_RSA_NOPAD, TEE_MODE_ENCRYPT)]) ∧
    (purpose ∈ [KM_PURPOSE_ENCRYPT, KM_PURPOSE_DECRYPT, KM_PURPOSE_DERIVE_KEY] →
      allocated (TA_create_operation env operation obj_h purpose KM_ALGORITHM_RSA key_size
          nonce digest op_mode KM_PAD_NONE mac_length).trace
        = [(TEE_ALG_RSA_NOPAD, purpose_to_mode purpose)]) ∧
    (∀ padding ∈ [KM_PAD_RSA_PKCS1_1_5_SIGN, KM_PAD_RSA_PSS, KM_PAD_RSA_PKCS1_1_5_ENCRYPT,
        KM_PAD_RSA_OAEP],
      ∀ am ∈ allocated (TA_create_operation env operation obj_h purpose KM_ALGORITHM_RSA
          key_size nonce digest op_mode padding mac_length).trace,
        am.2 = purpose_to_mode purpose) := by
  refine ⟨?_, ?_, ?_, ?_⟩
  · rintro rfl
    exact create_operation_allocated _ _ _ _ _ _ _ _ _ _ _ _ _ (by decide) rfl
  · rintro rfl
    exact create_operation_allocated _ _ _ _ _ _ _ _ _ _ _ _ _ (by decide) rfl
  · intro hp
    simp only [List.mem_cons, List.mem_singleton, List.mem_nil_iff, or_false] at hp
    rcases hp with rfl | rfl | rfl <;>
      exact create_operation_allocated _ _ _ _ _ _ _ _ _ _ _ _ _ (by decide) rfl
  · intro padding hpad am ham
    by_cases hv : purpose_to_mode purpose = UINT32_MAX
    · rw [create_operation_invalid_purpose _ _ _ _ _ _ _ _ _ _ _ hv] at ham
      simp [allocated] at ham
    · cases hsel : create_operation_algo purpose KM_ALGORITHM_RSA key_size digest op_mode
          padding (purpose_to_mode purpose) with
      | error e =>
        rw [create_operation_error _ _ _ _ _ _ _ _ _ _ _ e hv hsel] at ham
        simp [allocated] at ham
      | ok am1 =>
        obtain ⟨a, m⟩ := am1
        rw [create_operation_allocated _ _ _ _ _ _ _ _ _ _ _ a m hv hsel] at ham
        simp only [List.mem_singleton] at ham
        subst ham
        exact rsa_named_padding_mode _ _ _ _ _ _ _ _ hpad hsel

/-- C15. EC key sizes: for algorithm EC and each of the five purposes, whatever the padding,
digest, block mode and nonce, `TA_create_operation` allocates `TEE_ALG_ECDSA_P192`, `P224`,
`P256`, `P384`, `P521` (five different primitives) for the key sizes 192, 224, 256, 384, 521
and returns `KM_ERROR_UNSUPPORTED_KEY_SIZE` for every other key size, before any call into
the TEE; `TA_get_curve_nist` gives the NIST curve of the same size on these five sizes and
`UNDEFINED` on every other size, `UNDEFINED` being none of the five curve identifiers. -/
theorem ec_key_sizes (undefined : Nat) (env : OperationEnv)
    (operation obj_h purpose key_size : Nat) (nonce : List Nat)
    (digest op_mode padding mac_length : Nat)
    (hp : purpose ∈ [KM_PURPOSE_ENCRYPT, KM_PURPOSE_DECRYPT, KM_PURPOSE_SIGN,
      KM_PURPOSE_VERIFY, KM_PURPOSE_DERIVE_KEY])
    (hu : undefined ∉ [TEE_ECC_CURVE_NIST_P192, TEE_ECC_CURVE_NIST_P224,
      TEE_ECC_CURVE_NIST_P256, TEE_ECC_CURVE_NIST_P384, TEE_ECC_CURVE_NIST_P521]) :
    (∀ t ∈ [(192, TEE_ALG_ECDSA_P192, TEE_ECC_CURVE_NIST_P192),
        (224, TEE_ALG_ECDSA_P224, TEE_ECC_CURVE_NIST_P224),
        (256, TEE_ALG_ECDSA_P256, TEE_ECC_CURVE_NIST_P256),
        (384, TEE_ALG_ECDSA_P384, TEE_ECC_CURVE_NIST_P384),
        (521, TEE_ALG_ECDSA_P521, TEE_ECC_CURVE_NIST_P521)],
      allocated (TA_create_operation env operation obj_h purpose KM_ALGORITHM_EC t.1 nonce
          digest op_mode padding mac_length).trace
        = [(t.2.1, purpose_to_mode purpose)] ∧
      TA_get_curve_nist undefined t.1 = t.2.2 ∧
      TA_get_curve_nist undefined t.1 ≠ undefined) ∧
    (key_size ∉ [192, 224, 256, 384, 521] →
      TA_create_operation env operation obj_h purpose KM_ALGORITHM_EC key_size nonce digest
          op_mode padding mac_length
        = ⟨KM_ERROR_UNSUPPORTED_KEY_SIZE, operation, []⟩ ∧
      TA_get_curve_nist undefined key_size = undefined) ∧
    [TEE_ALG_ECDSA_P192, TEE_ALG_ECDSA_P224, TEE_ALG_ECDSA_P256, TEE_ALG_ECDSA_P384,
      TEE_ALG_ECDSA_P521].Nodup := by
  have hv := purpose_to_mode_valid purpose hp
  simp only [List.mem_cons, List.mem_singleton, List.mem_nil_iff, or_false, not_or] at hu
  obtain ⟨u1, u2, u3, u4, u5⟩ := hu
  refine ⟨?_, ?_, by decide⟩
  · intro t ht
    simp only [List.mem_cons, List.mem_singleton, List.mem_nil_iff, or_false] at ht
    rcases ht with rfl | rfl | rfl | rfl | rfl
    · exact ⟨create_operation_allocated _ _ _ _ _ _ _ _ _ _ _ _ _ hv rfl, rfl,
        fun h => u1 h.symm⟩
    · exact ⟨create_operation_allocated _ _ _ _ _ _ _ _ _ _ _ _ _ hv rfl, rfl,
        fun h => u2 h.symm⟩
    · exact ⟨create_operation_allocated _ _ _ _ _ _ _ _ _ _ _ _ _ hv rfl, rfl,
        fun h => u3 h.symm⟩
    · exact ⟨create_operation_allocated _ _ _ _ _ _ _ _ _ _ _ _ _ hv rfl, rfl,
        fun h => u4 h.symm⟩
    · exact ⟨create_operation_allocated _ _ _ _ _ _ _ _ _ _ _ _ _ hv rfl, rfl,
        fun h => u5 h.symm⟩
  · intro hk
    simp only [List.mem_cons, List.mem_singleton, List.mem_nil_iff, or_false, not_or] at hk
    obtain ⟨h1, h2, h3, h4, h5⟩ := hk
    constructor
    · refine create_operation_error _ _ _ _ _ _ _ _ _ _ _ _ hv ?_
      unfold create_operation_algo
      rw [if_neg (by decide), if_neg (by decide), if_pos rfl, if_neg h1, if_neg h2,
        if_neg h3, if_neg h4, if_neg h5]
    · simp only [TA_get_curve_nist, h1, h2, h3, h4, h5, if_false]

/-- Witness for C15: EC, key size 256, purpose sign. -/
theorem ec_key_sizes_witness :
    allocated (TA_create_operation okOperation 0 11 KM_PURPOSE_SIGN KM_ALGORITHM_EC 256 []
        KM_DIGEST_NONE 0 KM_PAD_NONE 0).trace
      = [(TEE_ALG_ECDSA_P256, TEE_MODE_SIGN)] :=
  ((ec_key_sizes UINT32_MAX okOperation 0 11 KM_PURPOSE_SIGN 100 [] KM_DIGEST_NONE 0
    KM_PAD_NONE 0 (by decide) (by decide)).1
    (256, TEE_ALG_ECDSA_P256, TEE_ECC_CURVE_NIST_P256) (by decide)).1

/-- C16. HMAC resolution: for algorithm HMAC and each of the five purposes, whatever the
padding, block mode and key size, `TA_create_operation` allocates for the digests MD5, SHA-1,
SHA-224, SHA-256, SHA-384, SHA-512 the `TEE_ALG_HMAC_*` primitive of that digest in mode
`TEE_MODE_MAC`, and for any other digest value, `KM_DIGEST_NONE` included, fails with
`KM_ERROR_UNSUPPORTED_DIGEST` before any call into the TEE. -/
theorem hmac_resolution (env : OperationEnv) (operation obj_h purpose key_size : Nat)
    (nonce : List Nat) (digest op_mode padding mac_length : Nat)
    (hp : purpose ∈ [KM_PURPOSE_ENCRYPT, KM_PURPOSE_DECRYPT, KM_PURPOSE_SIGN,
      KM_PURPOSE_VERIFY, KM_PURPOSE_DERIVE_KEY]) :
    (∀ t ∈ [(KM_DIGEST_MD5, TEE_ALG_HMAC_MD5), (KM_DIGEST_SHA1, TEE_ALG_HMAC_SHA1),
        (KM_DIGEST_SHA_2_224, TEE_ALG_HMAC_SHA224), (KM_DIGEST_SHA_2_256, TEE_ALG_HMAC_SHA256),
        (KM_DIGEST_SHA_2_384, TEE_ALG_HMAC_SHA384),
        (KM_DIGEST_SHA_2_512, TEE_ALG_HMAC_SHA512)],
      allocated (TA_create_operation env operation obj_h purpose KM_ALGORITHM_HMAC key_size
          nonce t.1 op_mode padding mac_length).trace
        = [(t.2, TEE_MODE_MAC)]) ∧
    (digest ∉ [KM_DIGEST_MD5, KM_DIGEST_SHA1, KM_DIGEST_SHA_2_224, KM_DIGEST_SHA_2_256,
        KM_DIGEST_SHA_2_384, KM_DIGEST_SHA_2_512] →
      TA_create_operation env operation obj_h purpose KM_ALGORITHM_HMAC key_size nonce digest
          op_mode padding mac_length
        = ⟨KM_ERROR_UNSUPPORTED_DIGEST, operation, []⟩) := by
  have hv := purpose_to_mode_valid purpose hp
  refine ⟨?_, ?_⟩
  · intro t ht
    simp only [List.mem_cons, List.mem_singleton, List.mem_nil_iff, or_false] at ht
    rcases ht with rfl | rfl | rfl | rfl | rfl | rfl
    all_goals exact create_operation_allocated _ _ _ _ _ _ _ _ _ _ _ _ _ hv rfl
  · intro hd
    simp only [List.mem_cons, List.mem_singleton, List.mem_nil_iff, or_false, not_or] at hd
    obtain ⟨h1, h2, h3, h4, h5, h6⟩ := hd
    refine create_operation_error _ _ _ _ _ _ _ _ _ _ _ _ hv ?_
    unfold create_operation_algo
    rw [if_neg (by decide), if_neg (by decide), if_neg (by decide), if_pos rfl, if_neg h1,
      if_neg h2, if_neg h3, if_neg h4, if_neg h5, if_neg h6]

/-- Witness for C16: HMAC with SHA-256 asked for with purpose sign. -/
theorem hmac_resolution_witness :
    allocated (TA_create_operation okOperation 0 11 KM_PURPOSE_SIGN KM_ALGORITHM_HMAC 256 []
        KM_DIGEST_SHA_2_256 0 KM_PAD_NONE 0).trace
      = [(TEE_ALG_HMAC_SHA256, TEE_MODE_MAC)] :=
  (hmac_resolution okOperation 0 11 KM_PURPOSE_SIGN 256 [] KM_DIGEST_NONE 0 KM_PAD_NONE 0
    (by decide)).1 (KM_DIGEST_SHA_2_256, TEE_ALG_HMAC_SHA256) (by decide)

theorem create_operation_algo_ok_algorithm (purpose algorithm key_size digest op_mode padding
    mode : Nat) (am : Nat × Nat)
    (h : create_operation_algo purpose algorithm key_size digest op_mode padding mode
      = .ok am) :
    algorithm ∈ [KM_ALGORITHM_AES, KM_ALGORITHM_RSA, KM_ALGORITHM_EC, KM_ALGORITHM_HMAC] := by
  simp only [List.mem_cons, List.mem_singleton, List.mem_nil_iff, or_false]
  by_contra hn
  simp only [not_or] at hn
  obtain ⟨h1, h2, h3, h4⟩ := hn
  unfold create_operation_algo at h
  rw [if_neg h1, if_neg h2, if_neg h3, if_neg h4] at h
  cases h

theorem create_operation_init_res (operation algorithm : Nat) (nonce : List Nat)
    (op_mode mac_length : Nat) (trace : List Event)
    (h : algorithm ∈
      [KM_ALGORITHM_AES, KM_ALGORITHM_RSA, KM_ALGORITHM_EC, KM_ALGORITHM_HMAC]) :
    (create_operation_init operation algorithm nonce op_mode mac_length trace).res
      = TEE_SUCCESS := by
  simp only [List.mem_cons, List.mem_singleton, List.mem_nil_iff, or_false] at h
  unfold create_operation_init
  split_ifs with h1 h2 h3 h4
  · rfl
  · rfl
  · rfl
  · rfl
  · exfalso
    rcases h with h | h | h | h
    · exact h1 h
    · exact h3 (Or.inl h)
    · exact h3 (Or.inr h)
    · exact h4 h

/-- C17, as stated, fails: for RSA with PKCS#1 v1.5 signature padding, SHA-256 and purpose
sign, a `TEE_AllocateOperation` that fails with `TEE_ERROR_OUT_OF_MEMORY` makes
`TA_create_operation` return `TEE_ERROR_OUT_OF_MEMORY`, and so does a failing
`TEE_SetOperationKey`; neither is `KM_ERROR_SECURE_HW_COMMUNICATION_FAILED`. -/
theorem binding_failure_is_not_mapped :
    (TA_create_operation noMemOperation 0 11 KM_PURPOSE_SIGN KM_ALGORITHM_RSA 2048 []
        KM_DIGEST_SHA_2_256 0 KM_PAD_RSA_PKCS1_1_5_SIGN 0).res = TEE_ERROR_OUT_OF_MEMORY ∧
    (TA_create_operation noKeyOperation 0 11 KM_PURPOSE_SIGN KM_ALGORITHM_RSA 2048 []
        KM_DIGEST_SHA_2_256 0 KM_PAD_RSA_PKCS1_1_5_SIGN 0).res = TEE_ERROR_OUT_OF_MEMORY ∧
    TEE_ERROR_OUT_OF_MEMORY ≠ KM_ERROR_SECURE_HW_COMMUNICATION_FAILED := by
  decide

/-- C17, amended: for every request whose parameters resolve to a primitive, a failing
`TEE_AllocateOperation` makes `TA_create_operation` return the code of that call unchanged,
after `TEE_GetObjectInfo1` and the allocation only and with the handle behind `operation` as
it was; a failing `TEE_SetOperationKey` makes it return the code of that call unchanged, with
no initialisation call; and when both succeed it returns `KM_ERROR_OK`: the outcome of the
initialisation call is not examined. -/
theorem binding_failure_returns_tee_code (env : OperationEnv)
    (operation obj_h purpose algorithm key_size : Nat) (nonce : List Nat)
    (digest op_mode padding mac_length algo mode : Nat)
    (hp : purpose ∈ [KM_PURPOSE_ENCRYPT, KM_PURPOSE_DECRYPT, KM_PURPOSE_SIGN,
      KM_PURPOSE_VERIFY, KM_PURPOSE_DERIVE_KEY])
    (hsel : create_operation_algo purpose algorithm key_size digest op_mode padding
      (purpose_to_mode purpose) = .ok (algo, mode)) :
    (env.alloc_res ≠ TEE_SUCCESS →
      TA_create_operation env operation obj_h purpose algorithm key_size nonce digest op_mode
          padding mac_length
        = ⟨env.alloc_res, operation,
            [Event.GetObjectInfo1 obj_h, Event.AllocateOperation algo mode env.maxKeySize]⟩) ∧
    (env.alloc_res = TEE_SUCCESS → env.set_key_res ≠ TEE_SUCCESS →
      TA_create_operation env operation obj_h purpose algorithm key_size nonce digest op_mode
          padding mac_length
        = ⟨env.set_key_res, env.op,
            [Event.GetObjectInfo1 obj_h, Event.AllocateOperation algo mode env.maxKeySize,
             Event.SetOperationKey env.op obj_h]⟩) ∧
    (env.alloc_res = TEE_SUCCESS → env.set_key_res = TEE_SUCCESS →
      (TA_create_operation env operation obj_h purpose algorithm key_size nonce digest op_mode
          padding mac_length).res = KM_ERROR_OK) := by
  have hv := purpose_to_mode_valid purpose hp
  have halg := create_operation_algo_ok_algorithm _ _ _ _ _ _ _ _ hsel
  refine ⟨fun ha => ?_, fun ha hs => ?_, fun ha hs => ?_⟩
  · simp only [TA_create_operation, hv, if_false, hsel, ha, ne_eq, not_false_eq_true, if_true]
  · simp only [TA_create_operation, hv, if_false, hsel, ha, hs, ne_eq, not_true_eq_false,
      not_false_eq_true, if_true, List.cons_append, List.nil_append]
  · simp only [TA_create_operation, hv, if_false, hsel, ha, hs, ne_eq, not_true_eq_false]
    exact create_operation_init_res _ _ _ _ _ _ halg

/-- Witness for the amended C17: the allocation fails for an RSA signature request. -/
theorem binding_failure_returns_tee_code_witness :
    TA_create_operation noMemOperation 0 11 KM_PURPOSE_SIGN KM_ALGORITHM_RSA 2048 []
        KM_DIGEST_SHA_2_256 0 KM_PAD_RSA_PKCS1_1_5_SIGN 0
      = ⟨TEE_ERROR_OUT_OF_MEMORY, 0,
          [Event.GetObjectInfo1 11,
           Event.AllocateOperation TEE_ALG_RSASSA_PKCS1_V1_5_SHA256 TEE_MODE_SIGN 2048]⟩ :=
  (binding_failure_returns_tee_code noMemOperation 0 11 KM_PURPOSE_SIGN KM_ALGORITHM_RSA 2048
    [] KM_DIGEST_SHA_2_256 0 KM_PAD_RSA_PKCS1_1_5_SIGN 0 TEE_ALG_RSASSA_PKCS1_V1_5_SHA256
    TEE_MODE_SIGN (by decide) rfl).1 (by decide)

/-- C18 fails on the code: for AES with the block mode 99, which is none of ECB, CBC, CTR and
GCM, `TA_create_operation` allocates `TEE_ALG_AES_GCM` (the default branch of the selection)
and initialises the operation with `TEE_CipherInit` (the initialisation tests
`op_mode == KM_MODE_GCM`); for the block mode GCM it allocates `TEE_ALG_AES_GCM` and calls
`TEE_AEInit` with nonce, `mac_length`, 0, 0, and for CBC it allocates `TEE_ALG_AES_CBC_NOPAD`
and calls `TEE_CipherInit`. -/
theorem aes_unlisted_mode_gcm_with_cipher_init :
    TA_create_operation okOperation 0 11 KM_PURPOSE_ENCRYPT KM_ALGORITHM_AES 128 [1, 2, 3]
        KM_DIGEST_NONE 99 KM_PAD_NONE 128
      = ⟨TEE_SUCCESS, 9,
          [Event.GetObjectInfo1 11,
           Event.AllocateOperation TEE_ALG_AES_GCM TEE_MODE_ENCRYPT 2048,
           Event.SetOperationKey 9 11, Event.CipherInit 9 [1, 2, 3]]⟩ ∧
    TA_create_operation okOperation 0 11 KM_PURPOSE_ENCRYPT KM_ALGORITHM_AES 128 [1, 2, 3]
        KM_DIGEST_NONE KM_MODE_GCM KM_PAD_NONE 128
      = ⟨TEE_SUCCESS, 9,
          [Event.GetObjectInfo1 11,
           Event.AllocateOperation TEE_ALG_AES_GCM TEE_MODE_ENCRYPT 2048,
           Event.SetOperationKey 9 11, Event.AEInit 9 [1, 2, 3] 128 0 0]⟩ ∧
    TA_create_operation okOperation 0 11 KM_PURPOSE_ENCRYPT KM_ALGORITHM_AES 128 [1, 2, 3]
        KM_DIGEST_NONE KM_MODE_CBC KM_PAD_NONE 128
      = ⟨TEE_SUCCESS, 9,
          [Event.GetObjectInfo1 11,
           Event.AllocateOperation TEE_ALG_AES_CBC_NOPAD TEE_MODE_ENCRYPT 2048,
           Event.SetOperationKey 9 11, Event.CipherInit 9 [1, 2, 3]]⟩ := by
  decide

/-! ## Alignment check of the wrap engine -/

theorem open_secret_key_trace_kinds (c : MasterConsts) (env : OpenEnv) (st : Statics)
    (secretKey : Nat) :
    ∀ e ∈ (TA_open_secret_key c env st secretKey).trace,
      e.isStorage = true ∨ e.isKeyObject = true := by
  unfold TA_open_secret_key open_close
  simp only []
  split_ifs <;> simp [Event.isStorage, Event.isKeyObject]

theorem execute_unaligned (c : MasterConsts) (P : AEAD) (env : ExecEnv) (st : Statics)
    (data : List Nat) (mode : Nat) (h : data.length % c.BLOCK_SIZE ≠ 0) :
    (TA_execute c P env st data mode).data = data ∧
    (TA_execute c P env st data mode).trace
      = (TA_open_secret_key c env.open_env st TEE_HANDLE_NULL).trace ∧
    ((TA_open_secret_key c env.open_env st TEE_HANDLE_NULL).res = TEE_SUCCESS →
      env.malloc_ok = true →
      (TA_execute c P env st data mode).res = KM_ERROR_UNKNOWN_ERROR) := by
  by_cases ho : (TA_open_secret_key c env.open_env st TEE_HANDLE_NULL).res = KM_ERROR_OK
  · by_cases hm : env.malloc_ok = true
    · simp only [TA_execute, ho, hm, h, ne_eq, not_true_eq_false, not_false_eq_true,
        if_false, if_true, Bool.not_true, Bool.false_eq_true, implies_true, and_self]
    · simp only [TA_execute, ho, hm, ne_eq, not_true_eq_false, if_false, Bool.not_eq_true,
        Bool.not_false, if_true, Bool.not_eq_true', true_and]
      simp only [Bool.not_eq_true] at hm
      simp [hm]
  · simp only [TA_execute, ho, ne_eq, not_false_eq_true, if_true, true_and]
    intro ho1
    exact absurd ho1 ho

/-- C19, as stated, fails: for a buffer of 5 bytes with blocks of 16, in a fresh trusted
application `TA_encrypt` returns `KM_ERROR_UNKNOWN_ERROR` only after `TA_open_secret_key` has
read the storage and allocated and populated the master-key object; when no master key is
stored `TA_decrypt` returns `TEE_ERROR_ITEM_NOT_FOUND`, and when `TEE_Malloc` fails
`TA_encrypt` returns `KM_ERROR_MEMORY_ALLOCATION_FAILED`. -/
theorem unaligned_size_after_key_open :
    [1, 2, 3, 4, 5].length % exConsts.BLOCK_SIZE ≠ 0 ∧
    TA_encrypt exConsts flipAEAD okExec (Statics.init exConsts) [1, 2, 3, 4, 5]
      = ⟨KM_ERROR_UNKNOWN_ERROR, [1, 2, 3, 4, 5],
          ⟨7, List.replicate 16 2, List.replicate 16 0, 16⟩,
          [Event.OpenPersistentObject, Event.ReadObjectData 5 16, Event.ReadObjectData 5 16,
           Event.AllocateTransientObject TEE_TYPE_AES 128,
           Event.PopulateTransientObject 7
             [⟨TEE_ATTR_SECRET_VALUE, .ref (List.replicate 16 1)⟩],
           Event.CloseObject 5]⟩ ∧
    (TA_decrypt exConsts flipAEAD noKeyExec (Statics.init exConsts) [1, 2, 3, 4, 5]).res
      = TEE_ERROR_ITEM_NOT_FOUND ∧
    (TA_encrypt exConsts flipAEAD noMemExec (cachedStatics 0) [1, 2, 3, 4, 5]).res
      = KM_ERROR_MEMORY_ALLOCATION_FAILED := by
  decide

/-- C19, amended: for every size that is not a multiple of `BLOCK_SIZE`, `TA_encrypt` and
`TA_decrypt` leave the caller's data buffer unchanged and make no call into the TEE other
than those of `TA_open_secret_key` (storage and master-key object; none at all when the
master key is cached), so no operation is allocated and no AEAD call is made; and when
`TA_open_secret_key` succeeds and `TEE_Malloc` gives the output buffer they return
`KM_ERROR_UNKNOWN_ERROR`. -/
theorem unaligned_size_rejected (c : MasterConsts) (P : AEAD) (env : ExecEnv) (st : Statics)
    (data : List Nat) (h : data.length % c.BLOCK_SIZE ≠ 0) :
    (TA_encrypt c P env st data).data = data ∧
    (TA_decrypt c P env st data).data = data ∧
    (TA_encrypt c P env st data).trace
      = (TA_open_secret_key c env.open_env st TEE_HANDLE_NULL).trace ∧
    (TA_decrypt c P env st data).trace
      = (TA_open_secret_key c env.open_env st TEE_HANDLE_NULL).trace ∧
    (∀ e ∈ (TA_encrypt c P env st data).trace ++ (TA_decrypt c P env st data).trace,
      e.isStorage = true ∨ e.isKeyObject = true) ∧
    (st.masterKey ≠ TEE_HANDLE_NULL →
      (TA_encrypt c P env st data).trace = [] ∧ (TA_decrypt c P env st data).trace = []) ∧
    ((TA_open_secret_key c env.open_env st TEE_HANDLE_NULL).res = TEE_SUCCESS →
      env.malloc_ok = true →
      (TA_encrypt c P env st data).res = KM_ERROR_UNKNOWN_ERROR ∧
      (TA_decrypt c P env st data).res = KM_ERROR_UNKNOWN_ERROR) := by
  obtain ⟨e1, e2, e3⟩ := execute_unaligned c P env st data TEE_MODE_ENCRYPT h
  obtain ⟨d1, d2, d3⟩ := execute_unaligned c P env st data TEE_MODE_DECRYPT h
  have e2' : (TA_encrypt c P env st data).trace
      = (TA_open_secret_key c env.open_env st TEE_HANDLE_NULL).trace := e2
  have d2' : (TA_decrypt c P env st data).trace
      = (TA_open_secret_key c env.open_env st TEE_HANDLE_NULL).trace := d2
  refine ⟨e1, d1, e2', d2', ?_, ?_, fun ho hm => ⟨e3 ho hm, d3 ho hm⟩⟩
  · intro e he
    rw [e2', d2', List.mem_append, or_self] at he
    exact open_secret_key_trace_kinds c env.open_env st TEE_HANDLE_NULL e he
  · intro hkey
    rw [e2', d2', TA_open_secret_key_cached c env.open_env st _ hkey]
    exact ⟨rfl, rfl⟩

/-- Witness for the amended C19: 5 bytes with a cached master key. -/
theorem unaligned_size_rejected_witness :
    (TA_encrypt exConsts flipAEAD okExec (cachedStatics 0) [1, 2, 3, 4, 5]).res
      = KM_ERROR_UNKNOWN_ERROR ∧
    (TA_encrypt exConsts flipAEAD okExec (cachedStatics 0) [1, 2, 3, 4, 5]).data
      = [1, 2, 3, 4, 5] ∧
    (TA_encrypt exConsts flipAEAD okExec (cachedStatics 0) [1, 2, 3, 4, 5]).trace = [] := by
  have h := unaligned_size_rejected exConsts flipAEAD okExec (cachedStatics 0) [1, 2, 3, 4, 5]
    (by decide)
  exact ⟨(h.2.2.2.2.2.2 (by decide) rfl).1, h.1, (h.2.2.2.2.2.1 (by decide)).1⟩

/-! ## HMAC key size at import -/

theorem check_hmac_key_size_hashed (l : HmacLimits) (D : DigestPrim) (env : HmacSizeEnv)
    (key_data : keymaster_blob_t) (key_size digest algo min max : Nat)
    (hlim : hmac_digest_limits l digest = some (min, max))
    (halgo : digest_algo digest = some algo)
    (hlen : max / 8 < key_data.data_length)
    (hmin : min / 8
      < ((D algo (key_data.data.take key_data.data_length)).2.take 64).length)
    (hok : (TA_check_hmac_key_size l D env key_data key_size digest).res = KM_ERROR_OK) :
    TA_check_hmac_key_size l D env key_data key_size digest
      = ⟨KM_ERROR_OK,
          ⟨overwrite key_data.data
              ((D algo (key_data.data.take key_data.data_length)).2.take 64),
            ((D algo (key_data.data.take key_data.data_length)).2.take 64).length⟩,
          ((D algo (key_data.data.take key_data.data_length)).2.take 64).length * 8,
          [Event.AllocateOperation algo TEE_MODE_DIGEST 0,
           Event.DigestDoFinal env.op (key_data.data.take key_data.data_length),
           Event.FreeOperation env.op]⟩ := by
  have hne : key_data.data_length ≠ 0 := by omega
  have hnp : ¬ (((D algo (key_data.data.take key_data.data_length)).2.take 64).length
      ≤ min / 8) := by omega
  have hhw : ¬ (KM_ERROR_SECURE_HW_COMMUNICATION_FAILED = KM_ERROR_OK) := by decide
  by_cases ha : env.alloc_res = TEE_SUCCESS
  · by_cases hr : (D algo (key_data.data.take key_data.data_length)).1 = KM_ERROR_OK
    · simp only [TA_check_hmac_key_size, hne, if_false, hlim, hlen, gt_iff_lt, if_true,
        TA_create_digest_op, halgo, ha, ne_eq, not_true_eq_false, hr, hmac_pad, hnp,
        List.cons_append, List.nil_append]
    · simp only [TA_check_hmac_key_size, hne, if_false, hlim, hlen, gt_iff_lt, if_true,
        TA_create_digest_op, halgo, ha, ne_eq, not_true_eq_false, hr, not_false_eq_true]
        at hok
  · simp only [TA_check_hmac_key_size, hne, if_false, hlim, hlen, gt_iff_lt, if_true,
      TA_create_digest_op, halgo, ha, ne_eq, not_false_eq_true, hhw] at hok

/-- C20. Import-time hash-down: for each of the six digests, with limits for which the
native output size of the digest (16, 20, 28, 32, 48, 64 bytes) lies above `min / 8` and not
above `max / 8`, and a digest primitive that delivers a hash of the native size, for every
key whose byte length is greater than `max / 8` a successful `TA_check_hmac_key_size` leaves
as key bytes the hash of the original key under the TEE algorithm of that same digest, sets
`data_length` to the native size and `*key_size` to 8 times that size; the digest operation
is allocated, used once on the original key and freed, and no zero-padding follows
(`data_length` is the native size, not `min / 8`). -/
theorem hmac_import_hash_down (l : HmacLimits) (D : DigestPrim) (env : HmacSizeEnv)
    (key_data : keymaster_blob_t) (key_size digest algo n min max : Nat)
    (ht : (digest, algo, n) ∈ [(KM_DIGEST_MD5, TEE_ALG_MD5, 16),
      (KM_DIGEST_SHA1, TEE_ALG_SHA1, 20), (KM_DIGEST_SHA_2_224, TEE_ALG_SHA224, 28),
      (KM_DIGEST_SHA_2_256, TEE_ALG_SHA256, 32), (KM_DIGEST_SHA_2_384, TEE_ALG_SHA384, 48),
      (KM_DIGEST_SHA_2_512, TEE_ALG_SHA512, 64)])
    (hlim : hmac_digest_limits l digest = some (min, max))
    (hmin : min / 8 < n) (hmax : n ≤ max / 8)
    (hbuf : key_data.data_length ≤ key_data.data.length)
    (hlen : max / 8 < key_data.data_length)
    (hhash : (D algo (key_data.data.take key_data.data_length)).2.length = n)
    (hok : (TA_check_hmac_key_size l D env key_data key_size digest).res = KM_ERROR_OK) :
    (TA_check_hmac_key_size l D env key_data key_size digest).key_data.data.take
        (TA_check_hmac_key_size l D env key_data key_size digest).key_data.data_length
      = (D algo (key_data.data.take key_data.data_length)).2 ∧
    (TA_check_hmac_key_size l D env key_data key_size digest).key_data.data_length = n ∧
    (TA_check_hmac_key_size l D env key_data key_size digest).key_size = 8 * n ∧
    (TA_check_hmac_key_size l D env key_data key_size digest).trace
      = [Event.AllocateOperation algo TEE_MODE_DIGEST 0,
         Event.DigestDoFinal env.op (key_data.data.take key_data.data_length),
         Event.FreeOperation env.op] := by
  have hn64 : n ≤ 64 := by
    simp only [List.mem_cons, List.mem_singleton, List.mem_nil_iff, or_false,
      Prod.mk.injEq] at ht
    omega
  have halgo : digest_algo digest = some algo := by
    simp only [List.mem_cons, List.mem_singleton, List.mem_nil_iff, or_false,
      Prod.mk.injEq] at ht
    rcases ht with ⟨rfl, rfl, -⟩ | ⟨rfl, rfl, -⟩ | ⟨rfl, rfl, -⟩ | ⟨rfl, rfl, -⟩ |
      ⟨rfl, rfl, -⟩ | ⟨rfl, rfl, -⟩ <;> rfl
  have htake : (D algo (key_data.data.take key_data.data_length)).2.take 64
      = (D algo (key_data.data.take key_data.data_length)).2 :=
    List.take_of_length_le (by omega)
  have hfull := check_hmac_key_size_hashed l D env key_data key_size digest algo min max hlim
    halgo hlen (by rw [htake, hhash]; exact hmin) hok
  rw [htake, hhash] at hfull
  rw [hfull]
  refine ⟨?_, rfl, Nat.mul_comm _ _, rfl⟩
  simp only
  rw [← hhash]
  exact take_overwrite _ _ (by omega)

set_option maxRecDepth 8000 in
/-- Witness for C20: a key of 128 bytes with SHA-256 and limits of 64 to 512 bits. -/
theorem hmac_import_hash_down_witness :
    (TA_check_hmac_key_size exLimits sumDigest okHmacSize longKey 1024
        KM_DIGEST_SHA_2_256).key_data.data_length = 32 ∧
    (TA_check_hmac_key_size exLimits sumDigest okHmacSize longKey 1024
        KM_DIGEST_SHA_2_256).key_size = 8 * 32 := by
  have h := hmac_import_hash_down exLimits sumDigest okHmacSize longKey 1024
    KM_DIGEST_SHA_2_256 TEE_ALG_SHA256 32 64 512 (by decide) rfl (by decide) (by decide)
    (by decide) (by decide) (by decide) (by decide)
  exact ⟨h.2.1, h.2.2.1⟩

theorem check_hmac_key_size_not_hashed (l : HmacLimits) (D : DigestPrim) (env : HmacSizeEnv)
    (key_data : keymaster_blob_t) (key_size digest min max : Nat)
    (hne : key_data.data_length ≠ 0)
    (hlim : hmac_digest_limits l digest = some (min, max))
    (hle : key_data.data_length ≤ max / 8) :
    TA_check_hmac_key_size l D env key_data key_size digest
      = hmac_pad (min / 8) env.malloc_ok key_data key_size [] := by
  have hng : ¬ (max / 8 < key_data.data_length) := by omega
  simp only [TA_check_hmac_key_size, hne, if_false, hlim, gt_iff_lt, hng]

theorem overwrite_zeros (m : Nat) (key : List Nat) (h : key.length ≤ m) :
    overwrite (List.replicate m 0) key = key ++ List.replicate (m - key.length) 0 := by
  unfold overwrite
  rw [List.length_replicate, List.take_of_length_le h, List.drop_replicate]

theorem hmac_digest_limits_row (l : HmacLimits) (digest min max : Nat)
    (ht : (digest, min, max) ∈ [(KM_DIGEST_MD5, l.MIN_HMAC_MD5, l.MAX_HMAC_MD5),
      (KM_DIGEST_SHA1, l.MIN_HMAC_SHA1, l.MAX_HMAC_SHA1),
      (KM_DIGEST_SHA_2_224, l.MIN_HMAC_SHA224, l.MAX_HMAC_SHA224),
      (KM_DIGEST_SHA_2_256, l.MIN_HMAC_SHA256, l.MAX_HMAC_SHA256),
      (KM_DIGEST_SHA_2_384, l.MIN_HMAC_SHA384, l.MAX_HMAC_SHA384),
      (KM_DIGEST_SHA_2_512, l.MIN_HMAC_SHA512, l.MAX_HMAC_SHA512)]) :
    hmac_digest_limits l digest = some (min, max) := by
  simp only [List.mem_cons, List.mem_singleton, List.mem_nil_iff, or_false,
    Prod.mk.injEq] at ht
  rcases ht with h | h | h | h | h | h <;> obtain ⟨rfl, rfl, rfl⟩ := h <;> rfl

/-- C23. Import-time rejection: for every digest value `TA_check_hmac_key_size` returns
`KM_ERROR_UNSUPPORTED_KEY_SIZE` when `key_data->data_length` is 0, and for a non-empty key
with a digest outside the six it returns `KM_ERROR_INCOMPATIBLE_DIGEST`; in both cases the
key buffer, `data_length` and `*key_size` are as before the call and no call into the TEE is
made, so no digest operation is created. -/
theorem hmac_import_rejection (l : HmacLimits) (D : DigestPrim) (env : HmacSizeEnv)
    (key_data : keymaster_blob_t) (key_size digest : Nat) :
    (key_data.data_length = 0 →
      TA_check_hmac_key_size l D env key_data key_size digest
        = ⟨KM_ERROR_UNSUPPORTED_KEY_SIZE, key_data, key_size, []⟩) ∧
    (key_data.data_length ≠ 0 →
      digest ∉ [KM_DIGEST_MD5, KM_DIGEST_SHA1, KM_DIGEST_SHA_2_224, KM_DIGEST_SHA_2_256,
        KM_DIGEST_SHA_2_384, KM_DIGEST_SHA_2_512] →
      TA_check_hmac_key_size l D env key_data key_size digest
        = ⟨KM_ERROR_INCOMPATIBLE_DIGEST, key_data, key_size, []⟩) := by
  refine ⟨fun h0 => ?_, fun hne hd => ?_⟩
  · simp only [TA_check_hmac_key_size, h0, if_true]
  · simp only [List.mem_cons, List.mem_singleton, List.mem_nil_iff, or_false, not_or] at hd
    obtain ⟨h1, h2, h3, h4, h5, h6⟩ := hd
    simp only [TA_check_hmac_key_size, hne, if_false, hmac_digest_limits, h1, h2, h3, h4, h5,
      h6]

/-- Witness for C23: the empty key with SHA-256 and the key of one byte with digest
`KM_DIGEST_NONE`. -/
theorem hmac_import_rejection_witness :
    TA_check_hmac_key_size exLimits sumDigest okHmacSize ⟨[7], 0⟩ 0 KM_DIGEST_SHA_2_256
      = ⟨KM_ERROR_UNSUPPORTED_KEY_SIZE, ⟨[7], 0⟩, 0, []⟩ ∧
    TA_check_hmac_key_size exLimits sumDigest okHmacSize shortKey 8 KM_DIGEST_NONE
      = ⟨KM_ERROR_INCOMPATIBLE_DIGEST, shortKey, 8, []⟩ :=
  ⟨(hmac_import_rejection exLimits sumDigest okHmacSize ⟨[7], 0⟩ 0 KM_DIGEST_SHA_2_256).1 rfl,
    (hmac_import_rejection exLimits sumDigest okHmacSize shortKey 8 KM_DIGEST_NONE).2
      (by decide) (by decide)⟩

theorem hmac_type_limits_row (l : HmacLimits) (t : Nat × Nat × Nat)
    (ht : t ∈ [(TEE_TYPE_HMAC_MD5, l.MIN_HMAC_MD5, l.MAX_HMAC_MD5),
        (TEE_TYPE_HMAC_SHA1, l.MIN_HMAC_SHA1, l.MAX_HMAC_SHA1),
        (TEE_TYPE_HMAC_SHA224, l.MIN_HMAC_SHA224, l.MAX_HMAC_SHA224),
        (TEE_TYPE_HMAC_SHA256, l.MIN_HMAC_SHA256, l.MAX_HMAC_SHA256),
        (TEE_TYPE_HMAC_SHA384, l.MIN_HMAC_SHA384, l.MAX_HMAC_SHA384),
        (TEE_TYPE_HMAC_SHA512, l.MIN_HMAC_SHA512, l.MAX_HMAC_SHA512)]) :
    hmac_type_limits l t.1 = some (t.2.1, t.2.2) := by
  simp only [List.mem_cons, List.mem_singleton, List.mem_nil_iff, or_false] at ht
  rcases ht with rfl | rfl | rfl | rfl | rfl | rfl <;>
    simp [hmac_type_limits, TEE_TYPE_HMAC_MD5, TEE_TYPE_HMAC_SHA1, TEE_TYPE_HMAC_SHA224,
      TEE_TYPE_HMAC_SHA256, TEE_TYPE_HMAC_SHA384, TEE_TYPE_HMAC_SHA512]

/-- C24. Restore-time check: for each of the six `TEE_TYPE_HMAC_*` types with bit limits
`(min, max)` and every stored bit length `k`, `TA_check_hmac_key` returns
`KM_ERROR_UNSUPPORTED_KEY_SIZE` and leaves `*key_size` at `k` when `k > max`, and otherwise
returns `KM_ERROR_OK` with `*key_size = max(k, min)`, so every `k` below `min`, 0 included,
is clamped to `min`; for any other type it returns `KM_ERROR_INCOMPATIBLE_DIGEST` with
`*key_size` unchanged. The function has the type and the bit length as its only inputs and
the result and the bit length as its only outputs: it has no access to key bytes and calls no
digest. -/
theorem hmac_restore_check (l : HmacLimits) :
    (∀ t ∈ [(TEE_TYPE_HMAC_MD5, l.MIN_HMAC_MD5, l.MAX_HMAC_MD5),
        (TEE_TYPE_HMAC_SHA1, l.MIN_HMAC_SHA1, l.MAX_HMAC_SHA1),
        (TEE_TYPE_HMAC_SHA224, l.MIN_HMAC_SHA224, l.MAX_HMAC_SHA224),
        (TEE_TYPE_HMAC_SHA256, l.MIN_HMAC_SHA256, l.MAX_HMAC_SHA256),
        (TEE_TYPE_HMAC_SHA384, l.MIN_HMAC_SHA384, l.MAX_HMAC_SHA384),
        (TEE_TYPE_HMAC_SHA512, l.MIN_HMAC_SHA512, l.MAX_HMAC_SHA512)],
      ∀ k : Nat,
        (k > t.2.2 →
          TA_check_hmac_key l t.1 (some k) = (KM_ERROR_UNSUPPORTED_KEY_SIZE, some k)) ∧
        (k ≤ t.2.2 →
          TA_check_hmac_key l t.1 (some k) = (KM_ERROR_OK, some (Nat.max k t.2.1))) ∧
        TA_check_hmac_key l t.1 (some 0) = (KM_ERROR_OK, some t.2.1)) ∧
    (∀ type k : Nat,
      type ∉ [TEE_TYPE_HMAC_MD5, TEE_TYPE_HMAC_SHA1, TEE_TYPE_HMAC_SHA224,
        TEE_TYPE_HMAC_SHA256, TEE_TYPE_HMAC_SHA384, TEE_TYPE_HMAC_SHA512] →
      TA_check_hmac_key l type (some k) = (KM_ERROR_INCOMPATIBLE_DIGEST, some k)) := by
  have row : ∀ type min max : Nat, hmac_type_limits l type = some (min, max) → ∀ k : Nat,
      (k > max → TA_check_hmac_key l type (some k) = (KM_ERROR_UNSUPPORTED_KEY_SIZE, some k)) ∧
      (k ≤ max → TA_check_hmac_key l type (some k) = (KM_ERROR_OK, some (Nat.max k min))) := by
    intro type min max hl k
    refine ⟨fun hk => ?_, fun hk => ?_⟩
    · simp only [TA_check_hmac_key, hl, hk, if_true]
    · have hng : ¬ (k > max) := by omega
      by_cases hlt : k < min
      · have e : Nat.max k min = min := Nat.max_eq_right (by omega)
        simp only [TA_check_hmac_key, hl, hng, if_false, hlt, if_true, e]
      · have e : Nat.max k min = k := Nat.max_eq_left (by omega)
        simp only [TA_check_hmac_key, hl, hng, if_false, hlt, e]
  refine ⟨?_, ?_⟩
  · intro t ht k
    have hl := hmac_type_limits_row l t ht
    refine ⟨(row _ _ _ hl k).1, (row _ _ _ hl k).2, ?_⟩
    have h0 := (row _ _ _ hl 0).2 (Nat.zero_le _)
    have e : Nat.max 0 t.2.1 = t.2.1 := Nat.max_eq_right (Nat.zero_le _)
    rw [h0, e]
  · intro type k ht
    simp only [List.mem_cons, List.mem_singleton, List.mem_nil_iff, or_false, not_or] at ht
    obtain ⟨h1, h2, h3, h4, h5, h6⟩ := ht
    simp only [TA_check_hmac_key, hmac_type_limits, h1, h2, h3, h4, h5, h6, if_false]

/-- Witness for C24: with SHA-256 limits of 64 to 512 bits, 520 bits are rejected and 8 bits
are clamped to 64. -/
theorem hmac_restore_check_witness :
    TA_check_hmac_key exLimits TEE_TYPE_HMAC_SHA256 (some 520)
      = (KM_ERROR_UNSUPPORTED_KEY_SIZE, some 520) ∧
    TA_check_hmac_key exLimits TEE_TYPE_HMAC_SHA256 (some 8) = (KM_ERROR_OK, some 64) :=
  ⟨((hmac_restore_check exLimits).1 (TEE_TYPE_HMAC_SHA256, 64, 512) (by decide) 520).1
      (by decide),
    ((hmac_restore_check exLimits).1 (TEE_TYPE_HMAC_SHA256, 64, 512) (by decide) 8).2.1
      (by decide)⟩

/-- C22. Import-time padding and pass-through: for each of the six digests, with limits
`min / 8 ≤ max / 8`, a key of byte length `L` with `0 < L ≤ min / 8` comes out of
`TA_check_hmac_key_size` (when `TEE_Malloc` gives the new buffer) as a buffer of `min / 8`
bytes with `data_length = min / 8`, whose first `L` bytes are the original key and whose
remaining `min / 8 - L` bytes are zero; a key with `min / 8 < L < max / 8` comes out with the
same buffer and the same length; in both cases the result is `KM_ERROR_OK`, `*key_size` is
left at the caller's value and no call into the TEE is made. -/
theorem hmac_import_pad_and_pass_through (l : HmacLimits) (D : DigestPrim)
    (env : HmacSizeEnv) (key_data : keymaster_blob_t) (key_size digest min max : Nat)
    (ht : (digest, min, max) ∈ [(KM_DIGEST_MD5, l.MIN_HMAC_MD5, l.MAX_HMAC_MD5),
      (KM_DIGEST_SHA1, l.MIN_HMAC_SHA1, l.MAX_HMAC_SHA1),
      (KM_DIGEST_SHA_2_224, l.MIN_HMAC_SHA224, l.MAX_HMAC_SHA224),
      (KM_DIGEST_SHA_2_256, l.MIN_HMAC_SHA256, l.MAX_HMAC_SHA256),
      (KM_DIGEST_SHA_2_384, l.MIN_HMAC_SHA384, l.MAX_HMAC_SHA384),
      (KM_DIGEST_SHA_2_512, l.MIN_HMAC_SHA512, l.MAX_HMAC_SHA512)])
    (hmm : min / 8 ≤ max / 8)
    (hbuf : key_data.data_length ≤ key_data.data.length) :
    (0 < key_data.data_length → key_data.data_length ≤ min / 8 → env.malloc_ok = true →
      TA_check_hmac_key_size l D env key_data key_size digest
        = ⟨KM_ERROR_OK,
            ⟨key_data.data.take key_data.data_length
                ++ List.replicate (min / 8 - key_data.data_length) 0, min / 8⟩,
            key_size, []⟩) ∧
    (min / 8 < key_data.data_length → key_data.data_length < max / 8 →
      TA_check_hmac_key_size l D env key_data key_size digest
        = ⟨KM_ERROR_OK, key_data, key_size, []⟩) := by
  have hlim := hmac_digest_limits_row l digest min max ht
  refine ⟨fun h0 hle hm => ?_, fun hgt hlt => ?_⟩
  · have hlen : (key_data.data.take key_data.data_length).length = key_data.data_length := by
      rw [List.length_take]
      omega
    have hz := overwrite_zeros (min / 8) (key_data.data.take key_data.data_length)
      (by rw [hlen]; exact hle)
    rw [hlen] at hz
    rw [check_hmac_key_size_not_hashed l D env key_data key_size digest min max (by omega)
      hlim (by omega)]
    simp only [hmac_pad, hle, if_true, hm, hz]
  · have hnp : ¬ (key_data.data_length ≤ min / 8) := by omega
    rw [check_hmac_key_size_not_hashed l D env key_data key_size digest min max (by omega)
      hlim (by omega)]
    simp only [hmac_pad, hnp, if_false]

/-- Witness for C22: a SHA-256 key of one byte with a minimum of 64 bits becomes 8 bytes,
the key byte followed by seven zeros. -/
theorem hmac_import_pad_and_pass_through_witness :
    TA_check_hmac_key_size exLimits sumDigest okHmacSize shortKey 8 KM_DIGEST_SHA_2_256
      = ⟨KM_ERROR_OK, ⟨[7, 0, 0, 0, 0, 0, 0, 0], 8⟩, 8, []⟩ :=
  (hmac_import_pad_and_pass_through exLimits sumDigest okHmacSize shortKey 8
    KM_DIGEST_SHA_2_256 64 512 (by decide) (by decide) (by decide)).1 (by decide) (by decide)
    rfl

theorem check_hmac_key_size_hash_succeeds (l : HmacLimits) (D : DigestPrim)
    (env : HmacSizeEnv) (key_data : keymaster_blob_t) (key_size digest algo min max : Nat)
    (hlim : hmac_digest_limits l digest = some (min, max))
    (halgo : digest_algo digest = some algo)
    (hlen : max / 8 < key_data.data_length)
    (hmin : min / 8
      < ((D algo (key_data.data.take key_data.data_length)).2.take 64).length)
    (ha : env.alloc_res = TEE_SUCCESS)
    (hr : (D algo (key_data.data.take key_data.data_length)).1 = KM_ERROR_OK) :
    (TA_check_hmac_key_size l D env key_data key_size digest).res = KM_ERROR_OK := by
  have hne : key_data.data_length ≠ 0 := by omega
  have hnp : ¬ (((D algo (key_data.data.take key_data.data_length)).2.take 64).length
      ≤ min / 8) := by omega
  simp only [TA_check_hmac_key_size, hne, if_false, hlim, hlen, gt_iff_lt, if_true,
    TA_create_digest_op, halgo, ha, ne_eq, not_true_eq_false, hr, hmac_pad, hnp,
    List.cons_append, List.nil_append]

set_option maxRecDepth 8000 in
/-- C21, as stated, fails when `MAX_HMAC_SHA256` is 1024: `max /= 8` gives 128 and the test
`data_length > max` is false for a key of exactly 128 bytes, so the key is not hashed;
`TA_check_hmac_key_size` returns `KM_ERROR_OK` with the 128 bytes and `*key_size = 1024` as
they were and makes no call into the TEE. -/
theorem key_of_max_length_is_not_hashed :
    TA_check_hmac_key_size gpLimits sumDigest okHmacSize longKey 1024 KM_DIGEST_SHA_2_256
      = ⟨KM_ERROR_OK, longKey, 1024, []⟩ ∧
    (TA_check_hmac_key_size gpLimits sumDigest okHmacSize longKey 1024
        KM_DIGEST_SHA_2_256).key_data.data_length ≠ 32 ∧
    (TA_check_hmac_key_size gpLimits sumDigest okHmacSize longKey 1024
        KM_DIGEST_SHA_2_256).key_size ≠ 256 := by
  decide

/-- C21, amended: a key of exactly 128 bytes with digest SHA-256 is hashed only when it is
longer than `MAX_HMAC_SHA256 / 8`. When `MAX_HMAC_SHA256 / 8 < 128` (and `MIN_HMAC_SHA256 / 8`
is below 32, the operation is allocated and `TEE_DigestDoFinal` succeeds with a hash of 32
bytes) `TA_check_hmac_key_size` returns `KM_ERROR_OK` with the key replaced by its SHA-256
hash, `data_length = 32` and `*key_size = 256`. When `128 ≤ MAX_HMAC_SHA256 / 8` (and
`MIN_HMAC_SHA256 / 8 < 128`) it returns `KM_ERROR_OK` with the buffer, `data_length` and
`*key_size` as before the call and no digest operation. -/
theorem sha256_key_of_128_bytes (l : HmacLimits) (D : DigestPrim) (env : HmacSizeEnv)
    (key_data : keymaster_blob_t) (key_size : Nat)
    (hL : key_data.data_length = 128) (hbuf : 128 ≤ key_data.data.length) :
    (l.MAX_HMAC_SHA256 / 8 < 128 → l.MIN_HMAC_SHA256 / 8 < 32 →
      env.alloc_res = TEE_SUCCESS →
      (D TEE_ALG_SHA256 (key_data.data.take 128)).1 = KM_ERROR_OK →
      (D TEE_ALG_SHA256 (key_data.data.take 128)).2.length = 32 →
      (TA_check_hmac_key_size l D env key_data key_size KM_DIGEST_SHA_2_256).res
        = KM_ERROR_OK ∧
      (TA_check_hmac_key_size l D env key_data key_size
          KM_DIGEST_SHA_2_256).key_data.data.take 32
        = (D TEE_ALG_SHA256 (key_data.data.take 128)).2 ∧
      (TA_check_hmac_key_size l D env key_data key_size
          KM_DIGEST_SHA_2_256).key_data.data_length = 32 ∧
      (TA_check_hmac_key_size l D env key_data key_size KM_DIGEST_SHA_2_256).key_size
        = 256) ∧
    (128 ≤ l.MAX_HMAC_SHA256 / 8 → l.MIN_HMAC_SHA256 / 8 < 128 →
      TA_check_hmac_key_size l D env key_data key_size KM_DIGEST_SHA_2_256
        = ⟨KM_ERROR_OK, key_data, key_size, []⟩) := by
  have hlim : hmac_digest_limits l KM_DIGEST_SHA_2_256
      = some (l.MIN_HMAC_SHA256, l.MAX_HMAC_SHA256) := rfl
  have halgo : digest_algo KM_DIGEST_SHA_2_256 = some TEE_ALG_SHA256 := rfl
  refine ⟨fun hmax hmin ha hr hn => ?_, fun hmax hmin => ?_⟩
  · have htake : (D TEE_ALG_SHA256 (key_data.data.take key_data.data_length)).2.take 64
        = (D TEE_ALG_SHA256 (key_data.data.take key_data.data_length)).2 :=
      List.take_of_length_le (by rw [hL, hn]; omega)
    rw [← hL] at hn hr
    have hok := check_hmac_key_size_hash_succeeds l D env key_data key_size
      KM_DIGEST_SHA_2_256 TEE_ALG_SHA256 _ _ hlim halgo (by omega)
      (by rw [htake, hn]; exact hmin) ha hr
    have hfull := check_hmac_key_size_hashed l D env key_data key_size KM_DIGEST_SHA_2_256
      TEE_ALG_SHA256 _ _ hlim halgo (by omega) (by rw [htake, hn]; exact hmin) hok
    rw [htake, hn] at hfull
    rw [hfull]
    refine ⟨rfl, ?_, rfl, rfl⟩
    simp only
    rw [← hL, ← hn]
    exact take_overwrite _ _ (by omega)
  · have hnp : ¬ (key_data.data_length ≤ l.MIN_HMAC_SHA256 / 8) := by omega
    rw [check_hmac_key_size_not_hashed l D env key_data key_size KM_DIGEST_SHA_2_256 _ _
      (by omega) hlim (by omega)]
    simp only [hmac_pad, hnp, if_false]

set_option maxRecDepth 8000 in
/-- Witness for the amended C21: with a maximum of 512 bits the key of 128 bytes is hashed to
32 bytes, each the sum of the key bytes modulo 256. -/
theorem sha256_key_of_128_bytes_witness :
    (TA_check_hmac_key_size exLimits sumDigest okHmacSize longKey 1024
        KM_DIGEST_SHA_2_256).res = KM_ERROR_OK ∧
    (TA_check_hmac_key_size exLimits sumDigest okHmacSize longKey 1024
        KM_DIGEST_SHA_2_256).key_data.data.take 32 = List.replicate 32 128 :=
  have h := (sha256_key_of_128_bytes exLimits sumDigest okHmacSize longKey 1024 rfl
    (by decide)).1 (by decide) (by decide) rfl rfl (by decide)
  ⟨h.1, h.2.1.trans (by decide)⟩

theorem hmac_limits_agree (l : HmacLimits) (digest type : Nat)
    (ht : (digest, type) ∈ [(KM_DIGEST_MD5, TEE_TYPE_HMAC_MD5),
      (KM_DIGEST_SHA1, TEE_TYPE_HMAC_SHA1), (KM_DIGEST_SHA_2_224, TEE_TYPE_HMAC_SHA224),
      (KM_DIGEST_SHA_2_256, TEE_TYPE_HMAC_SHA256), (KM_DIGEST_SHA_2_384, TEE_TYPE_HMAC_SHA384),
      (KM_DIGEST_SHA_2_512, TEE_TYPE_HMAC_SHA512)]) :
    hmac_type_limits l type = hmac_digest_limits l digest := by
  simp only [List.mem_cons, List.mem_singleton, List.mem_nil_iff, or_false,
    Prod.mk.injEq] at ht
  rcases ht with h | h | h | h | h | h <;> obtain ⟨rfl, rfl⟩ := h <;>
    simp [hmac_type_limits, hmac_digest_limits, TEE_TYPE_HMAC_MD5, TEE_TYPE_HMAC_SHA1,
      TEE_TYPE_HMAC_SHA224, TEE_TYPE_HMAC_SHA256, TEE_TYPE_HMAC_SHA384, TEE_TYPE_HMAC_SHA512,
      KM_DIGEST_MD5, KM_DIGEST_SHA1, KM_DIGEST_SHA_2_224, KM_DIGEST_SHA_2_256,
      KM_DIGEST_SHA_2_384, KM_DIGEST_SHA_2_512]

theorem check_hmac_key_in_range (l : HmacLimits) (type k min max : Nat)
    (hl : hmac_type_limits l type = some (min, max)) (h1 : min ≤ k) (h2 : k ≤ max) :
    TA_check_hmac_key l type (some k) = (KM_ERROR_OK, some k) := by
  have hng : ¬ (k > max) := by omega
  have hnl : ¬ (k < min) := by omega
  simp only [TA_check_hmac_key, hl, hng, if_false, hnl]

theorem check_hmac_key_clamped (l : HmacLimits) (type k min max : Nat)
    (hl : hmac_type_limits l type = some (min, max)) (h1 : k < min) (h2 : k ≤ max) :
    TA_check_hmac_key l type (some k) = (KM_ERROR_OK, some min) := by
  have hng : ¬ (k > max) := by omega
  simp only [TA_check_hmac_key, hl, hng, if_false, h1, if_true]

/-- C25. Restore re-validates what import normalised: for each of the six digests, with
limits `(min, max)` where `min` is a multiple of 8 and the native output size `n` of the
digest satisfies `min / 8 < n ≤ max / 8`, and a digest primitive that delivers `n` bytes, for
every non-empty key of byte length `L` with `*key_size = 8 * L` on entry: if
`TA_check_hmac_key_size` succeeds leaving a key of `L1` bytes and a recorded bit length `k1`,
then `TA_check_hmac_key` on the matching `TEE_TYPE_HMAC_*` type and `k1` returns
`KM_ERROR_OK` and yields the bit length `8 * L1`. -/
theorem hmac_restore_accepts_imported (l : HmacLimits) (D : DigestPrim) (env : HmacSizeEnv)
    (key_data : keymaster_blob_t) (key_size digest type algo n min max : Nat)
    (ht : (digest, type, algo, n) ∈ [(KM_DIGEST_MD5, TEE_TYPE_HMAC_MD5, TEE_ALG_MD5, 16),
      (KM_DIGEST_SHA1, TEE_TYPE_HMAC_SHA1, TEE_ALG_SHA1, 20),
      (KM_DIGEST_SHA_2_224, TEE_TYPE_HMAC_SHA224, TEE_ALG_SHA224, 28),
      (KM_DIGEST_SHA_2_256, TEE_TYPE_HMAC_SHA256, TEE_ALG_SHA256, 32),
      (KM_DIGEST_SHA_2_384, TEE_TYPE_HMAC_SHA384, TEE_ALG_SHA384, 48),
      (KM_DIGEST_SHA_2_512, TEE_TYPE_HMAC_SHA512, TEE_ALG_SHA512, 64)])
    (hlim : hmac_digest_limits l digest = some (min, max))
    (hmin8 : min % 8 = 0) (hmin : min / 8 < n) (hmax : n ≤ max / 8)
    (hhash : (D algo (key_data.data.take key_data.data_length)).2.length = n)
    (hL : key_data.data_length ≠ 0)
    (hks : key_size = 8 * key_data.data_length)
    (hok : (TA_check_hmac_key_size l D env key_data key_size digest).res = KM_ERROR_OK) :
    TA_check_hmac_key l type
        (some (TA_check_hmac_key_size l D env key_data key_size digest).key_size)
      = (KM_ERROR_OK,
          some (8 *
            (TA_check_hmac_key_size l D env key_data key_size digest).key_data.data_length)) := by
  simp only [List.mem_cons, List.mem_singleton, List.mem_nil_iff, or_false,
    Prod.mk.injEq] at ht
  have hn64 : n ≤ 64 := by omega
  have halgo : digest_algo digest = some algo := by
    rcases ht with ⟨rfl, -, rfl, -⟩ | ⟨rfl, -, rfl, -⟩ | ⟨rfl, -, rfl, -⟩ | ⟨rfl, -, rfl, -⟩ |
      ⟨rfl, -, rfl, -⟩ | ⟨rfl, -, rfl, -⟩ <;> rfl
  have hty : hmac_type_limits l type = some (min, max) := by
    rw [← hlim]
    apply hmac_limits_agree
    simp only [List.mem_cons, List.mem_singleton, List.mem_nil_iff, or_false, Prod.mk.injEq]
    rcases ht with ⟨h1, h2, -, -⟩ | ⟨h1, h2, -, -⟩ | ⟨h1, h2, -, -⟩ | ⟨h1, h2, -, -⟩ |
      ⟨h1, h2, -, -⟩ | ⟨h1, h2, -, -⟩
    · exact Or.inl ⟨h1, h2⟩
    · exact Or.inr (Or.inl ⟨h1, h2⟩)
    · exact Or.inr (Or.inr (Or.inl ⟨h1, h2⟩))
    · exact Or.inr (Or.inr (Or.inr (Or.inl ⟨h1, h2⟩)))
    · exact Or.inr (Or.inr (Or.inr (Or.inr (Or.inl ⟨h1, h2⟩))))
    · exact Or.inr (Or.inr (Or.inr (Or.inr (Or.inr ⟨h1, h2⟩))))
  by_cases hgt : max / 8 < key_data.data_length
  · have htake : (D algo (key_data.data.take key_data.data_length)).2.take 64
        = (D algo (key_data.data.take key_data.data_length)).2 :=
      List.take_of_length_le (by omega)
    have hfull := check_hmac_key_size_hashed l D env key_data key_size digest algo min max
      hlim halgo hgt (by rw [htake, hhash]; exact hmin) hok
    rw [htake, hhash] at hfull
    rw [hfull]
    simp only
    rw [Nat.mul_comm n 8]
    exact check_hmac_key_in_range l type (8 * n) min max hty (by omega) (by omega)
  · have hnh := check_hmac_key_size_not_hashed l D env key_data key_size digest min max hL
      hlim (by omega)
    rw [hnh] at hok ⊢
    by_cases hle : key_data.data_length ≤ min / 8
    · by_cases hm : env.malloc_ok = true
      · simp only [hmac_pad, hle, if_true, hm]
        have e : 8 * (min / 8) = min := by omega
        rw [e]
        by_cases hlt : key_size < min
        · exact check_hmac_key_clamped l type key_size min max hty hlt (by omega)
        · have e2 : key_size = min := by omega
          rw [e2]
          exact check_hmac_key_in_range l type min min max hty (Nat.le_refl _) (by omega)
      · have hf : env.malloc_ok = false := by simpa using hm
        simp only [hmac_pad, hle, if_true, hf, Bool.false_eq_true, if_false] at hok
        exact absurd hok (by decide)
    · simp only [hmac_pad, hle, if_false]
      rw [hks]
      exact check_hmac_key_in_range l type _ min max hty (by omega) (by omega)

/-- Witness for C25: the SHA-256 key of one byte is padded to 8 bytes at import and the
restore check on its recorded 8 bits yields 64 bits. -/
theorem hmac_restore_accepts_imported_witness :
    TA_check_hmac_key exLimits TEE_TYPE_HMAC_SHA256
        (some (TA_check_hmac_key_size exLimits sumDigest okHmacSize shortKey 8
          KM_DIGEST_SHA_2_256).key_size)
      = (KM_ERROR_OK, some 64) :=
  hmac_restore_accepts_imported exLimits sumDigest okHmacSize shortKey 8 KM_DIGEST_SHA_2_256
    TEE_TYPE_HMAC_SHA256 TEE_ALG_SHA256 32 64 512 (by decide) rfl (by decide) (by decide)
    (by decide) (by decide) (by decide) rfl (by decide)

/-! ## Master key cache -/

/-- C26 fails on the code: with an empty cache, a run in which `TEE_AllocateTransientObject`
gives the handle 7 and `TEE_PopulateTransientObject` fails returns that failure and leaves
`*secretKey` at 42, but the static `masterKey` keeps the handle 7 of the unpopulated object;
the next call, whatever the storage holds, makes no call into the TEE and returns
`TEE_SUCCESS` with the handle 7. A first read that reports `TEE_SUCCESS` with 15 of 16 bytes
returns `TEE_SUCCESS` with the null handle in `*secretKey`. -/
theorem failed_populate_stays_cached :
    TA_open_secret_key exConsts populateFailOpen (Statics.init exConsts) 42
      = ⟨TEE_ERROR_BAD_PARAMETERS, 42,
          ⟨7, List.replicate 16 2, List.replicate 16 0, 16⟩,
          [Event.OpenPersistentObject, Event.ReadObjectData 5 16, Event.ReadObjectData 5 16,
           Event.AllocateTransientObject TEE_TYPE_AES 128,
           Event.PopulateTransientObject 7
             [TEE_InitRefAttribute TEE_ATTR_SECRET_VALUE (List.replicate 16 1)],
           Event.CloseObject 5]⟩ ∧
    TA_open_secret_key exConsts noKeyOpen
        (TA_open_secret_key exConsts populateFailOpen (Statics.init exConsts) 42).st 42
      = ⟨TEE_SUCCESS, 7, ⟨7, List.replicate 16 2, List.replicate 16 0, 16⟩, []⟩ ∧
    (TA_open_secret_key exConsts shortReadOpen (Statics.init exConsts) 42).res = TEE_SUCCESS ∧
    (TA_open_secret_key exConsts shortReadOpen (Statics.init exConsts) 42).secretKey
      = TEE_HANDLE_NULL := by
  decide

/-! ## Key generation -/

theorem generate_out_fields (res : Int) (obj_h : Nat) (km : Mem) (padding : Nat)
    (trace : List Event) :
    (generate_out res obj_h km padding trace).res = res ∧
    (generate_out res obj_h km padding trace).key_material = km ∧
    (generate_out res obj_h km padding trace).padding = padding := by
  unfold generate_out
  split <;> exact ⟨rfl, rfl, rfl⟩

theorem generated_attr_id (env : GenerateEnv) (maxAttr tag : Nat) :
    (generated_attr env maxAttr tag).attributeID = tag := by
  unfold generated_attr
  split <;> rfl

theorem generate_loop_import (env : GenerateEnv) (obj_h maxAttr : Nat) (tags : List Nat) :
    ∀ (km : Mem) (p : Nat) (res : Int) (trace : List Event),
      (generate_loop env obj_h maxAttr km p res trace tags).res = TEE_SUCCESS →
      ((generate_loop env obj_h maxAttr km p res trace tags).key_material,
        (generate_loop env obj_h maxAttr km p res trace tags).padding)
        = import_loop km p (tags.map (generated_attr env maxAttr)) := by
  induction tags with
  | nil =>
    intro km p res trace _
    simp only [generate_loop, List.map_nil, import_loop]
  | cons tag rest ih =>
    intro km p res trace h
    simp only [generate_loop] at h ⊢
    by_cases hv : is_attr_value tag = true
    · simp only [hv, if_true] at h ⊢
      by_cases hr : (env.value_attr tag).1 = TEE_SUCCESS
      · simp only [hr, ne_eq, not_true_eq_false, if_false] at h ⊢
        rw [ih _ _ _ _ h]
        simp only [List.map_cons, import_loop, import_attr, generated_attr, hv, if_true,
          TEE_InitValueAttribute, Content.a, Content.b]
      · simp only [hr, ne_eq, not_false_eq_true, if_true] at h
    · have hf : is_attr_value tag = false := by simpa using hv
      simp only [hf, Bool.false_eq_true, if_false] at h ⊢
      by_cases hr : (env.buffer_attr tag).1 = TEE_SUCCESS
      · simp only [hr, ne_eq, not_true_eq_false, if_false] at h ⊢
        rw [ih _ _ _ _ h]
        simp only [List.map_cons, import_loop, import_attr, generated_attr, hf,
          Bool.false_eq_true, if_false, TEE_InitRefAttribute, Content.length, Content.buffer]
      · simp only [hr, ne_eq, not_false_eq_true, if_true] at h

theorem generate_setup_ok (undefined : Nat) (env : GenerateEnv)
    (algorithm key_size digest e : Nat) (attributes : List Nat) (type : Nat)
    (attrs_in : List TEE_Attribute)
    (h : generate_setup undefined env algorithm key_size digest e
      = .ok (attributes, type, attrs_in)) :
    attributes = TA_get_attrs_list algorithm ∧ import_type algorithm digest = .ok type ∧
    type < U32 ∧ (restore_algorithm type).1 = attributes.length := by
  unfold generate_setup at h
  simp only [] at h
  split_ifs at h with h1 h2 h3 h4 h5 h6 h7 h8 h9 h10 h11 h12 h13 h14
  all_goals simp only [Except.ok.injEq, Prod.mk.injEq] at h
  all_goals obtain ⟨rfl, rfl, -⟩ := h
  · subst h1; exact ⟨rfl, rfl, by decide, by decide⟩
  · subst h2; subst h3; exact ⟨rfl, rfl, by decide, by decide⟩
  · subst h2; subst h4; exact ⟨rfl, rfl, by decide, by decide⟩
  · subst h2; subst h5; exact ⟨rfl, rfl, by decide, by decide⟩
  · subst h2; subst h6; exact ⟨rfl, rfl, by decide, by decide⟩
  · subst h2; subst h7; exact ⟨rfl, rfl, by decide, by decide⟩
  · subst h2; subst h8; exact ⟨rfl, rfl, by decide, by decide⟩
  · subst h9; exact ⟨rfl, rfl, by decide, by decide⟩
  · subst h12; exact ⟨rfl, rfl, by decide, by decide⟩

theorem generate_setup_error (undefined : Nat) (env : GenerateEnv)
    (algorithm key_size digest e : Nat) (err : Int)
    (h : generate_setup undefined env algorithm key_size digest e = .error err) :
    err ≠ TEE_SUCCESS := by
  unfold generate_setup at h
  simp only [] at h
  split_ifs at h
  all_goals simp only [Except.error.injEq] at h
  all_goals subst h
  all_goals decide

theorem schema_tags_32bit (algorithm : Nat) :
    ∀ tag ∈ TA_get_attrs_list algorithm, tag < U32 := by
  unfold TA_get_attrs_list TA_get_attrs_list_short
  simp only [Bool.false_eq_true, if_false]
  split_ifs <;> decide

theorem generated_attr_wf (env : GenerateEnv) (maxAttr tag : Nat) (htag : tag < U32)
    (hmax : maxAttr < U32)
    (hval : (env.value_attr tag).2.1 < U32 ∧ (env.value_attr tag).2.2 < U32) :
    (generated_attr env maxAttr tag).wf = true := by
  unfold generated_attr
  by_cases hv : is_attr_value tag = true
  · simp only [hv, if_true, TEE_Attribute.wf, TEE_InitValueAttribute, htag, hval.1, hval.2,
      decide_True, Bool.and_self]
  · have hf : is_attr_value tag = false := by simpa using hv
    have hlen : ((env.buffer_attr tag).2.take maxAttr).length < U32 := by
      rw [List.length_take]
      omega
    simp only [hf, Bool.false_eq_true, if_false, TEE_Attribute.wf, TEE_InitRefAttribute, htag,
      hlen, decide_True, Bool.not_false, Bool.and_self]

/-- C27. Generation and import write the same format: whenever `TA_generate_key` succeeds
for an algorithm, key size and digest, `TA_import_key` succeeds for the same algorithm, key
size and digest on the attribute list read back from the generated object in the order of
`TA_get_attrs_list(algorithm)` (value form when `is_attr_value` holds of the tag, buffer form
otherwise), and leaves the same bytes in `key_material` and the same number of bytes
written; so, when key size and values are 32-bit, the buffers fit 32-bit lengths, the
records fit the 32-bit offset and the allocations of the decode loop succeed, the decode
steps of `TA_restore_key` on the generated material succeed with the type chosen at import,
the key size and exactly those attributes. -/
theorem generate_writes_import_format (undefined maxAttr : Nat) (env : GenerateEnv)
    (algorithm key_size : Nat) (km0 : Mem) (digest rsa_public_exponent : Nat)
    (hok : (TA_generate_key undefined maxAttr env algorithm key_size km0 digest
      rsa_public_exponent).res = TEE_SUCCESS) :
    ((TA_get_attrs_list algorithm).map (generated_attr env maxAttr)).map
        TEE_Attribute.attributeID = TA_get_attrs_list algorithm ∧
    (TA_import_key algorithm key_size km0 digest
        ((TA_get_attrs_list algorithm).map (generated_attr env maxAttr))).res = KM_ERROR_OK ∧
    (TA_generate_key undefined maxAttr env algorithm key_size km0 digest
        rsa_public_exponent).key_material
      = (TA_import_key algorithm key_size km0 digest
          ((TA_get_attrs_list algorithm).map (generated_attr env maxAttr))).key_material ∧
    (TA_generate_key undefined maxAttr env algorithm key_size km0 digest
        rsa_public_exponent).padding
      = (TA_import_key algorithm key_size km0 digest
          ((TA_get_attrs_list algorithm).map (generated_attr env maxAttr))).padding ∧
    (∀ malloc : Nat → Bool, key_size < U32 → maxAttr < U32 →
      (∀ tag, (env.value_attr tag).2.1 < U32 ∧ (env.value_attr tag).2.2 < U32) →
      serialized_size ((TA_get_attrs_list algorithm).map (generated_attr env maxAttr)) < U32 →
      (∀ i, malloc i = true) →
      (restore_decode true malloc (TA_generate_key undefined maxAttr env algorithm key_size
          km0 digest rsa_public_exponent).key_material).res = KM_ERROR_OK ∧
      import_type algorithm digest = .ok (restore_decode true malloc
        (TA_generate_key undefined maxAttr env algorithm key_size km0 digest
          rsa_public_exponent).key_material).type ∧
      (restore_decode true malloc (TA_generate_key undefined maxAttr env algorithm key_size
          km0 digest rsa_public_exponent).key_material).key_size = key_size ∧
      (restore_decode true malloc (TA_generate_key undefined maxAttr env algorithm key_size
          km0 digest rsa_public_exponent).key_material).st.attrs
        = (TA_get_attrs_list algorithm).map (generated_attr env maxAttr)) := by
  have hids : ((TA_get_attrs_list algorithm).map (generated_attr env maxAttr)).map
      TEE_Attribute.attributeID = TA_get_attrs_list algorithm := by
    rw [List.map_map]
    have hf : TEE_Attribute.attributeID ∘ generated_attr env maxAttr = id := by
      funext tag
      exact generated_attr_id env maxAttr tag
    rw [hf, List.map_id]
  cases hs : generate_setup undefined env algorithm key_size digest rsa_public_exponent with
  | error err =>
    simp only [TA_generate_key, hs] at hok
    exact absurd hok (generate_setup_error _ _ _ _ _ _ _ hs)
  | ok v =>
    obtain ⟨attributes, type, attrs_in⟩ := v
    obtain ⟨hattrs, ht, htype, hcount⟩ := generate_setup_ok _ _ _ _ _ _ _ _ _ hs
    subst hattrs
    have hgen : (TA_generate_key undefined maxAttr env algorithm key_size km0 digest
          rsa_public_exponent).key_material
        = (TA_import_key algorithm key_size km0 digest
            ((TA_get_attrs_list algorithm).map (generated_attr env maxAttr))).key_material ∧
      (TA_generate_key undefined maxAttr env algorithm key_size km0 digest
          rsa_public_exponent).padding
        = (TA_import_key algorithm key_size km0 digest
            ((TA_get_attrs_list algorithm).map (generated_attr env maxAttr))).padding := by
      simp only [TA_generate_key, hs] at hok ⊢
      by_cases ha : env.alloc_res = TEE_SUCCESS
      · by_cases hg : env.generate_res = TEE_SUCCESS
        · simp only [ha, hg, ne_eq, not_true_eq_false, if_false] at hok ⊢
          rw [(generate_out_fields _ _ _ _ _).1] at hok
          rw [(generate_out_fields _ _ _ _ _).2.1, (generate_out_fields _ _ _ _ _).2.2]
          have hl := generate_loop_import env env.obj maxAttr (TA_get_attrs_list algorithm)
            _ _ _ _ hok
          simp only [TA_import_key, ht]
          rw [← hl]
          exact ⟨rfl, rfl⟩
        · simp only [ha, hg, ne_eq, not_true_eq_false, if_false, not_false_eq_true,
            if_true] at hok
          rw [(generate_out_fields _ _ _ _ _).1] at hok
          split_ifs at hok
          · exact absurd hok (by decide)
          · exact absurd hok hg
      · simp only [ha, ne_eq, not_false_eq_true, if_true] at hok
    have himp : (TA_import_key algorithm key_size km0 digest
        ((TA_get_attrs_list algorithm).map (generated_attr env maxAttr))).res
        = KM_ERROR_OK := by
      simp only [TA_import_key, ht]
    refine ⟨hids, himp, hgen.1, hgen.2, ?_⟩
    intro malloc hks hmax hval hfit hm
    rw [hgen.1]
    obtain ⟨r1, r2, r3, r4, -, -, -⟩ := round_trip_core algorithm key_size digest type km0
      ((TA_get_attrs_list algorithm).map (generated_attr env maxAttr)) malloc ht htype
      (by rw [hcount, List.length_map]) hks
      (by
        intro a ha
        obtain ⟨tag, htag, rfl⟩ := List.mem_map.mp ha
        exact generated_attr_wf env maxAttr tag (schema_tags_32bit algorithm tag htag) hmax
          (hval tag))
      hfit hm
    exact ⟨r1, by rw [r2]; exact ht, r3, r4⟩

/-- Witness for C27: a generated EC key of 256 bits decodes to the curve as value record and
the three buffers read back from the object. -/
theorem generate_writes_import_format_witness :
    (TA_generate_key 0 1024 okGenerate KM_ALGORITHM_EC 256 (fun _ => 0) KM_DIGEST_NONE
        0).res = TEE_SUCCESS ∧
    (restore_decode true (fun _ => true)
        (TA_generate_key 0 1024 okGenerate KM_ALGORITHM_EC 256 (fun _ => 0) KM_DIGEST_NONE
          0).key_material).st.attrs
      = [⟨TEE_ATTR_ECC_CURVE, .value 3 0⟩, ⟨TEE_ATTR_ECC_PUBLIC_VALUE_X, .ref [1, 2]⟩,
         ⟨TEE_ATTR_ECC_PUBLIC_VALUE_Y, .ref [1, 2]⟩,
         ⟨TEE_ATTR_ECC_PRIVATE_VALUE, .ref [1, 2]⟩] :=
  ⟨by decide,
    ((generate_writes_import_format 0 1024 okGenerate KM_ALGORITHM_EC 256 (fun _ => 0)
      KM_DIGEST_NONE 0 (by decide)).2.2.2.2 (fun _ => true) (by decide) (by decide)
      (fun _ => ⟨(by decide : (3 : Nat) < U32), (by decide : (0 : Nat) < U32)⟩) (by decide)
      (fun _ => rfl)).2.2.2.trans (by decide)⟩

end KMGK
